import Mathlib

/-!
# RA8876 HDMI shield: block allocator, canvas addressing and the register interface

A shallow embedding of `Memory` (src/Ra8876_Lite/src/memory/memory.cpp, memory.h), of the
canvas addressing, the register interface, the BTE and DMA primitives, the pixel and picture
writes and the clock setup of `Ra8876_Lite` (src/Ra8876_Lite/src/Ra8876_Lite.cpp), of the
blitting functions (Allegro/Blit.cpp) and of the font lookup (bfc/bfcFontMgr.c), followed by
theorems about them.

Conventions of the embedding.
* All supported boards are 32-bit, so `int` is `int32_t`. Unsigned machine integers are `Nat`
  reduced modulo `2^w` where the source truncates; signed ones are `Int`.
* A function returns `none` where the C++ code has no defined result: division by zero, a
  table access outside `memory_tbl`, signed overflow, or a conversion to `int` of a value that
  does not fit.
* `memory_tbl` is a `List Nat` (one `uint16_t` entry per block); the null table of a fresh
  object is the empty list.
* `ra8876lite.getCanvasWidth()` is read from the environment: it is the argument `canvasWidth`.
-/

namespace Ra8876

/-! ## Constants (Ra8876_Lite.h, memory.h) -/

/-- Default SDRAM start address (`const uint32_t CANVAS_OFFSET = 0`). -/
def CANVAS_OFFSET : Nat := 0

/-- Size of the SDRAM in bytes (`32l*1024l*1024l`). -/
def MEM_SIZE_MAX : Nat := 32 * 1024 * 1024

/-- Size threshold that selects the scan policy (`#define MEM_LARGE_BLOCK_THRESHOLD 0`). -/
def MEM_LARGE_BLOCK_THRESHOLD : Nat := 0

/-- First table entry the scans may use (`#define MEM_START_ENTRY CANVAS_OFFSET`). -/
def MEM_START_ENTRY : Nat := CANVAS_OFFSET

/-- Number of canvas lines per memory block (`#define MEM_BLOCK_LN_NUM 4`). -/
def MEM_BLOCK_LN_NUM : Nat := 4

/-! ## The allocator object -/

/-- Private fields of `class Memory`. -/
structure Memory where
  memory_tbl : List Nat
  mem_alloc_tbl_size : Nat
  mem_block_size : Nat
  isMemoryManagementReady : Nat
deriving DecidableEq, Repr

/-- A newly constructed `Memory`: null table, both sizes 0, not ready. -/
def Memory.fresh : Memory :=
  { memory_tbl := [], mem_alloc_tbl_size := 0, mem_block_size := 0, isMemoryManagementReady := 0 }

/-- The value `mem_init` stores in `mem_block_size`:
`(uint16_t)ra8876lite.getCanvasWidth()*MEM_BLOCK_LN_NUM`, truncated to `uint16_t`. -/
def blockSizeFor (canvasWidth : Nat) : Nat :=
  ((canvasWidth % 65536) * MEM_BLOCK_LN_NUM) % 65536

/-- `Memory::mem_init`. The block size is `(uint16_t)getCanvasWidth() * MEM_BLOCK_LN_NUM` stored
in a `uint16_t`; the table size is `MEM_SIZE_MAX / mem_block_size` stored in a `uint16_t`; the
table is newly allocated and zeroed. Division by a zero block size has no defined result. -/
def mem_init (canvasWidth : Nat) (_m : Memory) : Option Memory :=
  let mem_block_size := blockSizeFor canvasWidth
  if mem_block_size = 0 then none
  else
    let mem_alloc_tbl_size := (MEM_SIZE_MAX / mem_block_size) % 65536
    some { memory_tbl := List.replicate mem_alloc_tbl_size 0
           mem_alloc_tbl_size := mem_alloc_tbl_size
           mem_block_size := mem_block_size
           isMemoryManagementReady := 1 }

/-- Number of blocks `mem_malloc` requires: `nmemb = size / mem_block_size`, incremented when
`size % mem_block_size` is non-zero. `nmemb` is an `int`: the result must be below `2^31`. -/
def nmembOf (size mem_block_size : Nat) : Option Nat :=
  if mem_block_size = 0 then none
  else
    let q := size / mem_block_size
    let nmemb := if size % mem_block_size ≠ 0 then q + 1 else q
    if nmemb < 2 ^ 31 then some nmemb else none

/-- The inner loop
`for(vacantSize=0; vacantSize<nmemb && !memory_tbl[offset+vacantSize]; vacantSize++);`
started at `vacantSize` with `remaining = nmemb - vacantSize`; the result is the final
`vacantSize`. -/
def vacantFrom (tbl : List Nat) (offset : Nat) : Nat → Nat → Option Nat
  | vacantSize, 0 => some vacantSize
  | vacantSize, remaining + 1 =>
    match tbl[offset + vacantSize]? with
    | none => none
    | some e => if e = 0 then vacantFrom tbl offset (vacantSize + 1) remaining else some vacantSize

/-- The loop `for(i=0;i<count;i++) memory_tbl[index+i]=value;`, entered at `index`. -/
def writeRun (tbl : List Nat) (value : Nat) : Nat → Nat → Option (List Nat)
  | _, 0 => some tbl
  | index, count + 1 =>
    if index < tbl.length then writeRun (tbl.set index value) value (index + 1) count else none

/-- The `int` result `offset*mem_block_size` of a successful scan. -/
def physicalAddress (offset mem_block_size : Nat) : Option Int :=
  if offset * mem_block_size < 2 ^ 31 then some ((offset * mem_block_size : Nat) : Int) else none

/-- The body shared by both scans once a vacant start block is found: measure the vacant run,
and when it has `nmemb` blocks stamp `nmemb` (as `uint16_t`) on each and return the address.
The result `some none` means that the run was too short and the scan goes on. -/
def tryRun (tbl : List Nat) (mem_block_size nmemb offset : Nat) :
    Option (Option (List Nat × Int)) :=
  match vacantFrom tbl offset 0 nmemb with
  | none => none
  | some vacantSize =>
    if vacantSize = nmemb then
      match writeRun tbl (nmemb % 65536) offset nmemb with
      | none => none
      | some tbl' =>
        match physicalAddress offset mem_block_size with
        | none => none
        | some a => some (some (tbl', a))
    else some none

/-- The forward scan `for(offset=startEntry; offset<mem_alloc_tbl_size-nmemb; offset++)`,
entered at `offset`; `steps` bounds the iterations that are left (the caller passes the whole
table size, which the loop condition never lets it use up). Falling out of the loop gives the
failure value `-1`. -/
def scanForward (tbl : List Nat) (mem_alloc_tbl_size mem_block_size nmemb : Nat) :
    Nat → Nat → Option (List Nat × Int)
  | _, 0 => some (tbl, -1)
  | offset, steps + 1 =>
    if (offset : Int) < (mem_alloc_tbl_size : Int) - (nmemb : Int) then
      match tbl[offset]? with
      | none => none
      | some e =>
        if e = 0 then
          match tryRun tbl mem_block_size nmemb offset with
          | none => none
          | some (some r) => some r
          | some none => scanForward tbl mem_alloc_tbl_size mem_block_size nmemb (offset + 1) steps
        else scanForward tbl mem_alloc_tbl_size mem_block_size nmemb (offset + 1) steps
    else some (tbl, -1)

/-- The backward scan `for(offset=mem_alloc_tbl_size-1; offset>=startEntry; offset--)`; the
argument counts the iterations that are left, so the current `offset` is
`MEM_START_ENTRY + left - 1`. -/
def scanBackward (tbl : List Nat) (mem_alloc_tbl_size mem_block_size nmemb : Nat) :
    Nat → Option (List Nat × Int)
  | 0 => some (tbl, -1)
  | left + 1 =>
    let offset := MEM_START_ENTRY + left
    match tbl[offset]? with
    | none => none
    | some e =>
      if e = 0 ∧ offset + nmemb ≤ mem_alloc_tbl_size then
        match tryRun tbl mem_block_size nmemb offset with
        | none => none
        | some (some r) => some r
        | some none => scanBackward tbl mem_alloc_tbl_size mem_block_size nmemb left
      else scanBackward tbl mem_alloc_tbl_size mem_block_size nmemb left

/-- The lazy initialisation `if(!isMemoryManagementReady) mem_init();` that opens
`mem_malloc`. -/
def ensureReady (canvasWidth : Nat) (m : Memory) : Option Memory :=
  if m.isMemoryManagementReady = 0 then mem_init canvasWidth m else some m

/-- `Memory::mem_malloc` with the size-class threshold as a parameter. The result pairs the
object after the call with the returned `int32_t` (`-1` for failure). -/
def mem_malloc_with (threshold canvasWidth : Nat) (m : Memory) (size : Nat) :
    Option (Memory × Int) :=
  match ensureReady canvasWidth m with
  | none => none
  | some m0 =>
    if size = 0 then some (m0, -1)
    else
      match nmembOf size m0.mem_block_size with
      | none => none
      | some nmemb =>
        let scan :=
          if size > threshold then
            scanForward m0.memory_tbl m0.mem_alloc_tbl_size m0.mem_block_size nmemb
              MEM_START_ENTRY (m0.mem_alloc_tbl_size - MEM_START_ENTRY)
          else
            scanBackward m0.memory_tbl m0.mem_alloc_tbl_size m0.mem_block_size nmemb
              (m0.mem_alloc_tbl_size - MEM_START_ENTRY)
        match scan with
        | none => none
        | some (tbl', r) => some ({ m0 with memory_tbl := tbl' }, r)

/-- `Memory::mem_malloc` as shipped (`MEM_LARGE_BLOCK_THRESHOLD = 0`). -/
def mem_malloc (canvasWidth : Nat) (m : Memory) (size : Nat) : Option (Memory × Int) :=
  mem_malloc_with MEM_LARGE_BLOCK_THRESHOLD canvasWidth m size

/-- `Memory::mem_free`. The test `offset<MEM_SIZE_MAX` compares an `int32_t` with a `uint32_t`,
so `offset` is converted to `uint32_t` first; inside the branch `offset` is therefore
non-negative and `offset/mem_block_size` is a division of naturals. -/
def mem_free (canvasWidth : Nat) (m : Memory) (offset : Int) : Option (Memory × Int) :=
  if m.isMemoryManagementReady = 0 then
    match mem_init canvasWidth m with
    | none => none
    | some m0 => some (m0, 1)
  else if offset % 4294967296 < (MEM_SIZE_MAX : Int) then
    if m.mem_block_size = 0 then none
    else
      let index := offset.toNat / m.mem_block_size
      match m.memory_tbl[index]? with
      | none => none
      | some nmemb =>
        match writeRun m.memory_tbl 0 index nmemb with
        | none => none
        | some tbl' => some ({ m with memory_tbl := tbl' }, 0)
  else some (m, 1)

/-! ## Canvas addressing (Ra8876_Lite.h, Ra8876_Lite.cpp) -/

/-- `enum COLOR_MODE`. -/
inductive COLOR_MODE where
  | COLOR_8BPP_RGB332
  | COLOR_16BPP_RGB565
  | COLOR_24BPP_RGB888
  | COLOR_6BPP_ARGB2222
  | COLOR_12BPP_ARGB4444
deriving DecidableEq, Repr

/-- `Ra8876_Lite::getColorDepth`: bytes per pixel of the colour mode. -/
def getColorDepth : COLOR_MODE → Nat
  | COLOR_MODE.COLOR_8BPP_RGB332 => 1
  | COLOR_MODE.COLOR_6BPP_ARGB2222 => 1
  | COLOR_MODE.COLOR_16BPP_RGB565 => 2
  | COLOR_MODE.COLOR_12BPP_ARGB4444 => 2
  | COLOR_MODE.COLOR_24BPP_RGB888 => 3

/-- Conversion of a `uint32_t` value to `int32_t` (two's complement). -/
def toInt32 (x : Nat) : Int :=
  if x % 4294967296 < 2147483648 then ((x % 4294967296 : Nat) : Int)
  else ((x % 4294967296 : Nat) : Int) - 4294967296

/-- `Ra8876_Lite::canvasAddress_from_lnOffset`, with the fields `_canvasWidth` (`uint16_t`) and
`_colorMode` as arguments. The bound `MEM_SIZE_MAX/(_canvasWidth*bpp)-1` and the product
`lnOffset*_canvasWidth*bpp` are computed in `uint32_t`; the product is then stored in an
`int32_t`. -/
def canvasAddress_from_lnOffset (_canvasWidth : Nat) (_colorMode : COLOR_MODE)
    (lnOffset : Nat) : Option Int :=
  let bpp := getColorDepth _colorMode
  if _canvasWidth * bpp = 0 then none
  else
    let bound := (MEM_SIZE_MAX / (_canvasWidth * bpp) + 4294967296 - 1) % 4294967296
    if lnOffset ≤ bound then
      some (toInt32 ((lnOffset * _canvasWidth % 4294967296) * bpp % 4294967296))
    else some (-1)

/-- The reference conversion of the specification: `lnOffset × width × bytesPerPixel`, failing
(`-1`) when `lnOffset ≥ MEM_SIZE_MAX / (width × bytesPerPixel)`. -/
def addressFromLineOffset (width bytesPerPixel lnOffset : Nat) : Int :=
  if lnOffset < MEM_SIZE_MAX / (width * bytesPerPixel) then
    ((lnOffset * width * bytesPerPixel : Nat) : Int)
  else -1

/-! ## The register interface (Ra8876_Lite.cpp)

The header `Ra8876_Registers.h`, which defines the register addresses and the bit-field
constants, is not among the sources. The register addresses below are the ones that the source
gives in the comment of each register write (`lcdRegDataWrite(RA8876_BTE_CTRL0,...);//90h`); the
bit-field constants that are written as data are the parameters `Codes`. -/

/-- Modelled from the spec: `RA8876_MACR` of the missing header `Ra8876_Registers.h`, register
`02h` in the comments of the source. -/
def RA8876_MACR : Nat := 0x02

/-- Modelled from the spec: `RA8876_MRWDP` of the missing header `Ra8876_Registers.h`, register
`04h` in the comments of the source. -/
def RA8876_MRWDP : Nat := 0x04

/-- Modelled from the spec: `RA8876_CVSSA0` of the missing header `Ra8876_Registers.h`, register
`50h` in the comments of the source. -/
def RA8876_CVSSA0 : Nat := 0x50

/-- Modelled from the spec: `RA8876_CVSSA1` of the missing header `Ra8876_Registers.h`, register
`51h` in the comments of the source. -/
def RA8876_CVSSA1 : Nat := 0x51

/-- Modelled from the spec: `RA8876_CVSSA2` of the missing header `Ra8876_Registers.h`, register
`52h` in the comments of the source. -/
def RA8876_CVSSA2 : Nat := 0x52

/-- Modelled from the spec: `RA8876_CVSSA3` of the missing header `Ra8876_Registers.h`, register
`53h` in the comments of the source. -/
def RA8876_CVSSA3 : Nat := 0x53

/-- Modelled from the spec: `RA8876_AWUL_X0` of the missing header `Ra8876_Registers.h`, register
`56h` in the comments of the source. -/
def RA8876_AWUL_X0 : Nat := 0x56

/-- Modelled from the spec: `RA8876_AWUL_X1` of the missing header `Ra8876_Registers.h`, register
`57h` in the comments of the source. -/
def RA8876_AWUL_X1 : Nat := 0x57

/-- Modelled from the spec: `RA8876_AWUL_Y0` of the missing header `Ra8876_Registers.h`, register
`58h` in the comments of the source. -/
def RA8876_AWUL_Y0 : Nat := 0x58

/-- Modelled from the spec: `RA8876_AWUL_Y1` of the missing header `Ra8876_Registers.h`, register
`59h` in the comments of the source. -/
def RA8876_AWUL_Y1 : Nat := 0x59

/-- Modelled from the spec: `RA8876_AW_WTH0` of the missing header `Ra8876_Registers.h`, register
`5ah` in the comments of the source. -/
def RA8876_AW_WTH0 : Nat := 0x5a

/-- Modelled from the spec: `RA8876_AW_WTH1` of the missing header `Ra8876_Registers.h`, register
`5bh` in the comments of the source. -/
def RA8876_AW_WTH1 : Nat := 0x5b

/-- Modelled from the spec: `RA8876_AW_HT0` of the missing header `Ra8876_Registers.h`, register
`5ch` in the comments of the source. -/
def RA8876_AW_HT0 : Nat := 0x5c

/-- Modelled from the spec: `RA8876_AW_HT1` of the missing header `Ra8876_Registers.h`, register
`5dh` in the comments of the source. -/
def RA8876_AW_HT1 : Nat := 0x5d

/-- Modelled from the spec: `RA8876_CURH0` of the missing header `Ra8876_Registers.h`, register
`5fh` in the comments of the source. -/
def RA8876_CURH0 : Nat := 0x5f

/-- Modelled from the spec: `RA8876_CURH1` of the missing header `Ra8876_Registers.h`, register
`60h` in the comments of the source. -/
def RA8876_CURH1 : Nat := 0x60

/-- Modelled from the spec: `RA8876_CURV0` of the missing header `Ra8876_Registers.h`, register
`61h` in the comments of the source. -/
def RA8876_CURV0 : Nat := 0x61

/-- Modelled from the spec: `RA8876_CURV1` of the missing header `Ra8876_Registers.h`, register
`62h` in the comments of the source. -/
def RA8876_CURV1 : Nat := 0x62

/-- Modelled from the spec: `RA8876_BTE_CTRL0` of the missing header `Ra8876_Registers.h`, register
`90h` in the comments of the source. -/
def RA8876_BTE_CTRL0 : Nat := 0x90

/-- Modelled from the spec: `RA8876_BTE_CTRL1` of the missing header `Ra8876_Registers.h`, register
`91h` in the comments of the source. -/
def RA8876_BTE_CTRL1 : Nat := 0x91

/-- Modelled from the spec: `RA8876_S0_STR0` of the missing header `Ra8876_Registers.h`, register
`93h` in the comments of the source. -/
def RA8876_S0_STR0 : Nat := 0x93

/-- Modelled from the spec: `RA8876_S0_STR1` of the missing header `Ra8876_Registers.h`, register
`94h` in the comments of the source. -/
def RA8876_S0_STR1 : Nat := 0x94

/-- Modelled from the spec: `RA8876_S0_STR2` of the missing header `Ra8876_Registers.h`, register
`95h` in the comments of the source. -/
def RA8876_S0_STR2 : Nat := 0x95

/-- Modelled from the spec: `RA8876_S0_STR3` of the missing header `Ra8876_Registers.h`, register
`96h` in the comments of the source. -/
def RA8876_S0_STR3 : Nat := 0x96

/-- Modelled from the spec: `RA8876_S0_WTH0` of the missing header `Ra8876_Registers.h`, register
`97h` in the comments of the source. -/
def RA8876_S0_WTH0 : Nat := 0x97

/-- Modelled from the spec: `RA8876_S0_WTH1` of the missing header `Ra8876_Registers.h`, register
`98h` in the comments of the source. -/
def RA8876_S0_WTH1 : Nat := 0x98

/-- Modelled from the spec: `RA8876_S0_X0` of the missing header `Ra8876_Registers.h`, register
`99h` in the comments of the source. -/
def RA8876_S0_X0 : Nat := 0x99

/-- Modelled from the spec: `RA8876_S0_X1` of the missing header `Ra8876_Registers.h`, register
`9ah` in the comments of the source. -/
def RA8876_S0_X1 : Nat := 0x9a

/-- Modelled from the spec: `RA8876_S0_Y0` of the missing header `Ra8876_Registers.h`, register
`9bh` in the comments of the source. -/
def RA8876_S0_Y0 : Nat := 0x9b

/-- Modelled from the spec: `RA8876_S0_Y1` of the missing header `Ra8876_Registers.h`, register
`9ch` in the comments of the source. -/
def RA8876_S0_Y1 : Nat := 0x9c

/-- Modelled from the spec: `RA8876_S1_STR0` of the missing header `Ra8876_Registers.h`, register
`9dh` in the comments of the source. -/
def RA8876_S1_STR0 : Nat := 0x9d

/-- Modelled from the spec: `RA8876_S1_STR1` of the missing header `Ra8876_Registers.h`, register
`9eh` in the comments of the source. -/
def RA8876_S1_STR1 : Nat := 0x9e

/-- Modelled from the spec: `RA8876_S1_STR2` of the missing header `Ra8876_Registers.h`, register
`9fh` in the comments of the source. -/
def RA8876_S1_STR2 : Nat := 0x9f

/-- Modelled from the spec: `RA8876_S1_STR3` of the missing header `Ra8876_Registers.h`, register
`a0h` in the comments of the source. -/
def RA8876_S1_STR3 : Nat := 0xa0

/-- Modelled from the spec: `RA8876_S1_WTH0` of the missing header `Ra8876_Registers.h`, register
`a1h` in the comments of the source. -/
def RA8876_S1_WTH0 : Nat := 0xa1

/-- Modelled from the spec: `RA8876_S1_WTH1` of the missing header `Ra8876_Registers.h`, register
`a2h` in the comments of the source. -/
def RA8876_S1_WTH1 : Nat := 0xa2

/-- Modelled from the spec: `RA8876_S1_X0` of the missing header `Ra8876_Registers.h`, register
`a3h` in the comments of the source. -/
def RA8876_S1_X0 : Nat := 0xa3

/-- Modelled from the spec: `RA8876_S1_X1` of the missing header `Ra8876_Registers.h`, register
`a4h` in the comments of the source. -/
def RA8876_S1_X1 : Nat := 0xa4

/-- Modelled from the spec: `RA8876_S1_Y0` of the missing header `Ra8876_Registers.h`, register
`a5h` in the comments of the source. -/
def RA8876_S1_Y0 : Nat := 0xa5

/-- Modelled from the spec: `RA8876_S1_Y1` of the missing header `Ra8876_Registers.h`, register
`a6h` in the comments of the source. -/
def RA8876_S1_Y1 : Nat := 0xa6

/-- Modelled from the spec: `RA8876_DT_STR0` of the missing header `Ra8876_Registers.h`, register
`a7h` in the comments of the source. -/
def RA8876_DT_STR0 : Nat := 0xa7

/-- Modelled from the spec: `RA8876_DT_STR1` of the missing header `Ra8876_Registers.h`, register
`a8h` in the comments of the source. -/
def RA8876_DT_STR1 : Nat := 0xa8

/-- Modelled from the spec: `RA8876_DT_STR2` of the missing header `Ra8876_Registers.h`, register
`a9h` in the comments of the source. -/
def RA8876_DT_STR2 : Nat := 0xa9

/-- Modelled from the spec: `RA8876_DT_STR3` of the missing header `Ra8876_Registers.h`, register
`aah` in the comments of the source. -/
def RA8876_DT_STR3 : Nat := 0xaa

/-- Modelled from the spec: `RA8876_DT_WTH0` of the missing header `Ra8876_Registers.h`, register
`abh` in the comments of the source. -/
def RA8876_DT_WTH0 : Nat := 0xab

/-- Modelled from the spec: `RA8876_DT_WTH1` of the missing header `Ra8876_Registers.h`, register
`ach` in the comments of the source. -/
def RA8876_DT_WTH1 : Nat := 0xac

/-- Modelled from the spec: `RA8876_DT_X0` of the missing header `Ra8876_Registers.h`, register
`adh` in the comments of the source. -/
def RA8876_DT_X0 : Nat := 0xad

/-- Modelled from the spec: `RA8876_DT_X1` of the missing header `Ra8876_Registers.h`, register
`aeh` in the comments of the source. -/
def RA8876_DT_X1 : Nat := 0xae

/-- Modelled from the spec: `RA8876_DT_Y0` of the missing header `Ra8876_Registers.h`, register
`afh` in the comments of the source. -/
def RA8876_DT_Y0 : Nat := 0xaf

/-- Modelled from the spec: `RA8876_DT_Y1` of the missing header `Ra8876_Registers.h`, register
`b0h` in the comments of the source. -/
def RA8876_DT_Y1 : Nat := 0xb0

/-- Modelled from the spec: `RA8876_BTE_WTH0` of the missing header `Ra8876_Registers.h`, register
`b1h` in the comments of the source. -/
def RA8876_BTE_WTH0 : Nat := 0xb1

/-- Modelled from the spec: `RA8876_BTE_WTH1` of the missing header `Ra8876_Registers.h`, register
`b2h` in the comments of the source. -/
def RA8876_BTE_WTH1 : Nat := 0xb2

/-- Modelled from the spec: `RA8876_BTE_HIG0` of the missing header `Ra8876_Registers.h`, register
`b3h` in the comments of the source. -/
def RA8876_BTE_HIG0 : Nat := 0xb3

/-- Modelled from the spec: `RA8876_BTE_HIG1` of the missing header `Ra8876_Registers.h`, register
`b4h` in the comments of the source. -/
def RA8876_BTE_HIG1 : Nat := 0xb4

/-- Modelled from the spec: `RA8876_APB_CTRL` of the missing header `Ra8876_Registers.h`, register
`b5h` in the comments of the source. -/
def RA8876_APB_CTRL : Nat := 0xb5

/-- Modelled from the spec: `RA8876_DMA_CTRL` of the missing header `Ra8876_Registers.h`, register
`b6h` in the comments of the source. -/
def RA8876_DMA_CTRL : Nat := 0xb6

/-- Modelled from the spec: `RA8876_SFL_CTRL` of the missing header `Ra8876_Registers.h`, register
`b7h` in the comments of the source. -/
def RA8876_SFL_CTRL : Nat := 0xb7

/-- Modelled from the spec: `RA8876_SPI_DIVSOR` of the missing header `Ra8876_Registers.h`, register
`bbh` in the comments of the source. -/
def RA8876_SPI_DIVSOR : Nat := 0xbb

/-- Modelled from the spec: `RA8876_DMA_SSTR0` of the missing header `Ra8876_Registers.h`, register
`bch` in the comments of the source. -/
def RA8876_DMA_SSTR0 : Nat := 0xbc

/-- Modelled from the spec: `RA8876_DMA_SSTR1` of the missing header `Ra8876_Registers.h`, register
`bdh` in the comments of the source. -/
def RA8876_DMA_SSTR1 : Nat := 0xbd

/-- Modelled from the spec: `RA8876_DMA_SSTR2` of the missing header `Ra8876_Registers.h`, register
`beh` in the comments of the source. -/
def RA8876_DMA_SSTR2 : Nat := 0xbe

/-- Modelled from the spec: `RA8876_DMA_SSTR3` of the missing header `Ra8876_Registers.h`, register
`bfh` in the comments of the source. -/
def RA8876_DMA_SSTR3 : Nat := 0xbf

/-- Modelled from the spec: `RA8876_DMA_DX0` of the missing header `Ra8876_Registers.h`, register
`c0h` in the comments of the source. -/
def RA8876_DMA_DX0 : Nat := 0xc0

/-- Modelled from the spec: `RA8876_DMA_DX1` of the missing header `Ra8876_Registers.h`, register
`c1h` in the comments of the source. -/
def RA8876_DMA_DX1 : Nat := 0xc1

/-- Modelled from the spec: `RA8876_DMA_DY0` of the missing header `Ra8876_Registers.h`, register
`c2h` in the comments of the source. -/
def RA8876_DMA_DY0 : Nat := 0xc2

/-- Modelled from the spec: `RA8876_DMA_DY1` of the missing header `Ra8876_Registers.h`, register
`c3h` in the comments of the source. -/
def RA8876_DMA_DY1 : Nat := 0xc3

/-- Modelled from the spec: `RA8876_DMAW_WTH0` of the missing header `Ra8876_Registers.h`, register
`c6h` in the comments of the source. -/
def RA8876_DMAW_WTH0 : Nat := 0xc6

/-- Modelled from the spec: `RA8876_DMAW_WTH1` of the missing header `Ra8876_Registers.h`, register
`c7h` in the comments of the source. -/
def RA8876_DMAW_WTH1 : Nat := 0xc7

/-- Modelled from the spec: `RA8876_DMAW_HIGH0` of the missing header `Ra8876_Registers.h`, register
`c8h` in the comments of the source. -/
def RA8876_DMAW_HIGH0 : Nat := 0xc8

/-- Modelled from the spec: `RA8876_DMAW_HIGH1` of the missing header `Ra8876_Registers.h`, register
`c9h` in the comments of the source. -/
def RA8876_DMAW_HIGH1 : Nat := 0xc9

/-- Modelled from the spec: `RA8876_FGCR` of the missing header `Ra8876_Registers.h`, register
`d2h` in the comments of the source. -/
def RA8876_FGCR : Nat := 0xd2

/-- Modelled from the spec: `RA8876_FGCG` of the missing header `Ra8876_Registers.h`, register
`d3h` in the comments of the source. -/
def RA8876_FGCG : Nat := 0xd3

/-- Modelled from the spec: `RA8876_FGCB` of the missing header `Ra8876_Registers.h`, register
`d4h` in the comments of the source. -/
def RA8876_FGCB : Nat := 0xd4

/-- Modelled from the spec: `RA8876_BGCR` of the missing header `Ra8876_Registers.h`, register
`d5h` in the comments of the source. -/
def RA8876_BGCR : Nat := 0xd5

/-- Modelled from the spec: `RA8876_BGCG` of the missing header `Ra8876_Registers.h`, register
`d6h` in the comments of the source. -/
def RA8876_BGCG : Nat := 0xd6

/-- Modelled from the spec: `RA8876_BGCB` of the missing header `Ra8876_Registers.h`, register
`d7h` in the comments of the source. -/
def RA8876_BGCB : Nat := 0xd7
/-- Modelled from the spec: `RA8876_STSR_CORE_BUSY` of the missing header
`Ra8876_Registers.h`, bit 3 of the status register in the comments of `check2dBusy`. -/
def RA8876_STSR_CORE_BUSY : Nat := 0x08

/-- Modelled from the spec: `RA8876_STSR_WR_FIFO_EMPTY` of the missing header
`Ra8876_Registers.h`, bit 6 of the status register in the comments of `checkWriteFifoEmpty`. -/
def RA8876_STSR_WR_FIFO_EMPTY : Nat := 0x40

/-- Modelled from the spec: the class `Color` of the missing header `Color/Color.h`, with its
8-bit components red, green, blue and alpha. -/
structure Color where
  r : Nat
  g : Nat
  b : Nat
  a : Nat
deriving DecidableEq, Repr

/-- Modelled from the spec: the bit-field and operation constants of the missing header
`Ra8876_Registers.h` that the functions below write as data, and the colour `MASK_COLOR`
(`mask.Magenta`) of the missing `Color` class. They are parameters: no theorem depends on a
value. -/
structure Codes where
  RA8876_BTE_ENABLE : Nat
  RA8876_BTE_MEMORY_COPY_WITH_ROP : Nat
  RA8876_BTE_MEMORY_COPY_WITH_CHROMA : Nat
  RA8876_BTE_MPU_WRITE_WITH_ROP : Nat
  RA8876_BTE_MPU_WRITE_WITH_CHROMA : Nat
  RA8876_BTE_ROP_BUS_WIDTH8 : Nat
  RA8876_BTE_MPU_WRITE_COLOR_EXPANSION : Nat
  RA8876_BTE_MPU_WRITE_COLOR_EXPANSION_WITH_CHROMA : Nat
  RA8876_BTE_ROP_CODE_12 : Nat
  RA8876_BTE_PATTERN_FILL_WITH_ROP : Nat
  RA8876_BTE_PATTERN_FILL_WITH_CHROMA : Nat
  RA8876_PATTERN_FORMAT8X8 : Nat
  RA8876_PATTERN_FORMAT16X16 : Nat
  RA8876_BTE_MEMORY_COPY_WITH_OPACITY : Nat
  RA8876_BTE_SOLID_FILL : Nat
  RA8876_SERIAL_FLASH_SELECT1 : Nat
  RA8876_SERIAL_FLASH_DMA_MODE : Nat
  RA8876_SERIAL_FLASH_ADDR_32BIT : Nat
  RA8876_FOLLOW_RA8876_MODE : Nat
  RA8876_SPI_FAST_READ_8DUMMY : Nat
  RA8876_SPI_DIV2 : Nat
  RA8876_DMA_START : Nat
  MASK_COLOR : Color

/-- The fields of `class Ra8876_Lite` that the functions below read. -/
structure Ra8876_Lite where
  _canvasWidth : Nat
  _canvasHeight : Nat
  _colorMode : COLOR_MODE
deriving DecidableEq, Repr

/-- Default active window start x (`const uint16_t ACTIVE_WINDOW_STARTX = 0`). -/
def ACTIVE_WINDOW_STARTX : Nat := 0

/-- Default active window start y (`const uint16_t ACTIVE_WINDOW_STARTY = 0`). -/
def ACTIVE_WINDOW_STARTY : Nat := 0

/-- One transaction on the command channel of the controller. Every function below is its
log: the list of the transactions it makes, in order. -/
inductive Bus where
  /-- A command write, `lcdRegWrite(reg)`: selects the register. -/
  | command (reg : Nat)
  /-- A data write of one byte to the selected register (`lcdDataWrite`, `hal_spi_write`). -/
  | data (value : Nat)
  /-- A data read from the selected register, `lcdDataRead()`. -/
  | dataRead
  /-- A read of the status register, `lcdStatusRead()`. -/
  | statusRead
deriving DecidableEq, Repr

/-- `Ra8876_Lite::lcdRegWrite(uint8_t reg)`. -/
def lcdRegWrite (reg : Nat) : List Bus :=
  [Bus.command (reg % 256)]

/-- `Ra8876_Lite::lcdDataWrite(uint8_t data)`. -/
def lcdDataWrite (data : Nat) : List Bus :=
  [Bus.data (data % 256)]

/-- `Ra8876_Lite::lcdDataRead()`. -/
def lcdDataRead : List Bus :=
  [Bus.dataRead]

/-- `Ra8876_Lite::lcdRegDataWrite(uint8_t reg, uint8_t data)`. -/
def lcdRegDataWrite (reg data : Nat) : List Bus :=
  lcdRegWrite reg ++ lcdDataWrite data

/-- `Ra8876_Lite::lcdRegDataRead(uint8_t reg)`. -/
def lcdRegDataRead (reg : Nat) : List Bus :=
  lcdRegWrite reg ++ lcdDataRead

/-- `Ra8876_Lite::hal_spi_write(const uint8_t *buf, uint32_t byte_count)`: a burst of
`byte_count` data bytes, `buf k` being the byte at `buf[k]`; nothing for `byte_count = 0`. -/
def hal_spi_write (buf : Nat → Nat) (byte_count : Nat) : List Bus :=
  (List.range byte_count).map (fun k => Bus.data (buf k % 256))

/-- `Ra8876_Lite::lcdDataWrite16bpp(uint16_t data)`: the low byte, then the high byte. -/
def lcdDataWrite16bpp (data : Nat) : List Bus :=
  hal_spi_write (fun k => if k = 0 then data % 256 else (data >>> 8) % 256) 2

/-- The polling loop `for(i=0;i<bound;i++) { if(<status read is done>) break; }`, entered at
read number `i` with `left` iterations to go: the result is the number of status reads made
when the loop is left. `status k` is the value of status read number `k`. -/
def pollCount (done : Nat → Bool) (status : Nat → Nat) : Nat → Nat → Nat
  | i, 0 => i
  | i, left + 1 => if done (status i) then i + 1 else pollCount done status (i + 1) left

/-- `Ra8876_Lite::check2dBusy(void)`: up to 1000000 status reads, until the core-busy bit is
clear. -/
def check2dBusy (status : Nat → Nat) : List Bus :=
  List.replicate (pollCount (fun s => s &&& RA8876_STSR_CORE_BUSY = 0) status 0 1000000)
    Bus.statusRead

/-- `Ra8876_Lite::checkWriteFifoEmpty(void)`: up to 10000 status reads, until the
write-FIFO-empty bit is set. -/
def checkWriteFifoEmpty (status : Nat → Nat) : List Bus :=
  List.replicate
    (pollCount (fun s => s &&& RA8876_STSR_WR_FIFO_EMPTY = RA8876_STSR_WR_FIFO_EMPTY) status 0
      10000)
    Bus.statusRead

/-- `Ra8876_Lite::check2dBusy(uint32_t timeout)`, the loop `while(timeout--)` entered with
`timeout` left after `reads` status reads: the result is the returned flag (`true`: timed out,
the core is still busy) with the number of status reads made. -/
def check2dBusy_timeout (status : Nat → Nat) : Nat → Nat → Bool × Nat
  | 0, reads => (true, reads)
  | timeout + 1, reads =>
    if status reads &&& RA8876_STSR_CORE_BUSY = 0 then (false, reads + 1)
    else check2dBusy_timeout status timeout (reads + 1)

/-- `Ra8876_Lite::ramAccessPrepare`. -/
def ramAccessPrepare : List Bus :=
  lcdRegWrite RA8876_MRWDP

/-- `Ra8876_Lite::canvasImageStartAddress`. -/
def canvasImageStartAddress (addr : Nat) : List Bus :=
  lcdRegDataWrite RA8876_CVSSA0 addr ++
  lcdRegDataWrite RA8876_CVSSA1 (addr >>> 8) ++
  lcdRegDataWrite RA8876_CVSSA2 (addr >>> 16) ++
  lcdRegDataWrite RA8876_CVSSA3 (addr >>> 24)

/-- `Ra8876_Lite::activeWindowXY`. -/
def activeWindowXY (x0 y0 : Nat) : List Bus :=
  lcdRegDataWrite RA8876_AWUL_X0 x0 ++
  lcdRegDataWrite RA8876_AWUL_X1 (x0 >>> 8) ++
  lcdRegDataWrite RA8876_AWUL_Y0 y0 ++
  lcdRegDataWrite RA8876_AWUL_Y1 (y0 >>> 8)

/-- `Ra8876_Lite::activeWindowWH`. -/
def activeWindowWH (width height : Nat) : List Bus :=
  lcdRegDataWrite RA8876_AW_WTH0 width ++
  lcdRegDataWrite RA8876_AW_WTH1 (width >>> 8) ++
  lcdRegDataWrite RA8876_AW_HT0 height ++
  lcdRegDataWrite RA8876_AW_HT1 (height >>> 8)

/-- `Ra8876_Lite::bte_Source0_MemoryStartAddr`. -/
def bte_Source0_MemoryStartAddr (addr : Nat) : List Bus :=
  lcdRegDataWrite RA8876_S0_STR0 addr ++
  lcdRegDataWrite RA8876_S0_STR1 (addr >>> 8) ++
  lcdRegDataWrite RA8876_S0_STR2 (addr >>> 16) ++
  lcdRegDataWrite RA8876_S0_STR3 (addr >>> 24)

/-- `Ra8876_Lite::bte_Source0_ImageWidth`. -/
def bte_Source0_ImageWidth (width : Nat) : List Bus :=
  lcdRegDataWrite RA8876_S0_WTH0 width ++
  lcdRegDataWrite RA8876_S0_WTH1 (width >>> 8)

/-- `Ra8876_Lite::bte_Source0_WindowStartXY`. -/
def bte_Source0_WindowStartXY (x0 y0 : Nat) : List Bus :=
  lcdRegDataWrite RA8876_S0_X0 x0 ++
  lcdRegDataWrite RA8876_S0_X1 (x0 >>> 8) ++
  lcdRegDataWrite RA8876_S0_Y0 y0 ++
  lcdRegDataWrite RA8876_S0_Y1 (y0 >>> 8)

/-- `Ra8876_Lite::bte_Source1_MemoryStartAddr`. -/
def bte_Source1_MemoryStartAddr (addr : Nat) : List Bus :=
  lcdRegDataWrite RA8876_S1_STR0 addr ++
  lcdRegDataWrite RA8876_S1_STR1 (addr >>> 8) ++
  lcdRegDataWrite RA8876_S1_STR2 (addr >>> 16) ++
  lcdRegDataWrite RA8876_S1_STR3 (addr >>> 24)

/-- `Ra8876_Lite::bte_Source1_ImageWidth`. -/
def bte_Source1_ImageWidth (width : Nat) : List Bus :=
  lcdRegDataWrite RA8876_S1_WTH0 width ++
  lcdRegDataWrite RA8876_S1_WTH1 (width >>> 8)

/-- `Ra8876_Lite::bte_Source1_WindowStartXY`. -/
def bte_Source1_WindowStartXY (x0 y0 : Nat) : List Bus :=
  lcdRegDataWrite RA8876_S1_X0 x0 ++
  lcdRegDataWrite RA8876_S1_X1 (x0 >>> 8) ++
  lcdRegDataWrite RA8876_S1_Y0 y0 ++
  lcdRegDataWrite RA8876_S1_Y1 (y0 >>> 8)

/-- `Ra8876_Lite::bte_DestinationMemoryStartAddr`. -/
def bte_DestinationMemoryStartAddr (addr : Nat) : List Bus :=
  lcdRegDataWrite RA8876_DT_STR0 addr ++
  lcdRegDataWrite RA8876_DT_STR1 (addr >>> 8) ++
  lcdRegDataWrite RA8876_DT_STR2 (addr >>> 16) ++
  lcdRegDataWrite RA8876_DT_STR3 (addr >>> 24)

/-- `Ra8876_Lite::bte_DestinationImageWidth`. -/
def bte_DestinationImageWidth (width : Nat) : List Bus :=
  lcdRegDataWrite RA8876_DT_WTH0 width ++
  lcdRegDataWrite RA8876_DT_WTH1 (width >>> 8)

/-- `Ra8876_Lite::bte_DestinationWindowStartXY`. -/
def bte_DestinationWindowStartXY (x0 y0 : Nat) : List Bus :=
  lcdRegDataWrite RA8876_DT_X0 x0 ++
  lcdRegDataWrite RA8876_DT_X1 (x0 >>> 8) ++
  lcdRegDataWrite RA8876_DT_Y0 y0 ++
  lcdRegDataWrite RA8876_DT_Y1 (y0 >>> 8)

/-- `Ra8876_Lite::bte_WindowSize`. -/
def bte_WindowSize (width height : Nat) : List Bus :=
  lcdRegDataWrite RA8876_BTE_WTH0 width ++
  lcdRegDataWrite RA8876_BTE_WTH1 (width >>> 8) ++
  lcdRegDataWrite RA8876_BTE_HIG0 height ++
  lcdRegDataWrite RA8876_BTE_HIG1 (height >>> 8)

/-- `Ra8876_Lite::setForegroundColor`: the switch on the colour mode has the cases
`COLOR_8BPP_RGB332`, `COLOR_24BPP_RGB888` and `default`. -/
def setForegroundColor (self : Ra8876_Lite) (color : Color) : List Bus :=
  match self._colorMode with
  | COLOR_MODE.COLOR_8BPP_RGB332 =>
    lcdRegDataWrite RA8876_FGCR (color.r &&& 0xE0) ++
    lcdRegDataWrite RA8876_FGCG (color.g &&& 0xE0) ++
    lcdRegDataWrite RA8876_FGCB (color.b &&& 0xC0)
  | COLOR_MODE.COLOR_24BPP_RGB888 =>
    lcdRegDataWrite RA8876_FGCR color.r ++
    lcdRegDataWrite RA8876_FGCG color.g ++
    lcdRegDataWrite RA8876_FGCB color.b
  | _ =>
    lcdRegDataWrite RA8876_FGCR (color.r &&& 0xF8) ++
    lcdRegDataWrite RA8876_FGCG (color.g &&& 0xFC) ++
    lcdRegDataWrite RA8876_FGCB (color.b &&& 0xF8)

/-- `Ra8876_Lite::setBackgroundColor`. -/
def setBackgroundColor (self : Ra8876_Lite) (color : Color) : List Bus :=
  match self._colorMode with
  | COLOR_MODE.COLOR_8BPP_RGB332 =>
    lcdRegDataWrite RA8876_BGCR (color.r &&& 0xE0) ++
    lcdRegDataWrite RA8876_BGCG (color.g &&& 0xE0) ++
    lcdRegDataWrite RA8876_BGCB (color.b &&& 0xC0)
  | COLOR_MODE.COLOR_24BPP_RGB888 =>
    lcdRegDataWrite RA8876_BGCR color.r ++
    lcdRegDataWrite RA8876_BGCG color.g ++
    lcdRegDataWrite RA8876_BGCB color.b
  | _ =>
    lcdRegDataWrite RA8876_BGCR (color.r &&& 0xF8) ++
    lcdRegDataWrite RA8876_BGCG (color.g &&& 0xFC) ++
    lcdRegDataWrite RA8876_BGCB (color.b &&& 0xF8)

/-- The loops `for(i=0;i<height;i++) for(j=0;j<bound;j++) { lcdDataWrite(*data); data++; }` of
the 8-bit MPU writes. The counters are `uint16_t` and `bound` is an `int`: with `65536 ≤ bound`
the inner loop never ends, and the call has no log. -/
def streamBytes (data : Nat → Nat) (height bound : Nat) : Option (List Bus) :=
  if 0 < height ∧ 65536 ≤ bound then none
  else some ((List.range (height * bound)).flatMap (fun k => lcdDataWrite (data k)))

/-- The loops `for(j=0;j<height;j++) for(i=0;i<width;i++) { lcdDataWrite16bpp(*data); data++; }`
of the 16-bit MPU writes. -/
def streamWords (data : Nat → Nat) (height width : Nat) : List Bus :=
  (List.range (height * width)).flatMap (fun k => lcdDataWrite16bpp (data k))

/-- `Ra8876_Lite::bteMemoryCopyWithROP`. -/
def bteMemoryCopyWithROP (c : Codes) (status : Nat → Nat)
    (s0_addr s0_image_width s0_x s0_y s1_addr s1_image_width s1_x s1_y
      des_addr des_image_width des_x des_y copy_width copy_height rop_code : Nat) : List Bus :=
  bte_Source0_MemoryStartAddr s0_addr ++
  bte_Source0_ImageWidth s0_image_width ++
  bte_Source0_WindowStartXY s0_x s0_y ++
  bte_Source1_MemoryStartAddr s1_addr ++
  bte_Source1_ImageWidth s1_image_width ++
  bte_Source1_WindowStartXY s1_x s1_y ++
  bte_DestinationMemoryStartAddr des_addr ++
  bte_DestinationImageWidth des_image_width ++
  bte_DestinationWindowStartXY des_x des_y ++
  bte_WindowSize copy_width copy_height ++
  lcdRegDataWrite RA8876_BTE_CTRL1 (rop_code <<< 4 ||| c.RA8876_BTE_MEMORY_COPY_WITH_ROP) ++
  lcdRegDataWrite RA8876_BTE_CTRL0 (c.RA8876_BTE_ENABLE <<< 4) ++
  check2dBusy status

/-- `Ra8876_Lite::bteMemoryCopyWithChromaKey`. -/
def bteMemoryCopyWithChromaKey (c : Codes) (self : Ra8876_Lite) (status : Nat → Nat)
    (s0_addr s0_image_width s0_x s0_y des_addr des_image_width des_x des_y
      copy_width copy_height : Nat) (chromakey_color : Color) : List Bus :=
  bte_Source0_MemoryStartAddr s0_addr ++
  bte_Source0_ImageWidth s0_image_width ++
  bte_Source0_WindowStartXY s0_x s0_y ++
  bte_DestinationMemoryStartAddr des_addr ++
  bte_DestinationImageWidth des_image_width ++
  bte_DestinationWindowStartXY des_x des_y ++
  bte_WindowSize copy_width copy_height ++
  setBackgroundColor self chromakey_color ++
  lcdRegDataWrite RA8876_BTE_CTRL1 c.RA8876_BTE_MEMORY_COPY_WITH_CHROMA ++
  lcdRegDataWrite RA8876_BTE_CTRL0 (c.RA8876_BTE_ENABLE <<< 4) ++
  check2dBusy status

/-- The register programming of `Ra8876_Lite::bteMpuWriteWithROP` (both overloads), up to and
with `ramAccessPrepare()`. -/
def bteMpuWriteWithROP_setup (c : Codes)
    (s1_addr s1_image_width s1_x s1_y des_addr des_image_width des_x des_y
      width height rop_code : Nat) : List Bus :=
  bte_Source1_MemoryStartAddr s1_addr ++
  bte_Source1_ImageWidth s1_image_width ++
  bte_Source1_WindowStartXY s1_x s1_y ++
  bte_DestinationMemoryStartAddr des_addr ++
  bte_DestinationImageWidth des_image_width ++
  bte_DestinationWindowStartXY des_x des_y ++
  bte_WindowSize width height ++
  lcdRegDataWrite RA8876_BTE_CTRL1 (rop_code <<< 4 ||| c.RA8876_BTE_MPU_WRITE_WITH_ROP) ++
  lcdRegDataWrite RA8876_BTE_CTRL0 (c.RA8876_BTE_ENABLE <<< 4) ++
  ramAccessPrepare

/-- `Ra8876_Lite::bteMpuWriteWithROP` with `const uint8_t *data`: `width*2` bytes a line. -/
def bteMpuWriteWithROP (c : Codes)
    (s1_addr s1_image_width s1_x s1_y des_addr des_image_width des_x des_y
      width height rop_code : Nat) (data : Nat → Nat) : Option (List Bus) :=
  match streamBytes data height (width * 2) with
  | none => none
  | some stream =>
    some (bteMpuWriteWithROP_setup c s1_addr s1_image_width s1_x s1_y des_addr des_image_width
      des_x des_y width height rop_code ++ stream)

/-- `Ra8876_Lite::bteMpuWriteWithROP` with `const uint16_t *data`; it ends with
`checkWriteFifoEmpty()`. -/
def bteMpuWriteWithROP16 (c : Codes) (status : Nat → Nat)
    (s1_addr s1_image_width s1_x s1_y des_addr des_image_width des_x des_y
      width height rop_code : Nat) (data : Nat → Nat) : List Bus :=
  bteMpuWriteWithROP_setup c s1_addr s1_image_width s1_x s1_y des_addr des_image_width
    des_x des_y width height rop_code ++
  streamWords data height width ++
  checkWriteFifoEmpty status

/-- The register programming of `Ra8876_Lite::bteMpuWriteWithChromaKey` (both overloads), up
to and with `ramAccessPrepare()`. -/
def bteMpuWriteWithChromaKey_setup (c : Codes) (self : Ra8876_Lite)
    (des_addr des_image_width des_x des_y width height : Nat) (chromakey_color : Color) :
    List Bus :=
  bte_DestinationMemoryStartAddr des_addr ++
  bte_DestinationImageWidth des_image_width ++
  bte_DestinationWindowStartXY des_x des_y ++
  bte_WindowSize width height ++
  setBackgroundColor self chromakey_color ++
  lcdRegDataWrite RA8876_BTE_CTRL1 c.RA8876_BTE_MPU_WRITE_WITH_CHROMA ++
  lcdRegDataWrite RA8876_BTE_CTRL0 (c.RA8876_BTE_ENABLE <<< 4) ++
  ramAccessPrepare

/-- `Ra8876_Lite::bteMpuWriteWithChromaKey` with `const uint8_t *data`. -/
def bteMpuWriteWithChromaKey (c : Codes) (self : Ra8876_Lite)
    (des_addr des_image_width des_x des_y width height : Nat) (chromakey_color : Color)
    (data : Nat → Nat) : Option (List Bus) :=
  match streamBytes data height (width * 2) with
  | none => none
  | some stream =>
    some (bteMpuWriteWithChromaKey_setup c self des_addr des_image_width des_x des_y width
      height chromakey_color ++ stream)

/-- `Ra8876_Lite::bteMpuWriteWithChromaKey` with `const uint16_t *data`. -/
def bteMpuWriteWithChromaKey16 (c : Codes) (self : Ra8876_Lite)
    (des_addr des_image_width des_x des_y width height : Nat) (chromakey_color : Color)
    (data : Nat → Nat) : List Bus :=
  bteMpuWriteWithChromaKey_setup c self des_addr des_image_width des_x des_y width height
    chromakey_color ++
  streamWords data height width

/-- `Ra8876_Lite::bteMpuWriteColorExpansion`: `width/8` bytes a line. -/
def bteMpuWriteColorExpansion (c : Codes) (self : Ra8876_Lite) (status : Nat → Nat)
    (des_addr des_image_width des_x des_y width height : Nat)
    (foreground_color background_color : Color) (data : Nat → Nat) : Option (List Bus) :=
  match streamBytes data height (width / 8) with
  | none => none
  | some stream =>
    some (bte_DestinationMemoryStartAddr des_addr ++
      bte_DestinationImageWidth des_image_width ++
      bte_DestinationWindowStartXY des_x des_y ++
      bte_WindowSize width height ++
      setForegroundColor self foreground_color ++
      setBackgroundColor self background_color ++
      lcdRegDataWrite RA8876_BTE_CTRL1
        (c.RA8876_BTE_ROP_BUS_WIDTH8 <<< 4 ||| c.RA8876_BTE_MPU_WRITE_COLOR_EXPANSION) ++
      lcdRegDataWrite RA8876_BTE_CTRL0 (c.RA8876_BTE_ENABLE <<< 4) ++
      ramAccessPrepare ++
      stream ++
      check2dBusy status)

/-- `Ra8876_Lite::bteMpuWriteColorExpansionWithChromaKey`: nothing is done when the two
colours are equal. -/
def bteMpuWriteColorExpansionWithChromaKey (c : Codes) (self : Ra8876_Lite)
    (status : Nat → Nat) (des_addr des_image_width des_x des_y width height : Nat)
    (foreground_color background_color : Color) (data : Nat → Nat) : Option (List Bus) :=
  if foreground_color = background_color then some []
  else
    match streamBytes data height (width / 8) with
    | none => none
    | some stream =>
      some (bte_DestinationMemoryStartAddr des_addr ++
        bte_DestinationImageWidth des_image_width ++
        bte_DestinationWindowStartXY des_x des_y ++
        bte_WindowSize width height ++
        setForegroundColor self foreground_color ++
        setBackgroundColor self background_color ++
        lcdRegDataWrite RA8876_BTE_CTRL1
          (c.RA8876_BTE_ROP_BUS_WIDTH8 <<< 4 |||
            c.RA8876_BTE_MPU_WRITE_COLOR_EXPANSION_WITH_CHROMA) ++
        lcdRegDataWrite RA8876_BTE_CTRL0 (c.RA8876_BTE_ENABLE <<< 4) ++
        ramAccessPrepare ++
        stream ++
        check2dBusy status)

/-- `Ra8876_Lite::btePatternFill`. -/
def btePatternFill (c : Codes) (status : Nat → Nat)
    (p8x8or16x16 s0_addr s0_image_width s0_x s0_y des_addr des_image_width des_x des_y
      copy_width copy_height : Nat) : List Bus :=
  bte_Source0_MemoryStartAddr s0_addr ++
  bte_Source0_ImageWidth s0_image_width ++
  bte_Source0_WindowStartXY s0_x s0_y ++
  bte_DestinationMemoryStartAddr des_addr ++
  bte_DestinationImageWidth des_image_width ++
  bte_DestinationWindowStartXY des_x des_y ++
  bte_WindowSize copy_width copy_height ++
  lcdRegDataWrite RA8876_BTE_CTRL1
    (c.RA8876_BTE_ROP_CODE_12 <<< 4 ||| c.RA8876_BTE_PATTERN_FILL_WITH_ROP) ++
  (if p8x8or16x16 = 0 then
    lcdRegDataWrite RA8876_BTE_CTRL0 (c.RA8876_BTE_ENABLE <<< 4 ||| c.RA8876_PATTERN_FORMAT8X8)
  else
    lcdRegDataWrite RA8876_BTE_CTRL0
      (c.RA8876_BTE_ENABLE <<< 4 ||| c.RA8876_PATTERN_FORMAT16X16)) ++
  check2dBusy status

/-- `Ra8876_Lite::btePatternFillWithChromaKey`. -/
def btePatternFillWithChromaKey (c : Codes) (self : Ra8876_Lite) (status : Nat → Nat)
    (p8x8or16x16 s0_addr s0_image_width s0_x s0_y des_addr des_image_width des_x des_y
      copy_width copy_height : Nat) (chromakey_color : Color) : List Bus :=
  bte_Source0_MemoryStartAddr s0_addr ++
  bte_Source0_ImageWidth s0_image_width ++
  bte_Source0_WindowStartXY s0_x s0_y ++
  bte_DestinationMemoryStartAddr des_addr ++
  bte_DestinationImageWidth des_image_width ++
  bte_DestinationWindowStartXY des_x des_y ++
  bte_WindowSize copy_width copy_height ++
  setBackgroundColor self chromakey_color ++
  lcdRegDataWrite RA8876_BTE_CTRL1
    (c.RA8876_BTE_ROP_CODE_12 <<< 4 ||| c.RA8876_BTE_PATTERN_FILL_WITH_CHROMA) ++
  (if p8x8or16x16 = 0 then
    lcdRegDataWrite RA8876_BTE_CTRL0 (c.RA8876_BTE_ENABLE <<< 4 ||| c.RA8876_PATTERN_FORMAT8X8)
  else
    lcdRegDataWrite RA8876_BTE_CTRL0
      (c.RA8876_BTE_ENABLE <<< 4 ||| c.RA8876_PATTERN_FORMAT16X16)) ++
  check2dBusy status

/-- `Ra8876_Lite::bteMemoryCopyWithOpacity`: `if(alpha>32) alpha=32;` before the write to the
alpha-blending register. -/
def bteMemoryCopyWithOpacity (c : Codes) (status : Nat → Nat)
    (s0_addr s0_image_width s0_x s0_y s1_addr s1_image_width s1_x s1_y
      des_addr des_image_width des_x des_y copy_width copy_height alpha : Nat) : List Bus :=
  bte_Source0_MemoryStartAddr s0_addr ++
  bte_Source0_ImageWidth s0_image_width ++
  bte_Source0_WindowStartXY s0_x s0_y ++
  bte_Source1_MemoryStartAddr s1_addr ++
  bte_Source1_ImageWidth s1_image_width ++
  bte_Source1_WindowStartXY s1_x s1_y ++
  bte_DestinationMemoryStartAddr des_addr ++
  bte_DestinationImageWidth des_image_width ++
  bte_DestinationWindowStartXY des_x des_y ++
  bte_WindowSize copy_width copy_height ++
  lcdRegDataWrite RA8876_BTE_CTRL1 c.RA8876_BTE_MEMORY_COPY_WITH_OPACITY ++
  lcdRegDataWrite RA8876_APB_CTRL (if alpha > 32 then 32 else alpha) ++
  lcdRegDataWrite RA8876_BTE_CTRL0 (c.RA8876_BTE_ENABLE <<< 4) ++
  check2dBusy status

/-- `Ra8876_Lite::bteSolidFill`. -/
def bteSolidFill (c : Codes) (self : Ra8876_Lite) (status : Nat → Nat)
    (des_addr des_x des_y bte_width bte_height : Nat) (foreground_color : Color) : List Bus :=
  bte_DestinationMemoryStartAddr des_addr ++
  bte_DestinationImageWidth self._canvasWidth ++
  bte_DestinationWindowStartXY des_x des_y ++
  setForegroundColor self foreground_color ++
  bte_WindowSize bte_width bte_height ++
  lcdRegDataWrite RA8876_BTE_CTRL1 c.RA8876_BTE_SOLID_FILL ++
  lcdRegDataWrite RA8876_BTE_CTRL0 (c.RA8876_BTE_ENABLE <<< 4) ++
  check2dBusy status

/-- `Ra8876_Lite::dmaDataLinearTransfer`: `byte_count` is
`(uint32_t)picture_width*picture_height*getColorDepth()`, computed in `uint32_t`. -/
def dmaDataLinearTransfer (c : Codes) (self : Ra8876_Lite) (status : Nat → Nat)
    (des_addr picture_width picture_height src_addr : Nat) : List Bus :=
  let byte_count :=
    (picture_width * picture_height % 4294967296) * getColorDepth self._colorMode % 4294967296
  lcdRegDataWrite RA8876_SFL_CTRL
    (c.RA8876_SERIAL_FLASH_SELECT1 <<< 7 ||| c.RA8876_SERIAL_FLASH_DMA_MODE <<< 6 |||
      c.RA8876_SERIAL_FLASH_ADDR_32BIT <<< 5 ||| c.RA8876_FOLLOW_RA8876_MODE <<< 4 |||
      c.RA8876_SPI_FAST_READ_8DUMMY) ++
  lcdRegDataWrite RA8876_SPI_DIVSOR c.RA8876_SPI_DIV2 ++
  lcdRegDataWrite RA8876_DMA_DX0 des_addr ++
  lcdRegDataWrite RA8876_DMA_DX1 (des_addr >>> 8) ++
  lcdRegDataWrite RA8876_DMA_DY0 (des_addr >>> 16) ++
  lcdRegDataWrite RA8876_DMA_DY1 (des_addr >>> 24) ++
  lcdRegDataWrite RA8876_DMAW_WTH0 byte_count ++
  lcdRegDataWrite RA8876_DMAW_WTH1 (byte_count >>> 8) ++
  lcdRegDataWrite RA8876_DMAW_HIGH0 (byte_count >>> 16) ++
  lcdRegDataWrite RA8876_DMAW_HIGH1 (byte_count >>> 24) ++
  lcdRegDataWrite RA8876_DMA_SSTR0 src_addr ++
  lcdRegDataWrite RA8876_DMA_SSTR1 (src_addr >>> 8) ++
  lcdRegDataWrite RA8876_DMA_SSTR2 (src_addr >>> 16) ++
  lcdRegDataWrite RA8876_DMA_SSTR3 (src_addr >>> 24) ++
  lcdRegDataWrite RA8876_DMA_CTRL c.RA8876_DMA_START ++
  check2dBusy status

/-! ## Pixel cursor, pixel and picture writes (Ra8876_Lite.cpp)

A call has no log (`none`) when it divides by zero, which happens with `_canvasWidth = 0`. -/

/-- `Ra8876_Lite::setPixelCursor(uint16_t x, uint16_t y, uint32_t lnOffset)`: it returns
before any write when `canvasAddress_from_lnOffset(lnOffset)` is negative. -/
def setPixelCursor (self : Ra8876_Lite) (x y lnOffset : Nat) : Option (List Bus) :=
  match canvasAddress_from_lnOffset self._canvasWidth self._colorMode lnOffset with
  | none => none
  | some _canvasAddress =>
    if _canvasAddress < 0 then some []
    else
      some (canvasImageStartAddress _canvasAddress.toNat ++
        lcdRegDataWrite RA8876_CURH0 x ++
        lcdRegDataWrite RA8876_CURH1 (x >>> 8) ++
        lcdRegDataWrite RA8876_CURV0 y ++
        lcdRegDataWrite RA8876_CURV1 (y >>> 8))

/-- `Ra8876_Lite::putPixel(uint16_t x, uint16_t y, Color color, uint32_t lnOffset)`. -/
def putPixel (self : Ra8876_Lite) (x y : Nat) (color : Color) (lnOffset : Nat) :
    Option (List Bus) :=
  match setPixelCursor self x y lnOffset with
  | none => none
  | some cursor =>
    some (cursor ++
      ramAccessPrepare ++
      (match self._colorMode with
      | COLOR_MODE.COLOR_8BPP_RGB332 =>
        lcdDataWrite ((color.r &&& 0xE0) ||| ((color.g &&& 0xE0) >>> 3) |||
          ((color.b &&& 0xC0) >>> 6))
      | COLOR_MODE.COLOR_24BPP_RGB888 =>
        lcdDataWrite color.b ++
        lcdDataWrite color.g ++
        lcdDataWrite color.r
      | COLOR_MODE.COLOR_6BPP_ARGB2222 =>
        lcdDataWrite (((color.a &&& 0x06) <<< 5) ||| ((color.r &&& 0xC0) >>> 2) |||
          ((color.g &&& 0xC0) >>> 4) ||| ((color.b &&& 0xC0) >>> 6))
      | COLOR_MODE.COLOR_12BPP_ARGB4444 =>
        lcdDataWrite ((color.g &&& 0xF0) ||| ((color.b &&& 0xF0) >>> 4)) ++
        lcdDataWrite (((color.a &&& 0x0F) <<< 4) ||| ((color.r &&& 0xF0) >>> 4))
      | _ =>
        lcdDataWrite (((color.g &&& 0x1C) <<< 3) ||| ((color.b &&& 0xF8) >>> 3)) ++
        lcdDataWrite ((color.r &&& 0xF8) ||| ((color.g &&& 0xE0) >>> 5))))

/-- `Ra8876_Lite::putPicture_set_frame(x, y, width, height, lnOffset)`. -/
def putPicture_set_frame (self : Ra8876_Lite) (x y width height lnOffset : Nat) :
    Option (List Bus) :=
  match setPixelCursor self x y lnOffset with
  | none => none
  | some cursor =>
    some (activeWindowXY x y ++
      activeWindowWH width height ++
      cursor ++
      ramAccessPrepare)

/-- `Ra8876_Lite::canvasWrite(const void *data, uint32_t lnOffset, size_t byte_count)`;
`data k` is the byte at `data[k]`. -/
def canvasWrite (self : Ra8876_Lite) (data : Nat → Nat) (lnOffset byte_count : Nat) :
    Option (List Bus) :=
  if byte_count = 0 then some []
  else if self._canvasWidth = 0 then none
  else
    let bpp := getColorDepth self._colorMode
    match setPixelCursor self 0 0 lnOffset with
    | none => none
    | some cursor =>
      some (activeWindowXY 0 0 ++
        (if byte_count % self._canvasWidth ≠ 0 then
          activeWindowWH self._canvasWidth (byte_count / self._canvasWidth / bpp + 1)
        else
          activeWindowWH self._canvasWidth (byte_count / self._canvasWidth / bpp)) ++
        cursor ++
        ramAccessPrepare ++
        hal_spi_write data (byte_count % 4294967296) ++
        activeWindowXY ACTIVE_WINDOW_STARTX ACTIVE_WINDOW_STARTY ++
        activeWindowWH self._canvasWidth self._canvasHeight ++
        canvasImageStartAddress CANVAS_OFFSET)

/-- `Ra8876_Lite::canvasRead(void *data, uint32_t lnOffset, size_t data_count)`: the log of
the call (the values read are stored in `data`): a dummy read, then one, two or three reads for
each of the `data_count` pixels in the colour modes 8, 16 and 24 bits per pixel, none in the
other modes. -/
def canvasRead (self : Ra8876_Lite) (lnOffset data_count : Nat) : Option (List Bus) :=
  if data_count = 0 then some []
  else if self._canvasWidth = 0 then none
  else
    match setPixelCursor self 0 0 lnOffset with
    | none => none
    | some cursor =>
      some (activeWindowXY 0 0 ++
        (if data_count % self._canvasWidth ≠ 0 then
          activeWindowWH self._canvasWidth (data_count / self._canvasWidth + 1)
        else
          activeWindowWH self._canvasWidth (data_count / self._canvasWidth)) ++
        cursor ++
        ramAccessPrepare ++
        lcdDataRead ++
        (match self._colorMode with
        | COLOR_MODE.COLOR_8BPP_RGB332 =>
          (List.range data_count).flatMap (fun _ => lcdDataRead)
        | COLOR_MODE.COLOR_16BPP_RGB565 =>
          (List.range data_count).flatMap (fun _ => lcdDataRead ++ lcdDataRead)
        | COLOR_MODE.COLOR_24BPP_RGB888 =>
          (List.range data_count).flatMap (fun _ => lcdDataRead ++ lcdDataRead ++ lcdDataRead)
        | _ => []) ++
        activeWindowXY ACTIVE_WINDOW_STARTX ACTIVE_WINDOW_STARTY ++
        activeWindowWH self._canvasWidth self._canvasHeight ++
        canvasImageStartAddress CANVAS_OFFSET)

/-- `Ra8876_Lite::putPicture(x, y, width, height, data, rotate_ccw90, lnOffset)` from a memory
buffer; `macr` is the value that `lcdRegDataRead(RA8876_MACR)` returns, and `_length` is a
32-bit `size_t`. -/
def putPicture (self : Ra8876_Lite) (macr : Nat) (x y width height : Nat) (data : Nat → Nat)
    (rotate_ccw90 : Bool) (lnOffset : Nat) : Option (List Bus) :=
  let _x := if rotate_ccw90 then y else x
  let _y := if rotate_ccw90 then x else y
  let _width := if rotate_ccw90 then height else width
  let _height := if rotate_ccw90 then width else height
  match putPicture_set_frame self _x _y _width _height lnOffset with
  | none => none
  | some frame =>
    let _length := width * height * getColorDepth self._colorMode % 4294967296
    some ((if rotate_ccw90 then
        lcdRegDataRead RA8876_MACR ++ lcdRegDataWrite RA8876_MACR (macr ||| 0x06)
      else []) ++
      frame ++
      hal_spi_write data _length ++
      (if rotate_ccw90 then lcdRegDataWrite RA8876_MACR macr else []) ++
      activeWindowXY ACTIVE_WINDOW_STARTX ACTIVE_WINDOW_STARTY ++
      activeWindowWH self._canvasWidth self._canvasHeight ++
      canvasImageStartAddress CANVAS_OFFSET)

/-! ## Blitting (Allegro/Blit.cpp)

The coordinates and sizes are `int` (32 bits on the boards of the shield); a call whose `int`
arithmetic overflows has no log (`none`). -/

/-- The fields of `class BITMAP` (Allegro/Bitmap.h): `uint16_t w, h` and
`uint32_t thisBitmapAddress`. -/
structure BITMAP where
  w : Nat
  h : Nat
  thisBitmapAddress : Nat
deriving DecidableEq, Repr

/-- The value of an `int` expression, none when it is not an `int`. -/
def int32 (x : Int) : Option Int :=
  if -2147483648 ≤ x ∧ x ≤ 2147483647 then some x else none

/-- Conversion of an `int` to `uint16_t`. -/
def toUInt16 (x : Int) : Nat :=
  (x % 65536).toNat

/-- Conversion of a `char` to `uint8_t`. -/
def toUInt8 (x : Int) : Nat :=
  (x % 256).toNat

/-- The function `blit` of Blit.cpp. -/
def blit (c : Codes) (status : Nat → Nat) (source dest : BITMAP)
    (source_x source_y dest_x dest_y width height : Int) : Option (List Bus) :=
  if source_x > (source.w : Int) ∨ source_y > (source.h : Int) then some []
  else if dest_x > (dest.w : Int) ∨ dest_y > (dest.h : Int) then some []
  else do
    let right ← int32 (dest_x + width)
    let width ← if right > (dest.w : Int) then int32 ((dest.w : Int) - dest_x) else some width
    let bottom ← int32 (dest_y + height)
    let height ←
      if bottom > (dest.h : Int) then int32 ((dest.h : Int) - dest_y) else some height
    some (bteMemoryCopyWithROP c status
      source.thisBitmapAddress
      source.w
      (toUInt16 source_x) (toUInt16 source_y)
      0 0 0 0
      dest.thisBitmapAddress
      dest.w
      (toUInt16 dest_x) (toUInt16 dest_y)
      (toUInt16 width) (toUInt16 height)
      c.RA8876_BTE_ROP_CODE_12)

/-- The function `masked_blit` of Blit.cpp. -/
def masked_blit (c : Codes) (self : Ra8876_Lite) (status : Nat → Nat) (source dest : BITMAP)
    (source_x source_y dest_x dest_y width height : Int) : Option (List Bus) :=
  if source_x > (source.w : Int) ∨ source_y > (source.h : Int) then some []
  else if dest_x > (dest.w : Int) ∨ dest_y > (dest.h : Int) then some []
  else do
    let right ← int32 (dest_x + width)
    let width ← if right > (dest.w : Int) then int32 ((dest.w : Int) - dest_x) else some width
    let bottom ← int32 (dest_y + height)
    let height ←
      if bottom > (dest.h : Int) then int32 ((dest.h : Int) - dest_y) else some height
    some (bteMemoryCopyWithChromaKey c self status
      source.thisBitmapAddress
      source.w
      (toUInt16 source_x) (toUInt16 source_y)
      dest.thisBitmapAddress
      dest.w
      (toUInt16 dest_x) (toUInt16 dest_y)
      (toUInt16 width) (toUInt16 height)
      c.MASK_COLOR)

/-- The function `alpha_blit` of Blit.cpp; `alpha` is a `char`. -/
def alpha_blit (c : Codes) (status : Nat → Nat) (source dest : BITMAP)
    (source_x source_y dest_x dest_y width height alpha : Int) : Option (List Bus) :=
  if source_x > (source.w : Int) ∨ source_y > (source.h : Int) then some []
  else if dest_x > (dest.w : Int) ∨ dest_y > (dest.h : Int) then some []
  else do
    let right ← int32 (dest_x + width)
    let width ← if right > (dest.w : Int) then int32 ((dest.w : Int) - dest_x) else some width
    let bottom ← int32 (dest_y + height)
    let height ←
      if bottom > (dest.h : Int) then int32 ((dest.h : Int) - dest_y) else some height
    some (bteMemoryCopyWithOpacity c status
      dest.thisBitmapAddress
      dest.w
      (toUInt16 dest_x) (toUInt16 dest_y)
      source.thisBitmapAddress
      source.w
      (toUInt16 source_x) (toUInt16 source_y)
      dest.thisBitmapAddress
      dest.w
      (toUInt16 dest_x) (toUInt16 dest_y)
      (toUInt16 width) (toUInt16 height)
      (toUInt8 alpha))

/-! ## Clock setup (Ra8876_Lite.h, Ra8876_Lite.cpp) -/

/-- Crystal frequency on board in MHz (`const uint8_t OSC_FREQ = 12`). -/
def OSC_FREQ : Nat := 12

/-- SDRAM frequency in MHz (`const uint8_t DRAM_FREQ = 166`). -/
def DRAM_FREQ : Nat := 166

/-- Highest pixel clock in MHz (`const uint8_t SPLL_FREQ_MAX = 148`). -/
def SPLL_FREQ_MAX : Nat := 148

/-- Core frequency in MHz (`const uint8_t CORE_FREQ = 120`). -/
def CORE_FREQ : Nat := 120

/-- Modelled from the spec: `RA8876_CCR` of the missing header `Ra8876_Registers.h`, register
`01h` in the comments of the source. -/
def RA8876_CCR : Nat := 0x01

/-- The dividers `(xPLLDIVK, xPLLDIVN)` that `Ra8876_Lite::ra8876PllInitial(uint16_t pclk)`
computes: `int` arithmetic, stored in `uint8_t`. -/
def pllDividers (pclk : Nat) : Nat × Nat :=
  if pclk > 54 ∧ pclk ≤ SPLL_FREQ_MAX then
    (2, toUInt8 ((pclk : Int) * 4 / (OSC_FREQ : Int) - 1))
  else
    let pclk := if pclk > SPLL_FREQ_MAX then 74 else pclk
    (3, toUInt8 ((pclk : Int) * 8 / (OSC_FREQ : Int) - 1))

/-- `Ra8876_Lite::ra8876PllInitial(uint16_t pclk)`: the result and the bus log. `ccr` and
`ccr_enabled` are the values that the two reads of `RA8876_CCR` return, and `pll_enable` is the
constant `RA8876_PLL_ENABLE` of the missing header. -/
def ra8876PllInitial (pll_enable ccr ccr_enabled pclk : Nat) : Bool × List Bus :=
  let xPLLDIVK := (pllDividers pclk).1
  let xPLLDIVN := (pllDividers pclk).2
  let disable := lcdRegDataRead RA8876_CCR ++ lcdRegDataWrite RA8876_CCR (ccr &&& 0x7F)
  if xPLLDIVN > 63 ∨ xPLLDIVN = 0 then (false, disable)
  else
    (decide (ccr_enabled &&& 0x80 = 0x80),
      disable ++
      lcdRegDataWrite 0x05 (xPLLDIVK <<< 1) ++
      lcdRegDataWrite 0x06 xPLLDIVN ++
      lcdRegDataWrite 0x07 0x02 ++
      lcdRegDataWrite 0x08 (DRAM_FREQ * 2 / OSC_FREQ - 1) ++
      lcdRegDataWrite 0x09 0x02 ++
      lcdRegDataWrite 0x0A (CORE_FREQ * 2 / OSC_FREQ - 1) ++
      lcdRegDataWrite RA8876_CCR (pll_enable <<< 7) ++
      lcdRegDataRead RA8876_CCR)

/-! ## Bitmap fonts (bfc/bfcfont.h, bfc/bfcFontMgr.c, Ra8876_Lite.cpp)

A pointer to `BFC_CHARINFO` is a natural number that counts in elements, 0 being the null
pointer; the list of the ranges of a font, linked by `pNextProp`, is a `List`. -/

/-- The fields of `struct BFC_FONT_PROP` other than the link `pNextProp`. -/
structure BFC_FONT_PROP where
  FirstChar : Nat
  LastChar : Nat
  pFirstCharInfo : Nat
deriving DecidableEq, Repr

/-- The fields of `BFC_FONT`; `pProp` is the list that starts at `p.pProp` (empty for a null
pointer). -/
structure BFC_FONT where
  FontType : Nat
  FontHeight : Nat
  Baseline : Nat
  pProp : List BFC_FONT_PROP
deriving DecidableEq, Repr

/-- The loop `while(pProp != 0)` of `GetCharInfo`, entered with the ranges that are left and
the current `pCharInfo`: `Sum.inl` is the value of the `return` inside the loop, `Sum.inr` the
value of `pCharInfo` when the loop ends. -/
def GetCharInfo_loop (ch : Nat) : List BFC_FONT_PROP → Nat → Nat ⊕ Nat
  | [], pCharInfo => Sum.inr pCharInfo
  | pProp :: pNextProp, _ =>
    if ch ≥ pProp.FirstChar ∧ ch ≤ pProp.LastChar then
      Sum.inl (pProp.pFirstCharInfo + (ch - pProp.FirstChar))
    else GetCharInfo_loop ch pNextProp pProp.pFirstCharInfo

/-- The function `GetCharInfo(const BFC_FONT *pFont, unsigned short ch)` of bfcFontMgr.c, for
a font `pFont` that is not null. -/
def GetCharInfo (pFont : BFC_FONT) (ch : Nat) : Nat :=
  match pFont.pProp with
  | [] => 0
  | pProp :: _ =>
    match GetCharInfo_loop ch pFont.pProp 0 with
    | Sum.inl pCharInfo => pCharInfo
    | Sum.inr pCharInfo => if pCharInfo = 0 then pProp.pFirstCharInfo else pCharInfo

/-- `Ra8876_Lite::bfc_GetColorBasedPixel(uint8_t pixel, uint8_t bpp, Color src_color, Color bg)`.
The sums are `int` values, stored in the 8-bit components of `des_color`; `des_color` is the
value that the declaration `Color des_color;` gives it, which is returned as it is for a `bpp`
that is none of 1, 2, 4, 8. -/
def bfc_GetColorBasedPixel (des_color : Color) (pixel bpp : Nat) (src_color bg : Color) :
    Color :=
  if bpp = 1 then
    { des_color with
      r := toUInt8 ((src_color.r : Int) * pixel + (bg.r : Int) * (1 - (pixel : Int)))
      g := toUInt8 ((src_color.g : Int) * pixel + (bg.g : Int) * (1 - (pixel : Int)))
      b := toUInt8 ((src_color.b : Int) * pixel + (bg.b : Int) * (1 - (pixel : Int))) }
  else if bpp = 2 then
    { des_color with
      r := toUInt8 (Int.tdiv ((src_color.r : Int) * pixel) 3
        + Int.tdiv ((bg.r : Int) * (3 - (pixel : Int))) 3)
      g := toUInt8 (Int.tdiv ((src_color.g : Int) * pixel) 3
        + Int.tdiv ((bg.g : Int) * (3 - (pixel : Int))) 3)
      b := toUInt8 (Int.tdiv ((src_color.b : Int) * pixel) 3
        + Int.tdiv ((bg.b : Int) * (3 - (pixel : Int))) 3) }
  else if bpp = 4 then
    { des_color with
      r := toUInt8 (Int.tdiv ((src_color.r : Int) * pixel) 15
        + Int.tdiv ((bg.r : Int) * (15 - (pixel : Int))) 15)
      g := toUInt8 (Int.tdiv ((src_color.g : Int) * pixel) 15
        + Int.tdiv ((bg.g : Int) * (15 - (pixel : Int))) 15)
      b := toUInt8 (Int.tdiv ((src_color.b : Int) * pixel) 15
        + Int.tdiv ((bg.b : Int) * (15 - (pixel : Int))) 15) }
  else if bpp = 8 then
    { des_color with
      r := toUInt8 (Int.tdiv ((src_color.r : Int) * pixel) 255
        + (bg.r : Int) * (255 - (pixel : Int)))
      g := toUInt8 (Int.tdiv ((src_color.g : Int) * pixel) 255
        + (bg.g : Int) * (255 - (pixel : Int)))
      b := toUInt8 (Int.tdiv ((src_color.b : Int) * pixel) 255
        + (bg.b : Int) * (255 - (pixel : Int))) }
  else des_color

/-! ## Specification vocabulary -/

/-- Blocks `i .. i+n-1` are entries of the table and all of them are free (zero). -/
def Vacant (tbl : List Nat) (i n : Nat) : Prop :=
  ∀ j, j < n → tbl[i + j]? = some 0

instance (tbl : List Nat) (i n : Nat) : Decidable (Vacant tbl i n) := by
  unfold Vacant; infer_instance

/-- Blocks `i .. i+n-1` are entries of the table and all of them hold the value `v`. -/
def Stamped (tbl : List Nat) (i n v : Nat) : Prop :=
  ∀ j, j < n → tbl[i + j]? = some v

instance (tbl : List Nat) (i n v : Nat) : Decidable (Stamped tbl i n v) := by
  unfold Stamped; infer_instance

/-- The two tables agree on every block outside `i .. i+n-1`. -/
def SameOutside (tbl tbl' : List Nat) (i n : Nat) : Prop :=
  tbl'.length = tbl.length ∧ ∀ j, j < tbl.length → (j < i ∨ i + n ≤ j) → tbl'[j]? = tbl[j]?

instance (tbl tbl' : List Nat) (i n : Nat) : Decidable (SameOutside tbl tbl' i n) := by
  unfold SameOutside; infer_instance

/-- Number of blocks in use: the counter `used` of `Memory::mem_percentage_used`, which counts
the non-zero entries of the table. -/
def usedBlocks (tbl : List Nat) : Nat :=
  tbl.countP (fun e => e ≠ 0)

/-- The mathematical block count `ceil(size / blockSize)`. -/
def ceilDiv (size blockSize : Nat) : Nat :=
  (size + blockSize - 1) / blockSize

/-- The state of an allocator that `mem_init` has set up: the ready flag is set, the block size
is a non-zero 16-bit multiple of `MEM_BLOCK_LN_NUM`, the table has `mem_alloc_tbl_size` entries
(a 16-bit count) and the blocks lie inside the arena. -/
def Initialised (m : Memory) : Prop :=
  m.isMemoryManagementReady ≠ 0 ∧
  m.mem_block_size ≠ 0 ∧ m.mem_block_size % MEM_BLOCK_LN_NUM = 0 ∧ m.mem_block_size < 65536 ∧
  m.memory_tbl.length = m.mem_alloc_tbl_size ∧ m.mem_alloc_tbl_size < 65536 ∧
  m.mem_alloc_tbl_size * m.mem_block_size ≤ MEM_SIZE_MAX

instance (m : Memory) : Decidable (Initialised m) := by
  unfold Initialised; infer_instance

/-! ## Histories of calls -/

/-- One call of the allocator's interface. -/
inductive Op where
  | malloc (size : Nat)
  | free (offset : Int)
deriving DecidableEq, Repr

/-- A live allocation: the offset `mem_malloc` returned and the size it was asked for. -/
structure Allocation where
  offset : Int
  size : Nat
deriving DecidableEq, Repr

/-- First block of an allocation, `offset / BlockSize`. -/
def Allocation.firstBlock (blockSize : Nat) (a : Allocation) : Nat :=
  a.offset.toNat / blockSize

/-- Number of blocks of an allocation, `ceil(size / BlockSize)`. -/
def Allocation.blocks (blockSize : Nat) (a : Allocation) : Nat :=
  ceilDiv a.size blockSize

/-- The block ranges `[firstBlock, firstBlock + blocks)` of two allocations do not meet. -/
def DisjointBlocks (blockSize : Nat) (a b : Allocation) : Prop :=
  a.firstBlock blockSize + a.blocks blockSize ≤ b.firstBlock blockSize ∨
  b.firstBlock blockSize + b.blocks blockSize ≤ a.firstBlock blockSize

instance (blockSize : Nat) (a b : Allocation) : Decidable (DisjointBlocks blockSize a b) := by
  unfold DisjointBlocks; infer_instance

/-- Why a history has no outcome. -/
inductive TraceError where
  /-- A call had no defined result in C++. -/
  | undefinedBehaviour
  /-- A size that is not a `uint32_t`. -/
  | badArgument
  /-- A `mem_free` of an offset that is not the offset of a live allocation. -/
  | notLive
deriving DecidableEq, Repr

/-- One call, with the list of live allocations kept alongside the allocator: a successful
`mem_malloc` adds the allocation it made, a `mem_free` that returns 0 removes the one it was
given. A `mem_free` is admitted only on the offset of a live allocation. -/
def step (canvasWidth : Nat) (m : Memory) (live : List Allocation) :
    Op → Except TraceError (Memory × List Allocation)
  | Op.malloc size =>
    if 2 ^ 32 ≤ size then Except.error TraceError.badArgument
    else
      match mem_malloc canvasWidth m size with
      | none => Except.error TraceError.undefinedBehaviour
      | some (m', o) =>
        if o < 0 then Except.ok (m', live)
        else Except.ok (m', { offset := o, size := size } :: live)
  | Op.free offset =>
    if live.any (fun a => a.offset = offset) then
      match mem_free canvasWidth m offset with
      | none => Except.error TraceError.undefinedBehaviour
      | some (m', r) =>
        if r = 0 then Except.ok (m', live.filter (fun a => a.offset ≠ offset))
        else Except.ok (m', live)
    else Except.error TraceError.notLive

/-- A history of calls, run from allocator `m` with live allocations `live`. -/
def run (canvasWidth : Nat) : Memory → List Allocation → List Op →
    Except TraceError (Memory × List Allocation)
  | m, live, [] => Except.ok (m, live)
  | m, live, op :: ops =>
    match step canvasWidth m live op with
    | Except.error e => Except.error e
    | Except.ok (m', live') => run canvasWidth m' live' ops

/-- The invariant of a history: before the lazy initialisation nothing is live; afterwards
the allocator is initialised, every live allocation starts on a block boundary, has at least
one block and finds its block count stamped on each of its blocks, and the block ranges of the
live allocations are pairwise disjoint. -/
def LiveInv (m : Memory) (live : List Allocation) : Prop :=
  (m.isMemoryManagementReady = 0 → live = []) ∧
  (m.isMemoryManagementReady ≠ 0 → Initialised m) ∧
  (∀ a ∈ live, 0 ≤ a.offset ∧ a.offset.toNat % m.mem_block_size = 0 ∧
      1 ≤ a.blocks m.mem_block_size ∧
      Stamped m.memory_tbl (a.firstBlock m.mem_block_size) (a.blocks m.mem_block_size)
        (a.blocks m.mem_block_size)) ∧
  live.Pairwise (DisjointBlocks m.mem_block_size)

/-! ## Example states -/

/-- The allocator that `mem_init` leaves for canvas width 16383 (block size 65532, 512
blocks), with `used` as its first table entries and every other block free. -/
def allocator16383 (used : List Nat) : Memory :=
  { memory_tbl := used ++ List.replicate (512 - used.length) 0
    mem_alloc_tbl_size := 512
    mem_block_size := 65532
    isMemoryManagementReady := 1 }

/-- The arena of the scenario of the specification: 16 blocks of 4096 bytes on an initialised
allocator, with `used` as its first table entries and every other block free. -/
def arena16 (used : List Nat) : Memory :=
  { memory_tbl := used ++ List.replicate (16 - used.length) 0
    mem_alloc_tbl_size := 16
    mem_block_size := 4096
    isMemoryManagementReady := 1 }

/-! ## Register writes of a bus log -/

/-- The register that is selected after a log entered with `sel` selected. -/
def selectedAfter : Option Nat → List Bus → Option Nat
  | sel, [] => sel
  | _, Bus.command r :: rest => selectedAfter (some r) rest
  | sel, Bus.data _ :: rest => selectedAfter sel rest
  | sel, Bus.dataRead :: rest => selectedAfter sel rest
  | sel, Bus.statusRead :: rest => selectedAfter sel rest

/-- The register writes of a log entered with `sel` selected, in order: each data write is a
write of its byte to the register that the latest command selected (a data write with the
memory port `RA8876_MRWDP` selected is a pixel-data write). -/
def registerWrites : Option Nat → List Bus → List (Nat × Nat)
  | _, [] => []
  | _, Bus.command r :: rest => registerWrites (some r) rest
  | some r, Bus.data v :: rest => (r, v) :: registerWrites (some r) rest
  | none, Bus.data _ :: rest => registerWrites none rest
  | sel, Bus.dataRead :: rest => registerWrites sel rest
  | sel, Bus.statusRead :: rest => registerWrites sel rest

/-- The registers that a log writes, in order. -/
def writtenRegisters (sel : Option Nat) (log : List Bus) : List Nat :=
  (registerWrites sel log).map Prod.fst

/-- The last byte written to register `reg`, if any. -/
def lastWrite (writes : List (Nat × Nat)) (reg : Nat) : Option Nat :=
  ((writes.filter (fun w => w.1 = reg)).getLast?).map Prod.snd

/-- The 16-bit value last written to the register pair `lo`, `hi`. -/
def lastWrite16 (writes : List (Nat × Nat)) (lo hi : Nat) : Option Nat :=
  match lastWrite writes lo, lastWrite writes hi with
  | some b0, some b1 => some (b0 + 256 * b1)
  | _, _ => none

/-- The 32-bit value last written to the four registers `r0` (low byte) to `r3`. -/
def lastWrite32 (writes : List (Nat × Nat)) (r0 r1 r2 r3 : Nat) : Option Nat :=
  match lastWrite writes r0, lastWrite writes r1, lastWrite writes r2, lastWrite writes r3 with
  | some b0, some b1, some b2, some b3 => some (b0 + 256 * b1 + 65536 * b2 + 16777216 * b3)
  | _, _, _, _ => none

/-- The source descriptor registers of the BTE engine (source 0 and source 1: start address,
image width, window start). -/
def bteSourceRegisters : List Nat :=
  [RA8876_S0_STR0, RA8876_S0_STR1, RA8876_S0_STR2, RA8876_S0_STR3, RA8876_S0_WTH0,
    RA8876_S0_WTH1, RA8876_S0_X0, RA8876_S0_X1, RA8876_S0_Y0, RA8876_S0_Y1,
    RA8876_S1_STR0, RA8876_S1_STR1, RA8876_S1_STR2, RA8876_S1_STR3, RA8876_S1_WTH0,
    RA8876_S1_WTH1, RA8876_S1_X0, RA8876_S1_X1, RA8876_S1_Y0, RA8876_S1_Y1]

/-- The destination descriptor registers of the BTE engine. -/
def bteDestinationRegisters : List Nat :=
  [RA8876_DT_STR0, RA8876_DT_STR1, RA8876_DT_STR2, RA8876_DT_STR3, RA8876_DT_WTH0,
    RA8876_DT_WTH1, RA8876_DT_X0, RA8876_DT_X1, RA8876_DT_Y0, RA8876_DT_Y1]

/-- The transfer-size registers of the BTE engine. -/
def bteSizeRegisters : List Nat :=
  [RA8876_BTE_WTH0, RA8876_BTE_WTH1, RA8876_BTE_HIG0, RA8876_BTE_HIG1]

/-- The colour registers (foreground, background) and the alpha-blending register. -/
def bteColourAlphaRegisters : List Nat :=
  [RA8876_FGCR, RA8876_FGCG, RA8876_FGCB, RA8876_BGCR, RA8876_BGCG, RA8876_BGCB,
    RA8876_APB_CTRL]

/-- The step of the BTE protocol a register belongs to: source descriptor 0, destination
descriptor 1, transfer size 2, operation selector 3, enable 4. -/
def btePhase (reg : Nat) : Option Nat :=
  if reg ∈ bteSourceRegisters then some 0
  else if reg ∈ bteDestinationRegisters then some 1
  else if reg ∈ bteSizeRegisters then some 2
  else if reg = RA8876_BTE_CTRL1 then some 3
  else if reg = RA8876_BTE_CTRL0 then some 4
  else none

/-- A write to `a` may come before a write to `b`: their protocol steps, when both have one,
are in order, and when `a` is the enable register `b` is no descriptor, size, selector, enable,
colour or alpha register. -/
def bteOrderOk (a b : Nat) : Bool :=
  (match btePhase a, btePhase b with
    | some pa, some pb => decide (pa ≤ pb)
    | _, _ => true) &&
  (a != RA8876_BTE_CTRL0 || ((btePhase b).isNone && !(bteColourAlphaRegisters.contains b)))

/-- The written registers follow the BTE protocol: source descriptors, destination descriptor,
transfer size, operation selector, enable, in this order, and after the enable write none of
them, nor a colour or alpha register, is written again. -/
def BteProtocol (regs : List Nat) : Prop :=
  regs.Pairwise (fun a b => bteOrderOk a b = true)

instance (regs : List Nat) : Decidable (BteProtocol regs) := by
  unfold BteProtocol; infer_instance

/-- The core-busy bit of a status value is set. -/
def coreBusy (s : Nat) : Prop :=
  s &&& RA8876_STSR_CORE_BUSY ≠ 0

instance (s : Nat) : Decidable (coreBusy s) := by
  unfold coreBusy; infer_instance

/-- The written registers follow the BTE protocol and the enable register `RA8876_BTE_CTRL0`
is written exactly once. -/
def BteProgrammed (regs : List Nat) : Prop :=
  BteProtocol regs ∧ regs.count RA8876_BTE_CTRL0 = 1

instance (regs : List Nat) : Decidable (BteProgrammed regs) := by
  unfold BteProgrammed; infer_instance

/-- Sample values for the parameters `Codes`, for the theorems at concrete inputs. -/
def sampleCodes : Codes :=
  { RA8876_BTE_ENABLE := 1
    RA8876_BTE_MEMORY_COPY_WITH_ROP := 2
    RA8876_BTE_MEMORY_COPY_WITH_CHROMA := 5
    RA8876_BTE_MPU_WRITE_WITH_ROP := 0
    RA8876_BTE_MPU_WRITE_WITH_CHROMA := 4
    RA8876_BTE_ROP_BUS_WIDTH8 := 7
    RA8876_BTE_MPU_WRITE_COLOR_EXPANSION := 8
    RA8876_BTE_MPU_WRITE_COLOR_EXPANSION_WITH_CHROMA := 9
    RA8876_BTE_ROP_CODE_12 := 12
    RA8876_BTE_PATTERN_FILL_WITH_ROP := 6
    RA8876_BTE_PATTERN_FILL_WITH_CHROMA := 7
    RA8876_PATTERN_FORMAT8X8 := 0
    RA8876_PATTERN_FORMAT16X16 := 1
    RA8876_BTE_MEMORY_COPY_WITH_OPACITY := 10
    RA8876_BTE_SOLID_FILL := 12
    RA8876_SERIAL_FLASH_SELECT1 := 1
    RA8876_SERIAL_FLASH_DMA_MODE := 1
    RA8876_SERIAL_FLASH_ADDR_32BIT := 1
    RA8876_FOLLOW_RA8876_MODE := 0
    RA8876_SPI_FAST_READ_8DUMMY := 4
    RA8876_SPI_DIV2 := 0
    RA8876_DMA_START := 1
    MASK_COLOR := { r := 255, g := 0, b := 255, a := 255 } }

/-- A sample controller state: canvas 800 by 480 in the 16-bit colour mode. -/
def sampleDisplay : Ra8876_Lite :=
  { _canvasWidth := 800, _canvasHeight := 480, _colorMode := COLOR_MODE.COLOR_16BPP_RGB565 }

/-- The three calls under the comment `//Main window restore` that end `canvasWrite`,
`canvasRead` and `putPicture`. -/
def restoreMainWindow (self : Ra8876_Lite) : List Bus :=
  activeWindowXY ACTIVE_WINDOW_STARTX ACTIVE_WINDOW_STARTY ++
  activeWindowWH self._canvasWidth self._canvasHeight ++
  canvasImageStartAddress CANVAS_OFFSET

/-- The primary-display defaults are in place after the register writes `writes`: the last
values written to the active-window origin registers are `ACTIVE_WINDOW_STARTX` and
`ACTIVE_WINDOW_STARTY`, to the active-window size registers the canvas width and height, and
to the canvas start-address registers `CANVAS_OFFSET`. -/
def RestoredDefaults (self : Ra8876_Lite) (writes : List (Nat × Nat)) : Prop :=
  lastWrite16 writes RA8876_AWUL_X0 RA8876_AWUL_X1 = some ACTIVE_WINDOW_STARTX ∧
  lastWrite16 writes RA8876_AWUL_Y0 RA8876_AWUL_Y1 = some ACTIVE_WINDOW_STARTY ∧
  lastWrite16 writes RA8876_AW_WTH0 RA8876_AW_WTH1 = some self._canvasWidth ∧
  lastWrite16 writes RA8876_AW_HT0 RA8876_AW_HT1 = some self._canvasHeight ∧
  lastWrite32 writes RA8876_CVSSA0 RA8876_CVSSA1 RA8876_CVSSA2 RA8876_CVSSA3
    = some CANVAS_OFFSET

/-- The transfer size that the register writes `writes` hand to the BTE engine. -/
def TransferSize (writes : List (Nat × Nat)) (width height : Nat) : Prop :=
  lastWrite16 writes RA8876_BTE_WTH0 RA8876_BTE_WTH1 = some width ∧
  lastWrite16 writes RA8876_BTE_HIG0 RA8876_BTE_HIG1 = some height

/-- The clipped extent `min(extent, destExtent - destStart)`. -/
def clippedSize (extent : Int) (destExtent : Nat) (destStart : Int) : Nat :=
  (min extent ((destExtent : Int) - destStart)).toNat

/-- A sample bitmap of 100 by 100 pixels at address 0. -/
def sampleBitmap : BITMAP :=
  { w := 100, h := 100, thisBitmapAddress := 0 }

/-- The allocator of the specification that only has the forward (large-class) scan: lazy
initialisation, the `size == 0` check, the block count, then the forward scan, for every
size. -/
def forwardOnlyMalloc (canvasWidth : Nat) (m : Memory) (size : Nat) : Option (Memory × Int) :=
  match ensureReady canvasWidth m with
  | none => none
  | some m0 =>
    if size = 0 then some (m0, -1)
    else
      match nmembOf size m0.mem_block_size with
      | none => none
      | some nmemb =>
        match scanForward m0.memory_tbl m0.mem_alloc_tbl_size m0.mem_block_size nmemb
            MEM_START_ENTRY (m0.mem_alloc_tbl_size - MEM_START_ENTRY) with
        | none => none
        | some (tbl', r) => some ({ m0 with memory_tbl := tbl' }, r)

/-- The first byte written to register `reg`, if any. -/
def firstWrite (writes : List (Nat × Nat)) (reg : Nat) : Option Nat :=
  (writes.find? (fun w => w.1 = reg)).map Prod.snd

/-- The 16-bit value first written to the register pair `lo`, `hi`. -/
def firstWrite16 (writes : List (Nat × Nat)) (lo hi : Nat) : Option Nat :=
  match firstWrite writes lo, firstWrite writes hi with
  | some b0, some b1 => some (b0 + 256 * b1)
  | _, _ => none

/-- The 16-bit pixel value `(r >> 3) << 11 | (g >> 2) << 5 | (b >> 3)` of the colour mode
RGB565. -/
def rgb565 (r g b : Nat) : Nat :=
  ((r >>> 3) <<< 11) ||| ((g >>> 2) <<< 5) ||| (b >>> 3)

/-- The PLL frequency `OSC_FREQ * (PLLDIVN + 1) / 2^PLLDIVM` in MHz. -/
def pllFrequency (divn divm : Nat) : Nat :=
  OSC_FREQ * (divn + 1) / 2 ^ divm

/-- A sample font with two character ranges, 20h to 7Eh with its character infos at 1000 and
A0h to FFh with its character infos at 2000. -/
def sampleFont : BFC_FONT :=
  { FontType := 2, FontHeight := 16, Baseline := 12
    pProp := [{ FirstChar := 0x20, LastChar := 0x7E, pFirstCharInfo := 1000 },
      { FirstChar := 0xA0, LastChar := 0xFF, pFirstCharInfo := 2000 }] }

/-- The register writes of a source-0 descriptor: the four bytes of the start address, low
byte first, the two bytes of the image width, and the two bytes of each window coordinate. -/
def source0Writes (addr width x y : Nat) : List (Nat × Nat) :=
  [(RA8876_S0_STR0, addr % 256), (RA8876_S0_STR1, (addr >>> 8) % 256),
    (RA8876_S0_STR2, (addr >>> 16) % 256), (RA8876_S0_STR3, (addr >>> 24) % 256),
    (RA8876_S0_WTH0, width % 256), (RA8876_S0_WTH1, (width >>> 8) % 256),
    (RA8876_S0_X0, x % 256), (RA8876_S0_X1, (x >>> 8) % 256),
    (RA8876_S0_Y0, y % 256), (RA8876_S0_Y1, (y >>> 8) % 256)]

/-- The register writes of a source-1 descriptor. -/
def source1Writes (addr width x y : Nat) : List (Nat × Nat) :=
  [(RA8876_S1_STR0, addr % 256), (RA8876_S1_STR1, (addr >>> 8) % 256),
    (RA8876_S1_STR2, (addr >>> 16) % 256), (RA8876_S1_STR3, (addr >>> 24) % 256),
    (RA8876_S1_WTH0, width % 256), (RA8876_S1_WTH1, (width >>> 8) % 256),
    (RA8876_S1_X0, x % 256), (RA8876_S1_X1, (x >>> 8) % 256),
    (RA8876_S1_Y0, y % 256), (RA8876_S1_Y1, (y >>> 8) % 256)]

/-- The register writes of a destination descriptor. -/
def destinationWrites (addr width x y : Nat) : List (Nat × Nat) :=
  [(RA8876_DT_STR0, addr % 256), (RA8876_DT_STR1, (addr >>> 8) % 256),
    (RA8876_DT_STR2, (addr >>> 16) % 256), (RA8876_DT_STR3, (addr >>> 24) % 256),
    (RA8876_DT_WTH0, width % 256), (RA8876_DT_WTH1, (width >>> 8) % 256),
    (RA8876_DT_X0, x % 256), (RA8876_DT_X1, (x >>> 8) % 256),
    (RA8876_DT_Y0, y % 256), (RA8876_DT_Y1, (y >>> 8) % 256)]

/-- The register writes of a transfer size. -/
def sizeWrites (width height : Nat) : List (Nat × Nat) :=
  [(RA8876_BTE_WTH0, width % 256), (RA8876_BTE_WTH1, (width >>> 8) % 256),
    (RA8876_BTE_HIG0, height % 256), (RA8876_BTE_HIG1, (height >>> 8) % 256)]

/-- The writes of a foreground colour with the byte values `r`, `g`, `b`. -/
def foregroundWrites (r g b : Nat) : List (Nat × Nat) :=
  [(RA8876_FGCR, r), (RA8876_FGCG, g), (RA8876_FGCB, b)]

/-- The writes of a background colour with the byte values `r`, `g`, `b`. -/
def backgroundWrites (r g b : Nat) : List (Nat × Nat) :=
  [(RA8876_BGCR, r), (RA8876_BGCG, g), (RA8876_BGCB, b)]

/-- The writes of the operation selector `selector` and then of the enable value `enable`. -/
def controlWrites (selector enable : Nat) : List (Nat × Nat) :=
  [(RA8876_BTE_CTRL1, selector % 256), (RA8876_BTE_CTRL0, enable % 256)]

/-- The writes of the bytes `data 0 .. data (n-1)` to the memory port. -/
def portWrites (data : Nat → Nat) (n : Nat) : List (Nat × Nat) :=
  (List.range n).map (fun k => (RA8876_MRWDP, data k % 256))

/-- The writes of the 16-bit words `data 0 .. data (n-1)` to the memory port, the low byte of
each word first. -/
def portWrites16 (data : Nat → Nat) (n : Nat) : List (Nat × Nat) :=
  (List.range n).flatMap
    (fun k => [(RA8876_MRWDP, data k % 256), (RA8876_MRWDP, (data k >>> 8) % 256)])

/-- The register writes `writes` of a call are exactly `expected`, and the registers of
`expected` follow the BTE protocol with the enable register written once. -/
def ProgramsEngine (writes expected : List (Nat × Nat)) : Prop :=
  writes = expected ∧ BteProgrammed (expected.map Prod.fst)

/-- The same for a call that does not return when `diverges` holds: `writes` is then `none`,
and otherwise it is `expected`. -/
def ProgramsEngineUnless (diverges : Prop) [Decidable diverges]
    (writes : Option (List (Nat × Nat))) (expected : List (Nat × Nat)) : Prop :=
  writes = (if diverges then none else some expected) ∧
  BteProgrammed (expected.map Prod.fst)

/-! ## The loops -/

theorem vacantFrom_le (tbl : List Nat) (offset : Nat) :
    ∀ (r v k : Nat), vacantFrom tbl offset v r = some k → v ≤ k ∧ k ≤ v + r := by
  intro r
  induction r with
  | zero =>
    intro v k h
    simp only [vacantFrom, Option.some.injEq] at h
    omega
  | succ r ih =>
    intro v k h
    simp only [vacantFrom] at h
    split at h
    · exact absurd h (by simp)
    · split at h
      · have := ih _ _ h
        omega
      · simp only [Option.some.injEq] at h
        omega

theorem vacantFrom_full_iff (tbl : List Nat) (offset : Nat) :
    ∀ (r v : Nat), vacantFrom tbl offset v r = some (v + r) ↔
      ∀ j, j < r → tbl[offset + v + j]? = some 0 := by
  intro r
  induction r with
  | zero => intro v; simp [vacantFrom]
  | succ r ih =>
    intro v
    simp only [vacantFrom]
    constructor
    · intro h j hj
      split at h
      · exact absurd h (by simp)
      · rename_i e he
        split at h
        · rename_i h0
          subst h0
          have h' : vacantFrom tbl offset (v + 1) r = some (v + 1 + r) := by
            rw [h]; congr 1; omega
          rcases Nat.eq_zero_or_pos j with hj0 | hj0
          · subst hj0; simpa using he
          · have := (ih (v + 1)).1 h' (j - 1) (by omega)
            have e1 : offset + (v + 1) + (j - 1) = offset + v + j := by omega
            rwa [e1] at this
        · simp only [Option.some.injEq] at h
          omega
    · intro h
      have h0 := h 0 (by omega)
      simp only [Nat.add_zero] at h0
      rw [h0]
      simp only [↓reduceIte]
      have : vacantFrom tbl offset (v + 1) r = some (v + 1 + r) := by
        apply (ih (v + 1)).2
        intro j hj
        have := h (j + 1) (by omega)
        have e1 : offset + (v + 1) + j = offset + v + (j + 1) := by omega
        rwa [e1]
      rw [this]; congr 1; omega

theorem vacantFrom_isSome (tbl : List Nat) (offset : Nat) :
    ∀ (r v : Nat), offset + v + r ≤ tbl.length → ∃ k, vacantFrom tbl offset v r = some k := by
  intro r
  induction r with
  | zero => intro v _; exact ⟨v, rfl⟩
  | succ r ih =>
    intro v hlen
    simp only [vacantFrom]
    have hlt : offset + v < tbl.length := by omega
    rw [List.getElem?_eq_getElem hlt]
    simp only
    split
    · exact ih (v + 1) (by omega)
    · exact ⟨v, rfl⟩

theorem writeRun_spec (value : Nat) :
    ∀ (count index : Nat) (tbl : List Nat), index + count ≤ tbl.length →
      ∃ tbl', writeRun tbl value index count = some tbl' ∧ tbl'.length = tbl.length ∧
        ∀ j, tbl'[j]? = if index ≤ j ∧ j < index + count then some value else tbl[j]? := by
  intro count
  induction count with
  | zero =>
    intro index tbl _
    refine ⟨tbl, rfl, rfl, ?_⟩
    intro j
    have : ¬ (index ≤ j ∧ j < index + 0) := by omega
    rw [if_neg this]
  | succ c ih =>
    intro index tbl hlen
    have hlt : index < tbl.length := by omega
    simp only [writeRun, hlt, ↓reduceIte]
    obtain ⟨t, ht, hl, hj⟩ := ih (index + 1) (tbl.set index value) (by simp; omega)
    refine ⟨t, ht, by simpa using hl, ?_⟩
    intro j
    rw [hj j, List.getElem?_set]
    by_cases h1 : index = j
    · subst h1
      simp [hlt]
    · by_cases h2 : index + 1 ≤ j ∧ j < index + 1 + c
      · have : index ≤ j ∧ j < index + (c + 1) := by omega
        simp [h2, this]
      · have : ¬ (index ≤ j ∧ j < index + (c + 1)) := by omega
        simp [h1, h2, this]

theorem tryRun_vacant (tbl : List Nat) (mem_block_size nmemb offset : Nat) (hn : 1 ≤ nmemb)
    (hv : Vacant tbl offset nmemb) (hb : offset * mem_block_size < 2 ^ 31) :
    ∃ tbl', writeRun tbl (nmemb % 65536) offset nmemb = some tbl' ∧
      tryRun tbl mem_block_size nmemb offset
        = some (some (tbl', ((offset * mem_block_size : Nat) : Int))) := by
  have hlen : offset + nmemb ≤ tbl.length := by
    have h1 := hv (nmemb - 1) (by omega)
    have h2 := (List.getElem?_eq_some.1 h1).1
    omega
  obtain ⟨t, ht, -, -⟩ := writeRun_spec (nmemb % 65536) nmemb offset tbl hlen
  refine ⟨t, ht, ?_⟩
  have hfull : vacantFrom tbl offset 0 nmemb = some nmemb := by
    have := (vacantFrom_full_iff tbl offset nmemb 0).2 (by simpa [Vacant] using hv)
    simpa using this
  simp only [tryRun, hfull, ↓reduceIte, ht, physicalAddress, hb]

theorem tryRun_not_vacant (tbl : List Nat) (mem_block_size nmemb offset : Nat)
    (hlen : offset + nmemb ≤ tbl.length) (hv : ¬ Vacant tbl offset nmemb) :
    tryRun tbl mem_block_size nmemb offset = some none := by
  obtain ⟨k, hk⟩ := vacantFrom_isSome tbl offset nmemb 0 (by omega)
  have hne : k ≠ nmemb := by
    intro h
    subst h
    apply hv
    have := (vacantFrom_full_iff tbl offset k 0).1 (by simpa using hk)
    simpa [Vacant] using this
  simp [tryRun, hk, hne]

/-- What `tryRun` can return: a failure to fit, or the stamped table with the block address. -/
theorem tryRun_inv (tbl : List Nat) (mem_block_size nmemb offset : Nat) (r : List Nat × Int)
    (h : tryRun tbl mem_block_size nmemb offset = some (some r)) :
    Vacant tbl offset nmemb ∧ writeRun tbl (nmemb % 65536) offset nmemb = some r.1 ∧
      r.2 = ((offset * mem_block_size : Nat) : Int) := by
  unfold tryRun at h
  split at h
  · exact absurd h (by simp)
  · rename_i k hk
    split at h
    · rename_i hkn
      subst hkn
      split at h
      · exact absurd h (by simp)
      · rename_i t ht
        unfold physicalAddress at h
        split at h
        · exact absurd h (by simp)
        · rename_i a ha
          split at ha
          · simp only [Option.some.injEq] at ha h
            subst ha
            subst h
            refine ⟨?_, ht, rfl⟩
            have := (vacantFrom_full_iff tbl offset k 0).1 (by simpa using hk)
            simpa [Vacant] using this
          · exact absurd ha (by simp)
    · simp at h

/-- The forward scan is a first-fit search among the start blocks `i` with
`i + nmemb < mem_alloc_tbl_size`: it stamps and returns the least vacant one, or fails. -/
theorem scanForward_spec (tbl : List Nat) (T bs n : Nat) (hT : tbl.length = T) (hn : 1 ≤ n)
    (hb : T * bs < 2 ^ 31) :
    ∀ (steps offset : Nat), T ≤ offset + steps + n →
      (∃ i tbl', offset ≤ i ∧ i + n < T ∧ Vacant tbl i n ∧
          (∀ k, offset ≤ k → k < i → ¬ Vacant tbl k n) ∧
          writeRun tbl (n % 65536) i n = some tbl' ∧
          scanForward tbl T bs n offset steps = some (tbl', ((i * bs : Nat) : Int))) ∨
      ((∀ k, offset ≤ k → k + n < T → ¬ Vacant tbl k n) ∧
          scanForward tbl T bs n offset steps = some (tbl, -1)) := by
  intro steps
  induction steps with
  | zero =>
    intro offset hfuel
    right
    exact ⟨fun k hk hkn => by omega, rfl⟩
  | succ steps ih =>
    intro offset hfuel
    by_cases hc : (offset : Int) < (T : Int) - (n : Int)
    · have hlt : offset + n < T := by omega
      have hoT : offset < tbl.length := by omega
      have hnext := ih (offset + 1) (by omega)
      have hstep : ¬ Vacant tbl offset n →
          scanForward tbl T bs n offset (steps + 1) = scanForward tbl T bs n (offset + 1) steps := by
        intro hv
        simp only [scanForward, hc, ↓reduceIte, List.getElem?_eq_getElem hoT]
        split
        · rw [tryRun_not_vacant tbl bs n offset (by omega) hv]
        · rfl
      by_cases hv : Vacant tbl offset n
      · left
        have hob : offset * bs < 2 ^ 31 :=
          lt_of_le_of_lt (Nat.mul_le_mul_right bs (by omega : offset ≤ T)) hb
        obtain ⟨t, ht, htry⟩ := tryRun_vacant tbl bs n offset hn hv hob
        refine ⟨offset, t, le_refl _, hlt, hv, fun k h1 h2 => by omega, ht, ?_⟩
        have h0 : tbl[offset]? = some 0 := by simpa using hv 0 (by omega)
        simp only [scanForward, hc, ↓reduceIte, h0, htry]
      · rw [hstep hv]
        rcases hnext with ⟨i, t, h1, h2, h3, h4, h5, h6⟩ | ⟨h1, h2⟩
        · left
          refine ⟨i, t, by omega, h2, h3, ?_, h5, h6⟩
          intro k hk1 hk2
          rcases Nat.eq_or_lt_of_le hk1 with e | e
          · subst e; exact hv
          · exact h4 k (by omega) hk2
        · right
          refine ⟨?_, h2⟩
          intro k hk1 hk2
          rcases Nat.eq_or_lt_of_le hk1 with e | e
          · subst e; exact hv
          · exact h1 k (by omega) hk2
    · right
      refine ⟨fun k hk hkn => by omega, ?_⟩
      simp only [scanForward, hc, ↓reduceIte]

theorem ceilDiv_eq (size bs : Nat) (hbs : bs ≠ 0) :
    ceilDiv size bs = if size % bs ≠ 0 then size / bs + 1 else size / bs := by
  unfold ceilDiv
  have hpos : 0 < bs := Nat.pos_of_ne_zero hbs
  have hdm := Nat.div_add_mod size bs
  have hml := Nat.mod_lt size hpos
  split
  · rename_i hr
    apply Nat.div_eq_of_lt_le
    · rw [Nat.mul_comm]
      have : bs * (size / bs + 1) = bs * (size / bs) + bs := by ring
      omega
    · rw [Nat.mul_comm]
      have : bs * (size / bs + 1 + 1) = bs * (size / bs) + bs + bs := by ring
      omega
  · rename_i hr
    have hr0 : size % bs = 0 := by omega
    apply Nat.div_eq_of_lt_le
    · rw [Nat.mul_comm]; omega
    · rw [Nat.mul_comm]
      have : bs * (size / bs + 1) = bs * (size / bs) + bs := by ring
      omega

theorem nmembOf_eq (size bs : Nat) (hbs : bs ≠ 0) (h4 : bs % MEM_BLOCK_LN_NUM = 0)
    (hs : size < 2 ^ 32) : nmembOf size bs = some (ceilDiv size bs) := by
  have h4' : bs % 4 = 0 := h4
  have hq : size / bs ≤ size / 4 := Nat.div_le_div_left (by omega) (by omega)
  have hq4 : size / 4 < 2 ^ 30 := by omega
  rw [ceilDiv_eq size bs hbs]
  unfold nmembOf
  simp only [hbs, ↓reduceIte]
  split <;> simp <;> omega

theorem ceilDiv_pos (size bs : Nat) (hbs : bs ≠ 0) (hs : 0 < size) : 1 ≤ ceilDiv size bs := by
  rw [ceilDiv_eq size bs hbs]
  split
  · exact Nat.le_add_left 1 _
  · rename_i hr
    have hr0 : size % bs = 0 := by omega
    have := Nat.div_add_mod size bs
    rcases Nat.eq_zero_or_pos (size / bs) with h | h
    · rw [h, hr0] at this; simp at this; omega
    · exact h

/-! ## Initialisation -/

theorem mem_init_eq (cw : Nat) (m m0 : Memory) (h : mem_init cw m = some m0) :
    blockSizeFor cw ≠ 0 ∧
    m0 = { memory_tbl := List.replicate ((MEM_SIZE_MAX / blockSizeFor cw) % 65536) 0
           mem_alloc_tbl_size := (MEM_SIZE_MAX / blockSizeFor cw) % 65536
           mem_block_size := blockSizeFor cw
           isMemoryManagementReady := 1 } := by
  unfold mem_init at h
  simp only at h
  split at h
  · exact absurd h (by simp)
  · rename_i hne
    simp only [Option.some.injEq] at h
    exact ⟨hne, h.symm⟩

theorem mem_init_initialised (cw : Nat) (m m0 : Memory) (h : mem_init cw m = some m0) :
    Initialised m0 := by
  obtain ⟨hne, rfl⟩ := mem_init_eq cw m m0 h
  have h4 : blockSizeFor cw % MEM_BLOCK_LN_NUM = 0 := by
    unfold blockSizeFor MEM_BLOCK_LN_NUM; omega
  have hlt : blockSizeFor cw < 65536 := by
    unfold blockSizeFor; omega
  refine ⟨by simp, hne, h4, hlt, by simp, Nat.mod_lt _ (by norm_num), ?_⟩
  calc (MEM_SIZE_MAX / blockSizeFor cw) % 65536 * blockSizeFor cw
      ≤ (MEM_SIZE_MAX / blockSizeFor cw) * blockSizeFor cw :=
        Nat.mul_le_mul_right _ (Nat.mod_le _ _)
    _ ≤ MEM_SIZE_MAX := Nat.div_mul_le_self _ _

theorem mem_init_isSome (cw : Nat) (m : Memory) (h : blockSizeFor cw ≠ 0) :
    ∃ m0, mem_init cw m = some m0 := by
  unfold mem_init
  simp only [h, ↓reduceIte]
  exact ⟨_, rfl⟩

theorem ensureReady_of_ready (cw : Nat) (m : Memory) (h : m.isMemoryManagementReady ≠ 0) :
    ensureReady cw m = some m := by
  simp [ensureReady, h]

theorem ensureReady_ready (cw : Nat) (m m0 : Memory) (h : ensureReady cw m = some m0) :
    m0.isMemoryManagementReady ≠ 0 := by
  unfold ensureReady at h
  split at h
  · obtain ⟨-, rfl⟩ := mem_init_eq cw m m0 h
    simp
  · simp only [Option.some.injEq] at h
    subst h
    assumption

/-- A call of `mem_malloc` on any object is the call on the object its lazy initialisation
leaves. -/
theorem mem_malloc_ensureReady (cw : Nat) (m m0 : Memory) (size : Nat)
    (h : ensureReady cw m = some m0) : mem_malloc cw m size = mem_malloc cw m0 size := by
  have h0 := ensureReady_of_ready cw m0 (ensureReady_ready cw m m0 h)
  simp only [mem_malloc, mem_malloc_with, h, h0]

/-! ## `mem_malloc` on an initialised allocator -/

/-- On an initialised allocator a call with `0 < size` is a first-fit search among the start
blocks `i` with `i + n < mem_alloc_tbl_size`, `n = ceil(size / mem_block_size)`: it stamps the
least vacant one with `n` and returns its address, or changes nothing and returns `-1`. -/
theorem mem_malloc_spec (cw : Nat) (m : Memory) (size : Nat) (hI : Initialised m)
    (hs0 : 0 < size) (hs : size < 2 ^ 32) :
    (∃ i tbl', i + ceilDiv size m.mem_block_size < m.mem_alloc_tbl_size ∧
        Vacant m.memory_tbl i (ceilDiv size m.mem_block_size) ∧
        (∀ k, k < i → ¬ Vacant m.memory_tbl k (ceilDiv size m.mem_block_size)) ∧
        writeRun m.memory_tbl (ceilDiv size m.mem_block_size) i (ceilDiv size m.mem_block_size)
          = some tbl' ∧
        mem_malloc cw m size
          = some ({ m with memory_tbl := tbl' }, ((i * m.mem_block_size : Nat) : Int))) ∨
    ((∀ k, k + ceilDiv size m.mem_block_size < m.mem_alloc_tbl_size →
        ¬ Vacant m.memory_tbl k (ceilDiv size m.mem_block_size)) ∧
      mem_malloc cw m size = some (m, -1)) := by
  obtain ⟨hr, hbs, h4, hbl, hlen, hT, hmul⟩ := hI
  have hn := nmembOf_eq size m.mem_block_size hbs h4 hs
  have hn1 := ceilDiv_pos size m.mem_block_size hbs hs0
  have hb : m.mem_alloc_tbl_size * m.mem_block_size < 2 ^ 31 :=
    lt_of_le_of_lt hmul (by unfold MEM_SIZE_MAX; norm_num)
  have hsz : ¬ size = 0 := by omega
  have hgt : size > MEM_LARGE_BLOCK_THRESHOLD := hs0
  have hcall : mem_malloc cw m size =
      match scanForward m.memory_tbl m.mem_alloc_tbl_size m.mem_block_size
          (ceilDiv size m.mem_block_size) MEM_START_ENTRY
          (m.mem_alloc_tbl_size - MEM_START_ENTRY) with
      | none => none
      | some (tbl', r) => some ({ m with memory_tbl := tbl' }, r) := by
    simp only [mem_malloc, mem_malloc_with, ensureReady_of_ready cw m hr, hsz, ↓reduceIte, hn,
      hgt]
  have hscan := scanForward_spec m.memory_tbl m.mem_alloc_tbl_size m.mem_block_size
    (ceilDiv size m.mem_block_size) hlen hn1 hb (m.mem_alloc_tbl_size - MEM_START_ENTRY)
    MEM_START_ENTRY (by unfold MEM_START_ENTRY CANVAS_OFFSET; omega)
  rcases hscan with ⟨i, t, -, h2, h3, h4', h5, h6⟩ | ⟨h1, h2⟩
  · left
    have hmod : ceilDiv size m.mem_block_size % 65536 = ceilDiv size m.mem_block_size :=
      Nat.mod_eq_of_lt (by omega)
    rw [hmod] at h5
    refine ⟨i, t, h2, h3, ?_, h5, ?_⟩
    · intro k hk
      exact h4' k (by unfold MEM_START_ENTRY CANVAS_OFFSET; omega) hk
    · rw [hcall, h6]
  · right
    refine ⟨?_, ?_⟩
    · intro k hk
      exact h1 k (by unfold MEM_START_ENTRY CANVAS_OFFSET; omega) hk
    · rw [hcall, h2]

theorem usedBlocks_set_vacant (v : Nat) (hv : v ≠ 0) :
    ∀ (tbl : List Nat) (i : Nat), tbl[i]? = some 0 →
      usedBlocks (tbl.set i v) = usedBlocks tbl + 1 := by
  intro tbl
  induction tbl with
  | nil => intro i h; simp at h
  | cons a l ih =>
    intro i h
    cases i with
    | zero =>
      simp only [List.getElem?_cons_zero, Option.some.injEq] at h
      subst h
      simp [usedBlocks, List.countP_cons, hv]
    | succ k =>
      simp only [List.getElem?_cons_succ] at h
      have := ih k h
      simp only [usedBlocks, List.set_cons_succ, List.countP_cons] at this ⊢
      omega

theorem usedBlocks_writeRun (v : Nat) (hv : v ≠ 0) :
    ∀ (n i : Nat) (tbl t : List Nat), Vacant tbl i n → writeRun tbl v i n = some t →
      usedBlocks t = usedBlocks tbl + n := by
  intro n
  induction n with
  | zero =>
    intro i tbl t _ h
    simp only [writeRun, Option.some.injEq] at h
    subst h
    rfl
  | succ n ih =>
    intro i tbl t hvac h
    have h0 : tbl[i]? = some 0 := by simpa using hvac 0 (by omega)
    have hlt : i < tbl.length := (List.getElem?_eq_some.1 h0).1
    simp only [writeRun, hlt, ↓reduceIte] at h
    have hvac' : Vacant (tbl.set i v) (i + 1) n := by
      intro j hj
      rw [List.getElem?_set_ne (by omega)]
      have := hvac (j + 1) (by omega)
      have e : i + 1 + j = i + (j + 1) := by omega
      rw [e]
      exact this
    rw [ih (i + 1) (tbl.set i v) t hvac' h, usedBlocks_set_vacant v hv tbl i h0]
    omega

theorem writeRun_effect (tbl t : List Nat) (v i n : Nat) (hlen : i + n ≤ tbl.length)
    (h : writeRun tbl v i n = some t) : Stamped t i n v ∧ SameOutside tbl t i n := by
  obtain ⟨t', ht', hl, hj⟩ := writeRun_spec v n i tbl hlen
  rw [h] at ht'
  simp only [Option.some.injEq] at ht'
  subst ht'
  refine ⟨?_, hl, ?_⟩
  · intro j hjn
    rw [hj]
    have : i ≤ i + j ∧ i + j < i + n := by omega
    rw [if_pos this]
  · intro j _ hout
    rw [hj]
    have : ¬ (i ≤ j ∧ j < i + n) := by omega
    rw [if_neg this]

/-- A successful call, decomposed: the start block, the stamped table, the returned address. -/
theorem mem_malloc_success (cw : Nat) (m m' : Memory) (size : Nat) (o : Int)
    (hI : Initialised m) (hs : size < 2 ^ 32) (h : mem_malloc cw m size = some (m', o))
    (ho : 0 ≤ o) :
    ∃ i t, 0 < size ∧ o = ((i * m.mem_block_size : Nat) : Int) ∧
      i + ceilDiv size m.mem_block_size < m.mem_alloc_tbl_size ∧
      Vacant m.memory_tbl i (ceilDiv size m.mem_block_size) ∧
      (∀ k, k < i → ¬ Vacant m.memory_tbl k (ceilDiv size m.mem_block_size)) ∧
      writeRun m.memory_tbl (ceilDiv size m.mem_block_size) i (ceilDiv size m.mem_block_size)
        = some t ∧
      m' = { m with memory_tbl := t } := by
  rcases Nat.eq_zero_or_pos size with hz | hpos
  · subst hz
    simp only [mem_malloc, mem_malloc_with, ensureReady_of_ready cw m hI.1, ↓reduceIte,
      Option.some.injEq, Prod.mk.injEq] at h
    omega
  · rcases mem_malloc_spec cw m size hI hpos hs with ⟨i, t, h1, h2, h3, h4, h5⟩ | ⟨-, h2⟩
    · rw [h] at h5
      simp only [Option.some.injEq, Prod.mk.injEq] at h5
      obtain ⟨hm, hoo⟩ := h5
      exact ⟨i, t, hpos, hoo, h1, h2, h3, h4, hm⟩
    · rw [h] at h2
      simp only [Option.some.injEq, Prod.mk.injEq] at h2
      omega

theorem mul_div_cancel_block (i bs : Nat) (hbs : bs ≠ 0) :
    (((i * bs : Nat) : Int)).toNat / bs = i ∧ (((i * bs : Nat) : Int)).toNat % bs = 0 := by
  rw [Int.toNat_ofNat]
  exact ⟨Nat.mul_div_cancel i (Nat.pos_of_ne_zero hbs), Nat.mul_mod_left i bs⟩

/-- C2: whenever `mem_malloc(size)` succeeds with offset `o` (on the object `m0` that the lazy
initialisation leaves), with `n = ceil(size/BlockSize)` and `i = o/BlockSize`: `o` is an exact
multiple of the block size, `1 ≤ n` fits the 16-bit entry, entries `i..i+n-1` were all 0 before
the call and all equal `n` after it, every other entry is unchanged, and so are both sizes; the
number of blocks in use grows by exactly `n`. -/
theorem mem_malloc_stamps_exactly (cw : Nat) (m m0 m' : Memory) (size : Nat) (o : Int)
    (h0 : ensureReady cw m = some m0) (hI : Initialised m0) (hs : size < 2 ^ 32)
    (h : mem_malloc cw m size = some (m', o)) (ho : 0 ≤ o) :
    o.toNat % m0.mem_block_size = 0 ∧
    1 ≤ ceilDiv size m0.mem_block_size ∧ ceilDiv size m0.mem_block_size < 65536 ∧
    Vacant m0.memory_tbl (o.toNat / m0.mem_block_size) (ceilDiv size m0.mem_block_size) ∧
    Stamped m'.memory_tbl (o.toNat / m0.mem_block_size) (ceilDiv size m0.mem_block_size)
      (ceilDiv size m0.mem_block_size) ∧
    SameOutside m0.memory_tbl m'.memory_tbl (o.toNat / m0.mem_block_size)
      (ceilDiv size m0.mem_block_size) ∧
    m'.mem_block_size = m0.mem_block_size ∧ m'.mem_alloc_tbl_size = m0.mem_alloc_tbl_size ∧
    usedBlocks m'.memory_tbl = usedBlocks m0.memory_tbl + ceilDiv size m0.mem_block_size := by
  rw [mem_malloc_ensureReady cw m m0 size h0] at h
  obtain ⟨i, t, hpos, hoo, h1, h2, -, h4, h5⟩ := mem_malloc_success cw m0 m' size o hI hs h ho
  obtain ⟨hdiv, hmod⟩ := mul_div_cancel_block i m0.mem_block_size hI.2.1
  have hlen : i + ceilDiv size m0.mem_block_size ≤ m0.memory_tbl.length := by
    have := hI.2.2.2.2.1
    omega
  obtain ⟨hst, hso⟩ := writeRun_effect _ _ _ _ _ hlen h4
  have hT := hI.2.2.2.2.2.1
  subst hoo
  subst h5
  rw [hdiv, hmod]
  have hn1 := ceilDiv_pos size _ hI.2.1 hpos
  exact ⟨rfl, hn1, by omega, h2, hst, hso, rfl, rfl,
    usedBlocks_writeRun _ (by omega) _ _ _ _ h2 h4⟩

/-- C4: on an initialised allocator, for `0 < size`, `mem_malloc(size)` returns `-1` (and leaves
the object as it was) whenever no block index `i ≥ MEM_START_ENTRY` has
`n = ceil(size/BlockSize)` consecutive free entries starting at `i` inside the table. -/
theorem mem_malloc_fails_without_run (cw : Nat) (m : Memory) (size : Nat) (hI : Initialised m)
    (hs0 : 0 < size) (hs : size < 2 ^ 32)
    (hno : ∀ i, MEM_START_ENTRY ≤ i →
      i + ceilDiv size m.mem_block_size ≤ m.mem_alloc_tbl_size →
      ¬ Vacant m.memory_tbl i (ceilDiv size m.mem_block_size)) :
    mem_malloc cw m size = some (m, -1) := by
  rcases mem_malloc_spec cw m size hI hs0 hs with ⟨i, t, h1, h2, -, -, -⟩ | ⟨-, h2⟩
  · exact absurd h2 (hno i (Nat.zero_le _) (by omega))
  · exact h2

/-- C8: `mem_malloc(0)` returns `-1` in every allocator state and marks no block as allocated:
a ready object is left exactly as it was, and an object that was not ready is left with the
all-zero table of its lazy initialisation (which needs a non-zero block size to be defined). -/
theorem mem_malloc_zero (cw : Nat) (m : Memory)
    (hcw : m.isMemoryManagementReady = 0 → blockSizeFor cw ≠ 0) :
    ∃ m', mem_malloc cw m 0 = some (m', -1) ∧
      (m.isMemoryManagementReady ≠ 0 → m' = m) ∧
      (m.isMemoryManagementReady = 0 → ∀ e ∈ m'.memory_tbl, e = 0) := by
  by_cases hr : m.isMemoryManagementReady = 0
  · obtain ⟨m0, hm0⟩ := mem_init_isSome cw m (hcw hr)
    refine ⟨m0, ?_, fun h => absurd hr h, fun _ => ?_⟩
    · simp [mem_malloc, mem_malloc_with, ensureReady, hr, hm0]
    · obtain ⟨-, rfl⟩ := mem_init_eq cw m m0 hm0
      intro e he
      exact (List.mem_replicate.1 he).2
  · refine ⟨m, ?_, fun _ => rfl, fun h => absurd h hr⟩
    simp [mem_malloc, mem_malloc_with, ensureReady, hr]

/-- C9: on an initialised allocator, `mem_free(offset)` returns 1 and leaves the object
unchanged for every 32-bit signed offset outside `[0, MEM_SIZE_MAX)`: negative offsets (so also
the `-1` of a failed `mem_malloc`) and offsets of `MEM_SIZE_MAX` or more. -/
theorem mem_free_out_of_bound (cw : Nat) (m : Memory) (offset : Int)
    (hr : m.isMemoryManagementReady ≠ 0) (hlo : -2 ^ 31 ≤ offset) (hhi : offset < 2 ^ 31)
    (hout : offset < 0 ∨ (MEM_SIZE_MAX : Int) ≤ offset) :
    mem_free cw m offset = some (m, 1) := by
  have hcmp : ¬ (offset % 4294967296 < (MEM_SIZE_MAX : Int)) := by
    unfold MEM_SIZE_MAX at hout ⊢
    push_cast at hout ⊢
    omega
  simp only [mem_free, hr, ↓reduceIte, hcmp]

theorem scanForward_fail_unchanged (tbl : List Nat) (T bs n : Nat) :
    ∀ (steps offset : Nat) (t : List Nat),
      scanForward tbl T bs n offset steps = some (t, -1) → t = tbl := by
  intro steps
  induction steps with
  | zero =>
    intro offset t h
    simp only [scanForward, Option.some.injEq, Prod.mk.injEq] at h
    exact h.1.symm
  | succ steps ih =>
    intro offset t h
    simp only [scanForward] at h
    split at h
    · split at h
      · exact absurd h (by simp)
      · split at h
        · split at h
          · exact absurd h (by simp)
          · rename_i r hr
            simp only [Option.some.injEq] at h
            subst h
            have := (tryRun_inv tbl bs n offset _ hr).2.2
            simp only at this
            omega
          · exact ih _ _ h
        · exact ih _ _ h
    · simp only [Option.some.injEq, Prod.mk.injEq] at h
      exact h.1.symm

/-- C10: a failed allocation is atomic. Whenever `mem_malloc` returns `-1` on an already
initialised allocator (size 0 or no fitting run), the allocation table, the block size and the
table size are exactly what they were before the call. -/
theorem mem_malloc_failure_atomic (cw : Nat) (m m' : Memory) (size : Nat)
    (hr : m.isMemoryManagementReady ≠ 0) (h : mem_malloc cw m size = some (m', -1)) :
    m'.memory_tbl = m.memory_tbl ∧ m'.mem_block_size = m.mem_block_size ∧
      m'.mem_alloc_tbl_size = m.mem_alloc_tbl_size ∧ m' = m := by
  have key : m' = m := by
    simp only [mem_malloc, mem_malloc_with, ensureReady_of_ready cw m hr] at h
    split at h
    · simp only [Option.some.injEq, Prod.mk.injEq] at h
      exact h.1.symm
    · rename_i hsz
      have hgt : size > MEM_LARGE_BLOCK_THRESHOLD := Nat.pos_of_ne_zero hsz
      split at h
      · exact absurd h (by simp)
      · simp only [hgt, ↓reduceIte] at h
        split at h
        · exact absurd h (by simp)
        · rename_i t r hscan
          simp only [Option.some.injEq, Prod.mk.injEq] at h
          obtain ⟨hm, hrr⟩ := h
          subst hrr
          have := scanForward_fail_unchanged _ _ _ _ _ _ _ hscan
          subst this
          exact hm.symm
  subst key
  exact ⟨rfl, rfl, rfl, rfl⟩

/-- C7: first-fit determinism. On an initialised allocator, if `mem_malloc(size)` returns an
offset `o ≥ 0`, then `mem_free(o)` returns 0 and restores the object, and the `mem_malloc(size)`
that follows it returns the same offset `o`. -/
theorem malloc_free_malloc_same (cw : Nat) (m m1 : Memory) (size : Nat) (o : Int)
    (hI : Initialised m) (hs : size < 2 ^ 32) (h : mem_malloc cw m size = some (m1, o))
    (ho : 0 ≤ o) :
    ∃ m2 m3, mem_free cw m1 o = some (m2, 0) ∧ mem_malloc cw m2 size = some (m3, o) ∧
      m2 = m := by
  obtain ⟨i, t, hpos, hoo, h1, h2, -, h4, h5⟩ := mem_malloc_success cw m m1 size o hI hs h ho
  obtain ⟨hr, hbs, -, -, hlen, hT, hmul⟩ := hI
  obtain ⟨hdiv, -⟩ := mul_div_cancel_block i m.mem_block_size hbs
  have hn1 := ceilDiv_pos size m.mem_block_size hbs hpos
  have hlen' : i + ceilDiv size m.mem_block_size ≤ m.memory_tbl.length := by omega
  obtain ⟨hst, hso⟩ := writeRun_effect _ _ _ _ _ hlen' h4
  -- the offset passes the bound test of `mem_free`
  have hlt : i * m.mem_block_size < MEM_SIZE_MAX :=
    lt_of_lt_of_le
      (Nat.mul_lt_mul_of_pos_right (by omega : i < m.mem_alloc_tbl_size)
        (Nat.pos_of_ne_zero hbs)) hmul
  have hcmp : o % 4294967296 < (MEM_SIZE_MAX : Int) := by
    subst hoo
    generalize i * m.mem_block_size = x at hlt ⊢
    unfold MEM_SIZE_MAX at hlt ⊢
    push_cast
    omega
  -- the entry read back is the block count, and clearing it restores the table
  have hread : t[i]? = some (ceilDiv size m.mem_block_size) := by
    simpa using hst 0 (by omega)
  have hlen1 : i + ceilDiv size m.mem_block_size ≤ t.length := by
    rw [hso.1]; exact hlen'
  obtain ⟨t2, ht2, hl2, hj2⟩ := writeRun_spec 0 (ceilDiv size m.mem_block_size) i t hlen1
  have hback : t2 = m.memory_tbl := by
    apply List.ext_getElem?
    intro j
    rw [hj2 j]
    by_cases hin : i ≤ j ∧ j < i + ceilDiv size m.mem_block_size
    · rw [if_pos hin]
      have := h2 (j - i) (by omega)
      have e : i + (j - i) = j := by omega
      rw [e] at this
      exact this.symm
    · rw [if_neg hin]
      by_cases hj : j < m.memory_tbl.length
      · exact hso.2 j hj (by omega)
      · rw [List.getElem?_eq_none (by rw [hso.1]; omega), List.getElem?_eq_none (by omega)]
  have hfree : mem_free cw m1 o = some (m, 0) := by
    have hidx : o.toNat / m.mem_block_size = i := by rw [hoo]; exact hdiv
    subst h5
    simp only [mem_free, hr, ↓reduceIte, hcmp, hbs, hidx, hread, ht2, hback]
  exact ⟨m, m1, hfree, h, rfl⟩

/-! ## Histories of calls keep the invariant -/

theorem disjointBlocks_symm (bs : Nat) : Symmetric (DisjointBlocks bs) := by
  intro a b h
  unfold DisjointBlocks at h ⊢
  exact h.symm

theorem vacant_stamped_disjoint (tbl : List Nat) (i n fb nb v : Nat) (hn : 1 ≤ n)
    (hnb : 1 ≤ nb) (hv : Vacant tbl i n) (hs : Stamped tbl fb nb v) (hv0 : v ≠ 0) :
    i + n ≤ fb ∨ fb + nb ≤ i := by
  by_contra hcon
  rcases Nat.le_total i fb with hle | hle
  · have h1 := hv (fb - i) (by omega)
    have h2 := hs 0 (by omega)
    have e : i + (fb - i) = fb + 0 := by omega
    rw [e, h2] at h1
    simp only [Option.some.injEq] at h1
    exact hv0 h1
  · have h1 := hv 0 (by omega)
    have h2 := hs (i - fb) (by omega)
    have e : fb + (i - fb) = i + 0 := by omega
    rw [e, h1] at h2
    simp only [Option.some.injEq] at h2
    exact hv0 h2.symm

theorem stamped_of_sameOutside (tbl t : List Nat) (i n fb nb v : Nat)
    (hso : SameOutside tbl t i n) (hs : Stamped tbl fb nb v)
    (hd : i + n ≤ fb ∨ fb + nb ≤ i) : Stamped t fb nb v := by
  intro j hj
  have h1 := hs j hj
  have hlt := (List.getElem?_eq_some.1 h1).1
  rw [hso.2 (fb + j) hlt (by omega)]
  exact h1

theorem stamped_length (tbl : List Nat) (fb nb v : Nat) (hn : 1 ≤ nb)
    (hs : Stamped tbl fb nb v) : fb + nb ≤ tbl.length := by
  have h1 := hs (nb - 1) (by omega)
  have hlt := (List.getElem?_eq_some.1 h1).1
  omega

theorem mem_malloc_failed (cw : Nat) (m m' : Memory) (size : Nat) (o : Int)
    (hI : Initialised m) (hs : size < 2 ^ 32) (h : mem_malloc cw m size = some (m', o))
    (ho : o < 0) : m' = m ∧ o = -1 := by
  rcases Nat.eq_zero_or_pos size with hz | hpos
  · subst hz
    simp only [mem_malloc, mem_malloc_with, ensureReady_of_ready cw m hI.1, ↓reduceIte,
      Option.some.injEq, Prod.mk.injEq] at h
    exact ⟨h.1.symm, h.2.symm⟩
  · rcases mem_malloc_spec cw m size hI hpos hs with ⟨i, t, -, -, -, -, h5⟩ | ⟨-, h2⟩
    · rw [h] at h5
      simp only [Option.some.injEq, Prod.mk.injEq] at h5
      omega
    · rw [h] at h2
      simp only [Option.some.injEq, Prod.mk.injEq] at h2
      exact h2

theorem mem_malloc_isSome (cw : Nat) (m : Memory) (size : Nat) (hI : Initialised m)
    (hs : size < 2 ^ 32) : ∃ r, mem_malloc cw m size = some r := by
  rcases Nat.eq_zero_or_pos size with hz | hpos
  · subst hz
    exact ⟨(m, -1), by
      simp only [mem_malloc, mem_malloc_with, ensureReady_of_ready cw m hI.1, ↓reduceIte]⟩
  · rcases mem_malloc_spec cw m size hI hpos hs with ⟨i, t, -, -, -, -, h5⟩ | ⟨-, h2⟩
    · exact ⟨_, h5⟩
    · exact ⟨_, h2⟩

theorem liveInv_ensureReady (cw : Nat) (m m0 : Memory) (live : List Allocation)
    (hinv : LiveInv m live) (h : ensureReady cw m = some m0) :
    Initialised m0 ∧ LiveInv m0 live := by
  by_cases hr : m.isMemoryManagementReady = 0
  · have hnil := hinv.1 hr
    subst hnil
    simp only [ensureReady, hr, ↓reduceIte] at h
    have hI := mem_init_initialised cw m m0 h
    exact ⟨hI, fun _ => rfl, fun _ => hI, fun a ha => absurd ha (List.not_mem_nil a),
      List.Pairwise.nil⟩
  · rw [ensureReady_of_ready cw m hr] at h
    simp only [Option.some.injEq] at h
    subst h
    exact ⟨hinv.2.1 hr, hinv⟩

theorem malloc_preserves (cw : Nat) (m m' : Memory) (live : List Allocation) (size : Nat)
    (o : Int) (hI : Initialised m) (hinv : LiveInv m live) (hs : size < 2 ^ 32)
    (h : mem_malloc cw m size = some (m', o)) :
    (o < 0 → LiveInv m' live) ∧ (0 ≤ o → LiveInv m' ({ offset := o, size := size } :: live)) := by
  constructor
  · intro ho
    obtain ⟨hm, -⟩ := mem_malloc_failed cw m m' size o hI hs h ho
    subst hm
    exact hinv
  · intro ho
    obtain ⟨i, t, hpos, hoo, h1, h2, -, h4, h5⟩ := mem_malloc_success cw m m' size o hI hs h ho
    subst h5
    subst hoo
    obtain ⟨hdiv, hmod⟩ := mul_div_cancel_block i m.mem_block_size hI.2.1
    have hn1 := ceilDiv_pos size m.mem_block_size hI.2.1 hpos
    have hlen : i + ceilDiv size m.mem_block_size ≤ m.memory_tbl.length := by
      have := hI.2.2.2.2.1
      omega
    obtain ⟨hst, hso⟩ := writeRun_effect _ _ _ _ _ hlen h4
    obtain ⟨-, -, hi3, hi4⟩ := hinv
    have hdis : ∀ b ∈ live,
        i + ceilDiv size m.mem_block_size ≤ b.firstBlock m.mem_block_size ∨
        b.firstBlock m.mem_block_size + b.blocks m.mem_block_size ≤ i := by
      intro b hb
      obtain ⟨-, -, hb1, hbst⟩ := hi3 b hb
      exact vacant_stamped_disjoint _ _ _ _ _ _ hn1 hb1 h2 hbst (by omega)
    refine ⟨fun hr0 => absurd hr0 hI.1, fun _ => ?_, ?_, ?_⟩
    · obtain ⟨a1, a2, a3, a4, a5, a6, a7⟩ := hI
      exact ⟨a1, a2, a3, a4, by simpa [hso.1] using a5, a6, a7⟩
    · intro b hb
      rcases List.mem_cons.1 hb with hba | hbl
      · subst hba
        simp only [Allocation.firstBlock, Allocation.blocks, hdiv, hmod]
        exact ⟨ho, trivial, hn1, hst⟩
      · obtain ⟨b1, b2, b3, b4⟩ := hi3 b hbl
        exact ⟨b1, b2, b3, stamped_of_sameOutside _ _ _ _ _ _ _ hso b4 (hdis b hbl)⟩
    · refine List.Pairwise.cons ?_ hi4
      intro b hb
      simp only [DisjointBlocks, Allocation.firstBlock, Allocation.blocks, hdiv]
      exact hdis b hb

/-- Freeing a live allocation: `mem_free` returns 0, clears exactly the blocks of the
allocation and changes nothing else. -/
theorem free_live_effect (cw : Nat) (m : Memory) (live : List Allocation) (a : Allocation)
    (hinv : LiveInv m live) (ha : a ∈ live) :
    ∃ t, mem_free cw m a.offset = some ({ m with memory_tbl := t }, 0) ∧
      Stamped t (a.firstBlock m.mem_block_size) (a.blocks m.mem_block_size) 0 ∧
      SameOutside m.memory_tbl t (a.firstBlock m.mem_block_size)
        (a.blocks m.mem_block_size) := by
  have hr : m.isMemoryManagementReady ≠ 0 := by
    intro hr0
    have := hinv.1 hr0
    subst this
    exact absurd ha (List.not_mem_nil a)
  obtain ⟨-, hbs, -, -, hlenT, -, hmul⟩ := hinv.2.1 hr
  obtain ⟨h0, hmod, hn1, hst⟩ := hinv.2.2.1 a ha
  have hlen := stamped_length _ _ _ _ hn1 hst
  have hread : m.memory_tbl[a.firstBlock m.mem_block_size]? = some (a.blocks m.mem_block_size) := by
    simpa using hst 0 (by omega)
  obtain ⟨t, ht, hl, hj⟩ :=
    writeRun_spec 0 (a.blocks m.mem_block_size) (a.firstBlock m.mem_block_size) m.memory_tbl hlen
  obtain ⟨hs0, hso⟩ := writeRun_effect _ _ _ _ _ hlen ht
  refine ⟨t, ?_, hs0, hso⟩
  -- the offset passes the bound test
  have hoff : a.offset.toNat = a.firstBlock m.mem_block_size * m.mem_block_size :=
    (Nat.div_mul_cancel (Nat.dvd_of_mod_eq_zero hmod)).symm
  have hlt : a.offset.toNat < MEM_SIZE_MAX := by
    rw [hoff]
    exact lt_of_lt_of_le
      (Nat.mul_lt_mul_of_pos_right (by omega : a.firstBlock m.mem_block_size < m.mem_alloc_tbl_size)
        (Nat.pos_of_ne_zero hbs)) hmul
  have hcmp : a.offset % 4294967296 < (MEM_SIZE_MAX : Int) := by
    unfold MEM_SIZE_MAX at hlt ⊢
    push_cast
    omega
  have hidx : a.offset.toNat / m.mem_block_size = a.firstBlock m.mem_block_size := rfl
  simp only [mem_free, hr, ↓reduceIte, hcmp, hbs, hidx, hread, ht]

theorem free_preserves (cw : Nat) (m m' : Memory) (live : List Allocation) (a : Allocation)
    (r : Int) (hinv : LiveInv m live) (ha : a ∈ live)
    (h : mem_free cw m a.offset = some (m', r)) :
    r = 0 ∧ LiveInv m' (live.filter (fun b => b.offset ≠ a.offset)) := by
  obtain ⟨t, hfree, -, hso⟩ := free_live_effect cw m live a hinv ha
  rw [hfree] at h
  simp only [Option.some.injEq, Prod.mk.injEq] at h
  obtain ⟨hm, hr0⟩ := h
  subst hm
  refine ⟨hr0.symm, ?_⟩
  have hr : m.isMemoryManagementReady ≠ 0 := by
    intro hr0
    have := hinv.1 hr0
    subst this
    exact absurd ha (List.not_mem_nil a)
  obtain ⟨-, hi2, hi3, hi4⟩ := hinv
  refine ⟨fun h0 => absurd h0 hr, fun _ => ?_, ?_, hi4.filter _⟩
  · obtain ⟨a1, a2, a3, a4, a5, a6, a7⟩ := hi2 hr
    exact ⟨a1, a2, a3, a4, by simpa [hso.1] using a5, a6, a7⟩
  · intro b hb
    simp only [List.mem_filter, ne_eq, decide_not, Bool.not_eq_true', decide_eq_false_iff_not]
      at hb
    obtain ⟨hbl, hne⟩ := hb
    have hab : a ≠ b := fun e => hne (by rw [e])
    have hd := hi4.forall (disjointBlocks_symm m.mem_block_size) ha hbl hab
    obtain ⟨b1, b2, b3, b4⟩ := hi3 b hbl
    exact ⟨b1, b2, b3, stamped_of_sameOutside _ _ _ _ _ _ _ hso b4 hd⟩

theorem mem_malloc_some_ensureReady (cw : Nat) (m : Memory) (size : Nat) (r : Memory × Int)
    (h : mem_malloc cw m size = some r) : ∃ m0, ensureReady cw m = some m0 := by
  cases he : ensureReady cw m with
  | none => simp [mem_malloc, mem_malloc_with, he] at h
  | some m0 => exact ⟨m0, rfl⟩

theorem step_preserves (cw : Nat) (m m' : Memory) (live live' : List Allocation) (op : Op)
    (hinv : LiveInv m live) (h : step cw m live op = Except.ok (m', live')) :
    LiveInv m' live' := by
  cases op with
  | malloc size =>
    simp only [step] at h
    split at h
    · cases h
    · rename_i hs
      split at h
      · cases h
      · rename_i m1 o hm
        obtain ⟨m0, hm0⟩ := mem_malloc_some_ensureReady cw m size _ hm
        obtain ⟨hI0, hinv0⟩ := liveInv_ensureReady cw m m0 live hinv hm0
        rw [mem_malloc_ensureReady cw m m0 size hm0] at hm
        obtain ⟨hneg, hpos⟩ := malloc_preserves cw m0 m1 live size o hI0 hinv0 (by omega) hm
        split at h
        · rename_i ho
          cases h
          exact hneg ho
        · rename_i ho
          cases h
          exact hpos (by omega)
  | free offset =>
    simp only [step] at h
    split at h
    · rename_i hany
      obtain ⟨a, ha, hao⟩ := List.any_eq_true.1 hany
      have hao' : a.offset = offset := by simpa using hao
      subst hao'
      split at h
      · cases h
      · rename_i m1 r hf
        obtain ⟨hr0, hinv1⟩ := free_preserves cw m m1 live a r hinv ha hf
        simp only [hr0, ↓reduceIte] at h
        cases h
        exact hinv1
    · cases h

theorem step_defined (cw : Nat) (m : Memory) (live : List Allocation) (op : Op)
    (hinv : LiveInv m live) (hcw : blockSizeFor cw ≠ 0) :
    step cw m live op ≠ Except.error TraceError.undefinedBehaviour := by
  cases op with
  | malloc size =>
    simp only [step]
    split
    · simp
    · rename_i hs
      have hm0 : ∃ m0, ensureReady cw m = some m0 := by
        by_cases hr : m.isMemoryManagementReady = 0
        · simpa [ensureReady, hr] using mem_init_isSome cw m hcw
        · exact ⟨m, ensureReady_of_ready cw m hr⟩
      obtain ⟨m0, hm0⟩ := hm0
      obtain ⟨hI0, -⟩ := liveInv_ensureReady cw m m0 live hinv hm0
      obtain ⟨r, hr⟩ := mem_malloc_isSome cw m0 size hI0 (by omega)
      rw [mem_malloc_ensureReady cw m m0 size hm0, hr]
      simp only
      split <;> simp
  | free offset =>
    simp only [step]
    split
    · rename_i hany
      obtain ⟨a, ha, hao⟩ := List.any_eq_true.1 hany
      have hao' : a.offset = offset := by simpa using hao
      subst hao'
      obtain ⟨t, hfree, -, -⟩ := free_live_effect cw m live a hinv ha
      rw [hfree]
      simp
    · simp

theorem run_preserves (cw : Nat) (ops : List Op) :
    ∀ (m m' : Memory) (live live' : List Allocation), LiveInv m live →
      run cw m live ops = Except.ok (m', live') → LiveInv m' live' := by
  induction ops with
  | nil =>
    intro m m' live live' hinv h
    simp only [run, Except.ok.injEq, Prod.mk.injEq] at h
    obtain ⟨rfl, rfl⟩ := h
    exact hinv
  | cons op ops ih =>
    intro m m' live live' hinv h
    simp only [run] at h
    split at h
    · cases h
    · rename_i m1 live1 hstep
      exact ih m1 m' live1 live' (step_preserves cw m m1 live live1 op hinv hstep) h

theorem run_defined (cw : Nat) (hcw : blockSizeFor cw ≠ 0) (ops : List Op) :
    ∀ (m : Memory) (live : List Allocation), LiveInv m live →
      run cw m live ops ≠ Except.error TraceError.undefinedBehaviour := by
  induction ops with
  | nil =>
    intro m live _
    simp [run]
  | cons op ops ih =>
    intro m live hinv
    simp only [run]
    split
    · rename_i e hstep
      intro he
      simp only [Except.error.injEq] at he
      subst he
      exact step_defined cw m live op hinv hcw hstep
    · rename_i m1 live1 hstep
      exact ih m1 live1 (step_preserves cw m m1 live live1 op hinv hstep)

theorem liveInv_fresh : LiveInv Memory.fresh [] :=
  ⟨fun _ => rfl, fun h => absurd rfl h, fun a ha => absurd ha (List.not_mem_nil a),
    List.Pairwise.nil⟩

/-- C1: in every history of `mem_malloc` and `mem_free` calls on a new allocator, each
`mem_free` applied to the offset of a live allocation, the block ranges
`[offset/BlockSize, offset/BlockSize + ceil(size/BlockSize))` of the live allocations are
pairwise disjoint. Such a history never leaves defined behaviour when the canvas width gives a
non-zero block size. -/
theorem live_allocations_disjoint (cw : Nat) (ops : List Op) :
    (blockSizeFor cw ≠ 0 →
      run cw Memory.fresh [] ops ≠ Except.error TraceError.undefinedBehaviour) ∧
    ∀ (m : Memory) (live : List Allocation),
      run cw Memory.fresh [] ops = Except.ok (m, live) →
      live.Pairwise (DisjointBlocks m.mem_block_size) :=
  ⟨fun hcw => run_defined cw hcw ops Memory.fresh [] liveInv_fresh,
    fun m live h => (run_preserves cw ops Memory.fresh m [] live liveInv_fresh h).2.2.2⟩

/-- C5: for a live allocation `a` (offset returned by `mem_malloc` for
`n = ceil(size/BlockSize)` blocks and not freed since, in a history of mallocs and of frees of
live offsets), `mem_free(a.offset)` returns 0, sets the table entries
`offset/BlockSize .. offset/BlockSize + n - 1` to 0 and leaves every other entry, the block
size and the table size unchanged. -/
theorem mem_free_live (cw : Nat) (ops : List Op) (m : Memory) (live : List Allocation)
    (a : Allocation) (hrun : run cw Memory.fresh [] ops = Except.ok (m, live))
    (ha : a ∈ live) :
    ∃ m', mem_free cw m a.offset = some (m', 0) ∧
      Stamped m'.memory_tbl (a.firstBlock m.mem_block_size) (a.blocks m.mem_block_size) 0 ∧
      SameOutside m.memory_tbl m'.memory_tbl (a.firstBlock m.mem_block_size)
        (a.blocks m.mem_block_size) ∧
      m'.mem_block_size = m.mem_block_size ∧
      m'.mem_alloc_tbl_size = m.mem_alloc_tbl_size := by
  have hinv := run_preserves cw ops Memory.fresh m [] live liveInv_fresh hrun
  obtain ⟨t, hfree, h1, h2⟩ := free_live_effect cw m live a hinv ha
  exact ⟨_, hfree, h1, h2, rfl, rfl⟩

/-! ## The forward scan never uses the last block -/

/-- C3 (failing input): on a new allocator with canvas width 1280 (block size 5120, 6553
table entries, all free) a request for 6553 blocks has a vacant run inside the table, at block
0, and `mem_malloc` still returns `-1`: the forward scan only tries start blocks `i` with
`i + n < mem_alloc_tbl_size`. -/
theorem mem_malloc_forward_misses_last_run :
    ∃ m0, mem_init 1280 Memory.fresh = some m0 ∧
      m0.mem_block_size = 5120 ∧ m0.mem_alloc_tbl_size = 6553 ∧
      ceilDiv 33551360 m0.mem_block_size = 6553 ∧
      Vacant m0.memory_tbl 0 6553 ∧
      mem_malloc 1280 Memory.fresh 33551360 = some (m0, -1) := by
  have hbs : blockSizeFor 1280 = 5120 := by decide
  obtain ⟨m0, hm0⟩ := mem_init_isSome 1280 Memory.fresh (by rw [hbs]; decide)
  have hI := mem_init_initialised 1280 Memory.fresh m0 hm0
  obtain ⟨-, hm⟩ := mem_init_eq 1280 Memory.fresh m0 hm0
  have hT : (MEM_SIZE_MAX / 5120) % 65536 = 6553 := by decide
  rw [hbs, hT] at hm
  have hn : ceilDiv 33551360 5120 = 6553 := by decide
  have he : ensureReady 1280 Memory.fresh = some m0 := by
    simpa [ensureReady, Memory.fresh] using hm0
  refine ⟨m0, hm0, by rw [hm], by rw [hm], by rw [hm]; exact hn, ?_, ?_⟩
  · rw [hm]
    intro j hj
    simp only [Nat.zero_add]
    exact List.getElem?_replicate_of_lt hj
  · rw [mem_malloc_ensureReady 1280 Memory.fresh m0 _ he]
    rcases mem_malloc_spec 1280 m0 33551360 hI (by decide) (by decide) with
      ⟨i, t, h1, -, -, -, -⟩ | ⟨-, h2⟩
    · rw [hm] at h1
      simp only [hn] at h1
      omega
    · exact h2

/-! ## Canvas addressing -/

theorem getColorDepth_range (mode : COLOR_MODE) :
    getColorDepth mode = 1 ∨ getColorDepth mode = 2 ∨ getColorDepth mode = 3 := by
  cases mode <;> simp [getColorDepth]

/-- C6: `canvasAddress_from_lnOffset` equals the reference conversion. For every canvas width
`1 ≤ w` (a `uint16_t`), every colour mode (bytes per pixel 1, 2 or 3) and every 32-bit
`lnOffset` it returns `lnOffset * w * bpp`, not wrapped, when
`lnOffset < MEM_SIZE_MAX / (w * bpp)` and `-1` otherwise, and dividing a successful result by
`w * bpp` gives `lnOffset` back. With `w = 800` and 2 bytes per pixel: 0 gives 0, 100 gives
160000 and `MEM_SIZE_MAX / 1600` gives `-1`. -/
theorem canvasAddress_from_lnOffset_eq :
    (∀ (w : Nat) (mode : COLOR_MODE) (lnOffset : Nat), 1 ≤ w → w < 65536 →
      lnOffset < 2 ^ 32 →
      canvasAddress_from_lnOffset w mode lnOffset
        = some (addressFromLineOffset w (getColorDepth mode) lnOffset) ∧
      (lnOffset < MEM_SIZE_MAX / (w * getColorDepth mode) →
        canvasAddress_from_lnOffset w mode lnOffset
            = some ((lnOffset * w * getColorDepth mode : Nat) : Int) ∧
          ((lnOffset * w * getColorDepth mode : Nat) : Int)
            / ((w * getColorDepth mode : Nat) : Int) = (lnOffset : Int)) ∧
      (MEM_SIZE_MAX / (w * getColorDepth mode) ≤ lnOffset →
        canvasAddress_from_lnOffset w mode lnOffset = some (-1))) ∧
    canvasAddress_from_lnOffset 800 COLOR_MODE.COLOR_16BPP_RGB565 0 = some 0 ∧
    canvasAddress_from_lnOffset 800 COLOR_MODE.COLOR_16BPP_RGB565 100 = some 160000 ∧
    canvasAddress_from_lnOffset 800 COLOR_MODE.COLOR_16BPP_RGB565 (MEM_SIZE_MAX / (800 * 2))
      = some (-1) := by
  refine ⟨?_, by decide, by decide, by decide⟩
  intro w mode lnOffset hw hw16 hl
  have hbpp := getColorDepth_range mode
  have hdef : canvasAddress_from_lnOffset w mode lnOffset =
      if w * getColorDepth mode = 0 then none
      else if lnOffset ≤ (MEM_SIZE_MAX / (w * getColorDepth mode) + 4294967296 - 1) % 4294967296
        then some (toInt32 ((lnOffset * w % 4294967296) * getColorDepth mode % 4294967296))
        else some (-1) := rfl
  rw [hdef]
  unfold addressFromLineOffset
  generalize getColorDepth mode = bpp at hbpp
  have hd0 : w * bpp ≠ 0 := by
    rcases hbpp with h | h | h <;> subst h <;> omega
  have hdpos : 0 < w * bpp := Nat.pos_of_ne_zero hd0
  have hdle : w * bpp ≤ 196605 := by
    rcases hbpp with h | h | h <;> subst h <;> omega
  have hq1 : 1 ≤ MEM_SIZE_MAX / (w * bpp) := by
    apply (Nat.le_div_iff_mul_le hdpos).2
    unfold MEM_SIZE_MAX
    omega
  have hqle : MEM_SIZE_MAX / (w * bpp) ≤ MEM_SIZE_MAX := Nat.div_le_self _ _
  have hbound : (MEM_SIZE_MAX / (w * bpp) + 4294967296 - 1) % 4294967296
      = MEM_SIZE_MAX / (w * bpp) - 1 := by
    unfold MEM_SIZE_MAX at hqle hq1 ⊢
    omega
  rw [hbound, if_neg hd0]
  by_cases hlt : lnOffset < MEM_SIZE_MAX / (w * bpp)
  · have hle : lnOffset ≤ MEM_SIZE_MAX / (w * bpp) - 1 := by omega
    have hprod : lnOffset * w * bpp < MEM_SIZE_MAX := by
      rw [Nat.mul_assoc]
      exact lt_of_lt_of_le (Nat.mul_lt_mul_of_pos_right hlt hdpos) (Nat.div_mul_le_self _ _)
    have hlw : lnOffset * w ≤ lnOffset * w * bpp :=
      Nat.le_mul_of_pos_right _ (by rcases hbpp with h | h | h <;> subst h <;> omega)
    have hval : toInt32 ((lnOffset * w % 4294967296) * bpp % 4294967296)
        = ((lnOffset * w * bpp : Nat) : Int) := by
      unfold MEM_SIZE_MAX at hprod
      have e1 : lnOffset * w % 4294967296 = lnOffset * w := Nat.mod_eq_of_lt (by omega)
      have e2 : lnOffset * w * bpp % 4294967296 = lnOffset * w * bpp :=
        Nat.mod_eq_of_lt (by omega)
      rw [e1, e2]
      unfold toInt32
      rw [e2, if_pos (by omega)]
    have hdivback : ((lnOffset * w * bpp : Nat) : Int) / ((w * bpp : Nat) : Int)
        = (lnOffset : Int) := by
      rw [← Int.natCast_div, Nat.mul_assoc, Nat.mul_div_cancel _ hdpos]
    rw [if_pos hle, if_pos hlt, hval]
    exact ⟨rfl, fun _ => ⟨rfl, hdivback⟩, fun h => absurd hlt (by omega)⟩
  · have hle : ¬ lnOffset ≤ MEM_SIZE_MAX / (w * bpp) - 1 := by omega
    rw [if_neg hle, if_neg hlt]
    exact ⟨rfl, fun h => absurd h hlt, fun _ => rfl⟩

/-! ## Block size and the scenario of the specification -/

/-- C11 (counterexample): at canvas width 1280 in the 16-bit colour mode (2 bytes per pixel)
`mem_init` stores the block size 5120, not `1280 * MEM_BLOCK_LN_NUM * 2 = 10240`; and at canvas
width 16384 the 16-bit field makes the block size 0, so `mem_init` has no defined result. -/
theorem block_size_ignores_colour_depth :
    (∃ m0, mem_init 1280 Memory.fresh = some m0 ∧ m0.mem_block_size = 5120 ∧
      m0.mem_block_size
        ≠ 1280 * MEM_BLOCK_LN_NUM * getColorDepth COLOR_MODE.COLOR_16BPP_RGB565) ∧
    1280 * MEM_BLOCK_LN_NUM * getColorDepth COLOR_MODE.COLOR_16BPP_RGB565 = 10240 ∧
    blockSizeFor 16384 = 0 ∧ mem_init 16384 Memory.fresh = none := by
  refine ⟨⟨_, rfl, by decide, by decide⟩, by decide, by decide, by decide⟩

/-- C11 (amended): the block size that `mem_init` computes is the canvas width times
`MEM_BLOCK_LN_NUM`, reduced modulo `2^16` by the `uint16_t` field: for every canvas width
`0 < cw < 16384` it is exactly `cw * MEM_BLOCK_LN_NUM`. The colour depth does not enter:
`mem_init` reads nothing but the canvas width. -/
theorem mem_init_block_size (cw : Nat) (m : Memory) (h0 : 0 < cw) (hcw : cw < 16384) :
    ∃ m0, mem_init cw m = some m0 ∧ m0.mem_block_size = cw * MEM_BLOCK_LN_NUM ∧
      m0.mem_block_size = (cw % 65536 * MEM_BLOCK_LN_NUM) % 65536 := by
  have hbs : blockSizeFor cw = cw * MEM_BLOCK_LN_NUM := by
    unfold blockSizeFor MEM_BLOCK_LN_NUM
    omega
  have hne : blockSizeFor cw ≠ 0 := by
    rw [hbs]; unfold MEM_BLOCK_LN_NUM; omega
  obtain ⟨m0, hm0⟩ := mem_init_isSome cw m hne
  obtain ⟨-, hm⟩ := mem_init_eq cw m m0 hm0
  refine ⟨m0, hm0, ?_, ?_⟩
  · rw [hm]; exact hbs
  · rw [hm]; rfl

/-- C12: the scenario of the specification. On an arena of 16 blocks of 4096 bytes with an
empty table, three successive `mem_malloc(4096)` return 0, 4096 and 8192; `mem_malloc(14*4096)`
then returns `-1`; `mem_free(4096)` returns 0; and `mem_malloc(4096)` then returns 4096. (The
allocator is initialised, so the canvas width `cw` is not read.) -/
theorem scenario_sixteen_blocks (cw : Nat) :
    mem_malloc cw (arena16 []) 4096 = some (arena16 [1], 0) ∧
    mem_malloc cw (arena16 [1]) 4096 = some (arena16 [1, 1], 4096) ∧
    mem_malloc cw (arena16 [1, 1]) 4096 = some (arena16 [1, 1, 1], 8192) ∧
    mem_malloc cw (arena16 [1, 1, 1]) (14 * 4096) = some (arena16 [1, 1, 1], -1) ∧
    mem_free cw (arena16 [1, 1, 1]) 4096 = some (arena16 [1, 0, 1], 0) ∧
    mem_malloc cw (arena16 [1, 0, 1]) 4096 = some (arena16 [1, 1, 1], 4096) := by
  refine ⟨?_, ?_, ?_, ?_, ?_, ?_⟩ <;> rfl

/-! ## Busy polling -/

theorem check2dBusy_timeout_aux (status : Nat → Nat) :
    ∀ (t k : Nat),
      ((check2dBusy_timeout status t k).1 = true ↔ ∀ i, i < t → coreBusy (status (k + i))) ∧
      k ≤ (check2dBusy_timeout status t k).2 ∧
      (check2dBusy_timeout status t k).2 ≤ k + t ∧
      (∀ i, k ≤ i → i + 1 < (check2dBusy_timeout status t k).2 → coreBusy (status i)) ∧
      ((check2dBusy_timeout status t k).1 = false →
        ∃ n, (check2dBusy_timeout status t k).2 = n + 1 ∧ ¬ coreBusy (status n)) := by
  intro t
  induction t with
  | zero =>
    intro k
    simp only [check2dBusy_timeout]
    refine ⟨⟨fun _ i hi => absurd hi (Nat.not_lt_zero i), fun _ => trivial⟩, le_refl _,
      le_refl _, fun i h1 h2 => by omega, fun h => by simp at h⟩
  | succ t ih =>
    intro k
    obtain ⟨h1, h2, h3, h4, h5⟩ := ih (k + 1)
    by_cases hb : status k &&& RA8876_STSR_CORE_BUSY = 0
    · simp only [check2dBusy_timeout, hb, ↓reduceIte]
      refine ⟨⟨fun h => by simp at h, fun h => ?_⟩, by omega, by omega,
        fun i hi1 hi2 => by omega, fun _ => ⟨k, rfl, fun hc => hc hb⟩⟩
      exact absurd hb (by simpa [coreBusy] using h 0 (by omega))
    · simp only [check2dBusy_timeout, hb, ↓reduceIte]
      refine ⟨⟨fun h i hi => ?_, fun h => ?_⟩, by omega, by omega, fun i hi1 hi2 => ?_, h5⟩
      · rcases Nat.eq_zero_or_pos i with hi0 | hi0
        · subst hi0; exact hb
        · have := h1.1 h (i - 1) (by omega)
          have e : k + 1 + (i - 1) = k + i := by omega
          rwa [e] at this
      · apply h1.2
        intro i hi
        have := h (i + 1) (by omega)
        have e : k + (i + 1) = k + 1 + i := by omega
        rwa [e] at this
      · rcases Nat.eq_or_lt_of_le hi1 with e | e
        · subst e; exact hb
        · exact h4 i (by omega) hi2

/-- C19: for every sequence `status` of status-register values and every budget `t`,
`check2dBusy(t)` returns `true` exactly when each of the first `t` status reads has the
core-busy bit set; it makes at most `t` status reads, every read but its last one had the busy
bit set (so none follows a read with the bit clear), a `false` result comes with a last read
whose busy bit is clear, and with `t = 0` it returns `true` without any status read. -/
theorem check2dBusy_timeout_spec (status : Nat → Nat) (t : Nat) :
    ((check2dBusy_timeout status t 0).1 = true ↔ ∀ i, i < t → coreBusy (status i)) ∧
    (check2dBusy_timeout status t 0).2 ≤ t ∧
    (∀ i, i + 1 < (check2dBusy_timeout status t 0).2 → coreBusy (status i)) ∧
    ((check2dBusy_timeout status t 0).1 = false →
      ∃ n, (check2dBusy_timeout status t 0).2 = n + 1 ∧ ¬ coreBusy (status n)) ∧
    check2dBusy_timeout status 0 0 = (true, 0) := by
  obtain ⟨h1, -, h3, h4, h5⟩ := check2dBusy_timeout_aux status t 0
  refine ⟨?_, by omega, fun i hi => h4 i (Nat.zero_le _) hi, h5, rfl⟩
  constructor
  · intro h i hi
    simpa using h1.1 h i hi
  · intro h
    exact h1.2 (fun i hi => by simpa using h i hi)

/-! ## Register writes of the programming functions -/

theorem registerWrites_append (l1 l2 : List Bus) :
    ∀ sel, registerWrites sel (l1 ++ l2)
      = registerWrites sel l1 ++ registerWrites (selectedAfter sel l1) l2 := by
  induction l1 with
  | nil => intro sel; cases sel <;> simp [registerWrites, selectedAfter]
  | cons e l ih =>
    intro sel
    cases e <;> cases sel <;> simp [registerWrites, selectedAfter, ih]

theorem selectedAfter_append (l1 l2 : List Bus) :
    ∀ sel, selectedAfter sel (l1 ++ l2) = selectedAfter (selectedAfter sel l1) l2 := by
  induction l1 with
  | nil => intro sel; cases sel <;> simp [selectedAfter]
  | cons e l ih =>
    intro sel
    cases e <;> cases sel <;> simp [selectedAfter, ih]

theorem writtenRegisters_append (sel : Option Nat) (l1 l2 : List Bus) :
    writtenRegisters sel (l1 ++ l2)
      = writtenRegisters sel l1 ++ writtenRegisters (selectedAfter sel l1) l2 := by
  simp only [writtenRegisters, registerWrites_append, List.map_append]

theorem registerWrites_statusReads (sel : Option Nat) (n : Nat) :
    registerWrites sel (List.replicate n Bus.statusRead) = [] ∧
    selectedAfter sel (List.replicate n Bus.statusRead) = sel := by
  induction n with
  | zero => cases sel <;> simp [registerWrites, selectedAfter]
  | succ n ih => cases sel <;> simpa [List.replicate_succ, registerWrites, selectedAfter] using ih

theorem registerWrites_check2dBusy (sel : Option Nat) (status : Nat → Nat) :
    registerWrites sel (check2dBusy status) = [] :=
  (registerWrites_statusReads sel _).1

theorem selectedAfter_check2dBusy (sel : Option Nat) (status : Nat → Nat) :
    selectedAfter sel (check2dBusy status) = sel :=
  (registerWrites_statusReads sel _).2

theorem registerWrites_checkWriteFifoEmpty (sel : Option Nat) (status : Nat → Nat) :
    registerWrites sel (checkWriteFifoEmpty status) = [] :=
  (registerWrites_statusReads sel _).1

theorem registerWrites_lcdRegDataWrite (sel : Option Nat) (reg data : Nat) :
    registerWrites sel (lcdRegDataWrite reg data) = [(reg % 256, data % 256)] := by
  cases sel <;> rfl

theorem selectedAfter_lcdRegDataWrite (sel : Option Nat) (reg data : Nat) :
    selectedAfter sel (lcdRegDataWrite reg data) = some (reg % 256) := by
  cases sel <;> rfl

theorem registerWrites_ramAccessPrepare (sel : Option Nat) :
    registerWrites sel ramAccessPrepare = [] ∧
    selectedAfter sel ramAccessPrepare = some RA8876_MRWDP := by
  cases sel <;> exact ⟨rfl, rfl⟩

theorem registerWrites_canvasImageStartAddress (sel : Option Nat) (addr : Nat) :
    registerWrites sel (canvasImageStartAddress addr)
      = [(RA8876_CVSSA0, addr % 256), (RA8876_CVSSA1, (addr >>> 8) % 256), (RA8876_CVSSA2, (addr >>> 16) % 256), (RA8876_CVSSA3, (addr >>> 24) % 256)] := by
  cases sel <;> rfl

theorem selectedAfter_canvasImageStartAddress (sel : Option Nat) (addr : Nat) :
    selectedAfter sel (canvasImageStartAddress addr) = some RA8876_CVSSA3 := by
  cases sel <;> rfl

theorem registerWrites_activeWindowXY (sel : Option Nat) (x0 y0 : Nat) :
    registerWrites sel (activeWindowXY x0 y0)
      = [(RA8876_AWUL_X0, x0 % 256), (RA8876_AWUL_X1, (x0 >>> 8) % 256), (RA8876_AWUL_Y0, y0 % 256), (RA8876_AWUL_Y1, (y0 >>> 8) % 256)] := by
  cases sel <;> rfl

theorem selectedAfter_activeWindowXY (sel : Option Nat) (x0 y0 : Nat) :
    selectedAfter sel (activeWindowXY x0 y0) = some RA8876_AWUL_Y1 := by
  cases sel <;> rfl

theorem registerWrites_activeWindowWH (sel : Option Nat) (width height : Nat) :
    registerWrites sel (activeWindowWH width height)
      = [(RA8876_AW_WTH0, width % 256), (RA8876_AW_WTH1, (width >>> 8) % 256), (RA8876_AW_HT0, height % 256), (RA8876_AW_HT1, (height >>> 8) % 256)] := by
  cases sel <;> rfl

theorem selectedAfter_activeWindowWH (sel : Option Nat) (width height : Nat) :
    selectedAfter sel (activeWindowWH width height) = some RA8876_AW_HT1 := by
  cases sel <;> rfl

theorem registerWrites_bte_Source0_MemoryStartAddr (sel : Option Nat) (addr : Nat) :
    registerWrites sel (bte_Source0_MemoryStartAddr addr)
      = [(RA8876_S0_STR0, addr % 256), (RA8876_S0_STR1, (addr >>> 8) % 256), (RA8876_S0_STR2, (addr >>> 16) % 256), (RA8876_S0_STR3, (addr >>> 24) % 256)] := by
  cases sel <;> rfl

theorem selectedAfter_bte_Source0_MemoryStartAddr (sel : Option Nat) (addr : Nat) :
    selectedAfter sel (bte_Source0_MemoryStartAddr addr) = some RA8876_S0_STR3 := by
  cases sel <;> rfl

theorem registerWrites_bte_Source0_ImageWidth (sel : Option Nat) (width : Nat) :
    registerWrites sel (bte_Source0_ImageWidth width)
      = [(RA8876_S0_WTH0, width % 256), (RA8876_S0_WTH1, (width >>> 8) % 256)] := by
  cases sel <;> rfl

theorem selectedAfter_bte_Source0_ImageWidth (sel : Option Nat) (width : Nat) :
    selectedAfter sel (bte_Source0_ImageWidth width) = some RA8876_S0_WTH1 := by
  cases sel <;> rfl

theorem registerWrites_bte_Source0_WindowStartXY (sel : Option Nat) (x0 y0 : Nat) :
    registerWrites sel (bte_Source0_WindowStartXY x0 y0)
      = [(RA8876_S0_X0, x0 % 256), (RA8876_S0_X1, (x0 >>> 8) % 256), (RA8876_S0_Y0, y0 % 256), (RA8876_S0_Y1, (y0 >>> 8) % 256)] := by
  cases sel <;> rfl

theorem selectedAfter_bte_Source0_WindowStartXY (sel : Option Nat) (x0 y0 : Nat) :
    selectedAfter sel (bte_Source0_WindowStartXY x0 y0) = some RA8876_S0_Y1 := by
  cases sel <;> rfl

theorem registerWrites_bte_Source1_MemoryStartAddr (sel : Option Nat) (addr : Nat) :
    registerWrites sel (bte_Source1_MemoryStartAddr addr)
      = [(RA8876_S1_STR0, addr % 256), (RA8876_S1_STR1, (addr >>> 8) % 256), (RA8876_S1_STR2, (addr >>> 16) % 256), (RA8876_S1_STR3, (addr >>> 24) % 256)] := by
  cases sel <;> rfl

theorem selectedAfter_bte_Source1_MemoryStartAddr (sel : Option Nat) (addr : Nat) :
    selectedAfter sel (bte_Source1_MemoryStartAddr addr) = some RA8876_S1_STR3 := by
  cases sel <;> rfl

theorem registerWrites_bte_Source1_ImageWidth (sel : Option Nat) (width : Nat) :
    registerWrites sel (bte_Source1_ImageWidth width)
      = [(RA8876_S1_WTH0, width % 256), (RA8876_S1_WTH1, (width >>> 8) % 256)] := by
  cases sel <;> rfl

theorem selectedAfter_bte_Source1_ImageWidth (sel : Option Nat) (width : Nat) :
    selectedAfter sel (bte_Source1_ImageWidth width) = some RA8876_S1_WTH1 := by
  cases sel <;> rfl

theorem registerWrites_bte_Source1_WindowStartXY (sel : Option Nat) (x0 y0 : Nat) :
    registerWrites sel (bte_Source1_WindowStartXY x0 y0)
      = [(RA8876_S1_X0, x0 % 256), (RA8876_S1_X1, (x0 >>> 8) % 256), (RA8876_S1_Y0, y0 % 256), (RA8876_S1_Y1, (y0 >>> 8) % 256)] := by
  cases sel <;> rfl

theorem selectedAfter_bte_Source1_WindowStartXY (sel : Option Nat) (x0 y0 : Nat) :
    selectedAfter sel (bte_Source1_WindowStartXY x0 y0) = some RA8876_S1_Y1 := by
  cases sel <;> rfl

theorem registerWrites_bte_DestinationMemoryStartAddr (sel : Option Nat) (addr : Nat) :
    registerWrites sel (bte_DestinationMemoryStartAddr addr)
      = [(RA8876_DT_STR0, addr % 256), (RA8876_DT_STR1, (addr >>> 8) % 256), (RA8876_DT_STR2, (addr >>> 16) % 256), (RA8876_DT_STR3, (addr >>> 24) % 256)] := by
  cases sel <;> rfl

theorem selectedAfter_bte_DestinationMemoryStartAddr (sel : Option Nat) (addr : Nat) :
    selectedAfter sel (bte_DestinationMemoryStartAddr addr) = some RA8876_DT_STR3 := by
  cases sel <;> rfl

theorem registerWrites_bte_DestinationImageWidth (sel : Option Nat) (width : Nat) :
    registerWrites sel (bte_DestinationImageWidth width)
      = [(RA8876_DT_WTH0, width % 256), (RA8876_DT_WTH1, (width >>> 8) % 256)] := by
  cases sel <;> rfl

theorem selectedAfter_bte_DestinationImageWidth (sel : Option Nat) (width : Nat) :
    selectedAfter sel (bte_DestinationImageWidth width) = some RA8876_DT_WTH1 := by
  cases sel <;> rfl

theorem registerWrites_bte_DestinationWindowStartXY (sel : Option Nat) (x0 y0 : Nat) :
    registerWrites sel (bte_DestinationWindowStartXY x0 y0)
      = [(RA8876_DT_X0, x0 % 256), (RA8876_DT_X1, (x0 >>> 8) % 256), (RA8876_DT_Y0, y0 % 256), (RA8876_DT_Y1, (y0 >>> 8) % 256)] := by
  cases sel <;> rfl

theorem selectedAfter_bte_DestinationWindowStartXY (sel : Option Nat) (x0 y0 : Nat) :
    selectedAfter sel (bte_DestinationWindowStartXY x0 y0) = some RA8876_DT_Y1 := by
  cases sel <;> rfl

theorem registerWrites_bte_WindowSize (sel : Option Nat) (width height : Nat) :
    registerWrites sel (bte_WindowSize width height)
      = [(RA8876_BTE_WTH0, width % 256), (RA8876_BTE_WTH1, (width >>> 8) % 256), (RA8876_BTE_HIG0, height % 256), (RA8876_BTE_HIG1, (height >>> 8) % 256)] := by
  cases sel <;> rfl

theorem selectedAfter_bte_WindowSize (sel : Option Nat) (width height : Nat) :
    selectedAfter sel (bte_WindowSize width height) = some RA8876_BTE_HIG1 := by
  cases sel <;> rfl

theorem writtenRegisters_setForegroundColor (sel : Option Nat) (self : Ra8876_Lite)
    (color : Color) :
    (registerWrites sel (setForegroundColor self color)).map Prod.fst
      = [RA8876_FGCR, RA8876_FGCG, RA8876_FGCB] := by
  rcases self with ⟨w, h, mode⟩
  cases mode <;> cases sel <;> rfl

theorem selectedAfter_setForegroundColor (sel : Option Nat) (self : Ra8876_Lite)
    (color : Color) : selectedAfter sel (setForegroundColor self color) = some RA8876_FGCB := by
  rcases self with ⟨w, h, mode⟩
  cases mode <;> cases sel <;> rfl

theorem writtenRegisters_setBackgroundColor (sel : Option Nat) (self : Ra8876_Lite)
    (color : Color) :
    (registerWrites sel (setBackgroundColor self color)).map Prod.fst
      = [RA8876_BGCR, RA8876_BGCG, RA8876_BGCB] := by
  rcases self with ⟨w, h, mode⟩
  cases mode <;> cases sel <;> rfl

theorem selectedAfter_setBackgroundColor (sel : Option Nat) (self : Ra8876_Lite)
    (color : Color) : selectedAfter sel (setBackgroundColor self color) = some RA8876_BGCB := by
  rcases self with ⟨w, h, mode⟩
  cases mode <;> cases sel <;> rfl

/-- A log of data writes only writes the selected register, once for each of its entries. -/
theorem registerWrites_dataOnly (r : Nat) :
    ∀ (log : List Bus), (∀ e ∈ log, ∃ v, e = Bus.data v) →
      (registerWrites (some r) log).map Prod.fst = List.replicate log.length r ∧
      selectedAfter (some r) log = some r := by
  intro log
  induction log with
  | nil => intro _; exact ⟨rfl, rfl⟩
  | cons e l ih =>
    intro h
    obtain ⟨v, rfl⟩ := h e (List.mem_cons_self _ _)
    obtain ⟨h1, h2⟩ := ih (fun e he => h e (List.mem_cons_of_mem _ he))
    simp only [registerWrites, selectedAfter, List.map_cons, List.length_cons,
      List.replicate_succ, h1, h2, and_self]

theorem streamBytes_dataOnly (data : Nat → Nat) (height bound : Nat) (stream : List Bus)
    (h : streamBytes data height bound = some stream) : ∀ e ∈ stream, ∃ v, e = Bus.data v := by
  unfold streamBytes at h
  split at h
  · exact absurd h (by simp)
  · simp only [Option.some.injEq] at h
    subst h
    intro e he
    simp only [List.mem_flatMap, lcdDataWrite, List.mem_singleton] at he
    obtain ⟨k, -, rfl⟩ := he
    exact ⟨_, rfl⟩

theorem streamWords_dataOnly (data : Nat → Nat) (height width : Nat) :
    ∀ e ∈ streamWords data height width, ∃ v, e = Bus.data v := by
  intro e he
  simp only [streamWords, List.mem_flatMap, lcdDataWrite16bpp, hal_spi_write, List.mem_map] at he
  obtain ⟨k, -, j, -, rfl⟩ := he
  exact ⟨_, rfl⟩

/-! ## The registers that the BTE primitives write -/

theorem writtenRegisters_bteMemoryCopyWithROP (c : Codes) (status : Nat → Nat)
    (s0_addr s0_image_width s0_x s0_y s1_addr s1_image_width s1_x s1_y
      des_addr des_image_width des_x des_y copy_width copy_height rop_code : Nat) :
    writtenRegisters none (bteMemoryCopyWithROP c status s0_addr s0_image_width s0_x s0_y
      s1_addr s1_image_width s1_x s1_y des_addr des_image_width des_x des_y copy_width
      copy_height rop_code)
    = bteSourceRegisters ++ bteDestinationRegisters ++ bteSizeRegisters ++
        [RA8876_BTE_CTRL1, RA8876_BTE_CTRL0] := by
  unfold bteMemoryCopyWithROP
  simp only [writtenRegisters, registerWrites_append, selectedAfter_append,
    registerWrites_bte_Source0_MemoryStartAddr, selectedAfter_bte_Source0_MemoryStartAddr,
    registerWrites_bte_Source0_ImageWidth, selectedAfter_bte_Source0_ImageWidth,
    registerWrites_bte_Source0_WindowStartXY, selectedAfter_bte_Source0_WindowStartXY,
    registerWrites_bte_Source1_MemoryStartAddr, selectedAfter_bte_Source1_MemoryStartAddr,
    registerWrites_bte_Source1_ImageWidth, selectedAfter_bte_Source1_ImageWidth,
    registerWrites_bte_Source1_WindowStartXY, selectedAfter_bte_Source1_WindowStartXY,
    registerWrites_bte_DestinationMemoryStartAddr, selectedAfter_bte_DestinationMemoryStartAddr,
    registerWrites_bte_DestinationImageWidth, selectedAfter_bte_DestinationImageWidth,
    registerWrites_bte_DestinationWindowStartXY, selectedAfter_bte_DestinationWindowStartXY,
    registerWrites_bte_WindowSize, selectedAfter_bte_WindowSize,
    writtenRegisters_setForegroundColor, selectedAfter_setForegroundColor,
    writtenRegisters_setBackgroundColor, selectedAfter_setBackgroundColor,
    registerWrites_lcdRegDataWrite, selectedAfter_lcdRegDataWrite,
    registerWrites_check2dBusy, selectedAfter_check2dBusy, registerWrites_checkWriteFifoEmpty,
    (registerWrites_ramAccessPrepare _).1, (registerWrites_ramAccessPrepare _).2,
    List.map_append, List.map_cons, List.map_nil, List.append_nil]
  rfl

theorem writtenRegisters_bteMemoryCopyWithChromaKey (c : Codes) (self : Ra8876_Lite) (status : Nat → Nat)
    (s0_addr s0_image_width s0_x s0_y des_addr des_image_width des_x des_y
      copy_width copy_height : Nat) (chromakey_color : Color) :
    writtenRegisters none (bteMemoryCopyWithChromaKey c self status s0_addr s0_image_width
      s0_x s0_y des_addr des_image_width des_x des_y copy_width copy_height chromakey_color)
    = bteSourceRegisters.take 10 ++ bteDestinationRegisters ++ bteSizeRegisters ++
        [RA8876_BGCR, RA8876_BGCG, RA8876_BGCB] ++
        [RA8876_BTE_CTRL1, RA8876_BTE_CTRL0] := by
  unfold bteMemoryCopyWithChromaKey
  simp only [writtenRegisters, registerWrites_append, selectedAfter_append,
    registerWrites_bte_Source0_MemoryStartAddr, selectedAfter_bte_Source0_MemoryStartAddr,
    registerWrites_bte_Source0_ImageWidth, selectedAfter_bte_Source0_ImageWidth,
    registerWrites_bte_Source0_WindowStartXY, selectedAfter_bte_Source0_WindowStartXY,
    registerWrites_bte_Source1_MemoryStartAddr, selectedAfter_bte_Source1_MemoryStartAddr,
    registerWrites_bte_Source1_ImageWidth, selectedAfter_bte_Source1_ImageWidth,
    registerWrites_bte_Source1_WindowStartXY, selectedAfter_bte_Source1_WindowStartXY,
    registerWrites_bte_DestinationMemoryStartAddr, selectedAfter_bte_DestinationMemoryStartAddr,
    registerWrites_bte_DestinationImageWidth, selectedAfter_bte_DestinationImageWidth,
    registerWrites_bte_DestinationWindowStartXY, selectedAfter_bte_DestinationWindowStartXY,
    registerWrites_bte_WindowSize, selectedAfter_bte_WindowSize,
    writtenRegisters_setForegroundColor, selectedAfter_setForegroundColor,
    writtenRegisters_setBackgroundColor, selectedAfter_setBackgroundColor,
    registerWrites_lcdRegDataWrite, selectedAfter_lcdRegDataWrite,
    registerWrites_check2dBusy, selectedAfter_check2dBusy, registerWrites_checkWriteFifoEmpty,
    (registerWrites_ramAccessPrepare _).1, (registerWrites_ramAccessPrepare _).2,
    List.map_append, List.map_cons, List.map_nil, List.append_nil]
  rfl

theorem writtenRegisters_btePatternFill (c : Codes) (status : Nat → Nat)
    (p8x8or16x16 s0_addr s0_image_width s0_x s0_y des_addr des_image_width des_x des_y
      copy_width copy_height : Nat) :
    writtenRegisters none (btePatternFill c status p8x8or16x16 s0_addr s0_image_width s0_x s0_y
      des_addr des_image_width des_x des_y copy_width copy_height)
    = bteSourceRegisters.take 10 ++ bteDestinationRegisters ++ bteSizeRegisters ++
        [RA8876_BTE_CTRL1, RA8876_BTE_CTRL0] := by
  unfold btePatternFill
  by_cases hp : p8x8or16x16 = 0
  · rw [if_pos hp]
    simp only [writtenRegisters, registerWrites_append, selectedAfter_append,
      registerWrites_bte_Source0_MemoryStartAddr, selectedAfter_bte_Source0_MemoryStartAddr,
      registerWrites_bte_Source0_ImageWidth, selectedAfter_bte_Source0_ImageWidth,
      registerWrites_bte_Source0_WindowStartXY, selectedAfter_bte_Source0_WindowStartXY,
      registerWrites_bte_Source1_MemoryStartAddr, selectedAfter_bte_Source1_MemoryStartAddr,
      registerWrites_bte_Source1_ImageWidth, selectedAfter_bte_Source1_ImageWidth,
      registerWrites_bte_Source1_WindowStartXY, selectedAfter_bte_Source1_WindowStartXY,
      registerWrites_bte_DestinationMemoryStartAddr, selectedAfter_bte_DestinationMemoryStartAddr,
      registerWrites_bte_DestinationImageWidth, selectedAfter_bte_DestinationImageWidth,
      registerWrites_bte_DestinationWindowStartXY, selectedAfter_bte_DestinationWindowStartXY,
      registerWrites_bte_WindowSize, selectedAfter_bte_WindowSize,
      writtenRegisters_setForegroundColor, selectedAfter_setForegroundColor,
      writtenRegisters_setBackgroundColor, selectedAfter_setBackgroundColor,
      registerWrites_lcdRegDataWrite, selectedAfter_lcdRegDataWrite,
      registerWrites_check2dBusy, selectedAfter_check2dBusy, registerWrites_checkWriteFifoEmpty,
      (registerWrites_ramAccessPrepare _).1, (registerWrites_ramAccessPrepare _).2,
      List.map_append, List.map_cons, List.map_nil, List.append_nil]
    rfl
  · rw [if_neg hp]
    simp only [writtenRegisters, registerWrites_append, selectedAfter_append,
      registerWrites_bte_Source0_MemoryStartAddr, selectedAfter_bte_Source0_MemoryStartAddr,
      registerWrites_bte_Source0_ImageWidth, selectedAfter_bte_Source0_ImageWidth,
      registerWrites_bte_Source0_WindowStartXY, selectedAfter_bte_Source0_WindowStartXY,
      registerWrites_bte_Source1_MemoryStartAddr, selectedAfter_bte_Source1_MemoryStartAddr,
      registerWrites_bte_Source1_ImageWidth, selectedAfter_bte_Source1_ImageWidth,
      registerWrites_bte_Source1_WindowStartXY, selectedAfter_bte_Source1_WindowStartXY,
      registerWrites_bte_DestinationMemoryStartAddr, selectedAfter_bte_DestinationMemoryStartAddr,
      registerWrites_bte_DestinationImageWidth, selectedAfter_bte_DestinationImageWidth,
      registerWrites_bte_DestinationWindowStartXY, selectedAfter_bte_DestinationWindowStartXY,
      registerWrites_bte_WindowSize, selectedAfter_bte_WindowSize,
      writtenRegisters_setForegroundColor, selectedAfter_setForegroundColor,
      writtenRegisters_setBackgroundColor, selectedAfter_setBackgroundColor,
      registerWrites_lcdRegDataWrite, selectedAfter_lcdRegDataWrite,
      registerWrites_check2dBusy, selectedAfter_check2dBusy, registerWrites_checkWriteFifoEmpty,
      (registerWrites_ramAccessPrepare _).1, (registerWrites_ramAccessPrepare _).2,
      List.map_append, List.map_cons, List.map_nil, List.append_nil]
    rfl

theorem writtenRegisters_btePatternFillWithChromaKey (c : Codes) (self : Ra8876_Lite) (status : Nat → Nat)
    (p8x8or16x16 s0_addr s0_image_width s0_x s0_y des_addr des_image_width des_x des_y
      copy_width copy_height : Nat) (chromakey_color : Color) :
    writtenRegisters none (btePatternFillWithChromaKey c self status p8x8or16x16 s0_addr
      s0_image_width s0_x s0_y des_addr des_image_width des_x des_y copy_width copy_height
      chromakey_color)
    = bteSourceRegisters.take 10 ++ bteDestinationRegisters ++ bteSizeRegisters ++
        [RA8876_BGCR, RA8876_BGCG, RA8876_BGCB] ++
        [RA8876_BTE_CTRL1, RA8876_BTE_CTRL0] := by
  unfold btePatternFillWithChromaKey
  by_cases hp : p8x8or16x16 = 0
  · rw [if_pos hp]
    simp only [writtenRegisters, registerWrites_append, selectedAfter_append,
      registerWrites_bte_Source0_MemoryStartAddr, selectedAfter_bte_Source0_MemoryStartAddr,
      registerWrites_bte_Source0_ImageWidth, selectedAfter_bte_Source0_ImageWidth,
      registerWrites_bte_Source0_WindowStartXY, selectedAfter_bte_Source0_WindowStartXY,
      registerWrites_bte_Source1_MemoryStartAddr, selectedAfter_bte_Source1_MemoryStartAddr,
      registerWrites_bte_Source1_ImageWidth, selectedAfter_bte_Source1_ImageWidth,
      registerWrites_bte_Source1_WindowStartXY, selectedAfter_bte_Source1_WindowStartXY,
      registerWrites_bte_DestinationMemoryStartAddr, selectedAfter_bte_DestinationMemoryStartAddr,
      registerWrites_bte_DestinationImageWidth, selectedAfter_bte_DestinationImageWidth,
      registerWrites_bte_DestinationWindowStartXY, selectedAfter_bte_DestinationWindowStartXY,
      registerWrites_bte_WindowSize, selectedAfter_bte_WindowSize,
      writtenRegisters_setForegroundColor, selectedAfter_setForegroundColor,
      writtenRegisters_setBackgroundColor, selectedAfter_setBackgroundColor,
      registerWrites_lcdRegDataWrite, selectedAfter_lcdRegDataWrite,
      registerWrites_check2dBusy, selectedAfter_check2dBusy, registerWrites_checkWriteFifoEmpty,
      (registerWrites_ramAccessPrepare _).1, (registerWrites_ramAccessPrepare _).2,
      List.map_append, List.map_cons, List.map_nil, List.append_nil]
    rfl
  · rw [if_neg hp]
    simp only [writtenRegisters, registerWrites_append, selectedAfter_append,
      registerWrites_bte_Source0_MemoryStartAddr, selectedAfter_bte_Source0_MemoryStartAddr,
      registerWrites_bte_Source0_ImageWidth, selectedAfter_bte_Source0_ImageWidth,
      registerWrites_bte_Source0_WindowStartXY, selectedAfter_bte_Source0_WindowStartXY,
      registerWrites_bte_Source1_MemoryStartAddr, selectedAfter_bte_Source1_MemoryStartAddr,
      registerWrites_bte_Source1_ImageWidth, selectedAfter_bte_Source1_ImageWidth,
      registerWrites_bte_Source1_WindowStartXY, selectedAfter_bte_Source1_WindowStartXY,
      registerWrites_bte_DestinationMemoryStartAddr, selectedAfter_bte_DestinationMemoryStartAddr,
      registerWrites_bte_DestinationImageWidth, selectedAfter_bte_DestinationImageWidth,
      registerWrites_bte_DestinationWindowStartXY, selectedAfter_bte_DestinationWindowStartXY,
      registerWrites_bte_WindowSize, selectedAfter_bte_WindowSize,
      writtenRegisters_setForegroundColor, selectedAfter_setForegroundColor,
      writtenRegisters_setBackgroundColor, selectedAfter_setBackgroundColor,
      registerWrites_lcdRegDataWrite, selectedAfter_lcdRegDataWrite,
      registerWrites_check2dBusy, selectedAfter_check2dBusy, registerWrites_checkWriteFifoEmpty,
      (registerWrites_ramAccessPrepare _).1, (registerWrites_ramAccessPrepare _).2,
      List.map_append, List.map_cons, List.map_nil, List.append_nil]
    rfl

theorem writtenRegisters_bteMemoryCopyWithOpacity (c : Codes) (status : Nat → Nat)
    (s0_addr s0_image_width s0_x s0_y s1_addr s1_image_width s1_x s1_y
      des_addr des_image_width des_x des_y copy_width copy_height alpha : Nat) :
    writtenRegisters none (bteMemoryCopyWithOpacity c status s0_addr s0_image_width s0_x s0_y
      s1_addr s1_image_width s1_x s1_y des_addr des_image_width des_x des_y copy_width
      copy_height alpha)
    = bteSourceRegisters ++ bteDestinationRegisters ++ bteSizeRegisters ++
        [RA8876_BTE_CTRL1, RA8876_APB_CTRL, RA8876_BTE_CTRL0] := by
  unfold bteMemoryCopyWithOpacity
  simp only [writtenRegisters, registerWrites_append, selectedAfter_append,
    registerWrites_bte_Source0_MemoryStartAddr, selectedAfter_bte_Source0_MemoryStartAddr,
    registerWrites_bte_Source0_ImageWidth, selectedAfter_bte_Source0_ImageWidth,
    registerWrites_bte_Source0_WindowStartXY, selectedAfter_bte_Source0_WindowStartXY,
    registerWrites_bte_Source1_MemoryStartAddr, selectedAfter_bte_Source1_MemoryStartAddr,
    registerWrites_bte_Source1_ImageWidth, selectedAfter_bte_Source1_ImageWidth,
    registerWrites_bte_Source1_WindowStartXY, selectedAfter_bte_Source1_WindowStartXY,
    registerWrites_bte_DestinationMemoryStartAddr, selectedAfter_bte_DestinationMemoryStartAddr,
    registerWrites_bte_DestinationImageWidth, selectedAfter_bte_DestinationImageWidth,
    registerWrites_bte_DestinationWindowStartXY, selectedAfter_bte_DestinationWindowStartXY,
    registerWrites_bte_WindowSize, selectedAfter_bte_WindowSize,
    writtenRegisters_setForegroundColor, selectedAfter_setForegroundColor,
    writtenRegisters_setBackgroundColor, selectedAfter_setBackgroundColor,
    registerWrites_lcdRegDataWrite, selectedAfter_lcdRegDataWrite,
    registerWrites_check2dBusy, selectedAfter_check2dBusy, registerWrites_checkWriteFifoEmpty,
    (registerWrites_ramAccessPrepare _).1, (registerWrites_ramAccessPrepare _).2,
    List.map_append, List.map_cons, List.map_nil, List.append_nil]
  rfl

theorem writtenRegisters_bteSolidFill (c : Codes) (self : Ra8876_Lite) (status : Nat → Nat)
    (des_addr des_x des_y bte_width bte_height : Nat) (foreground_color : Color) :
    writtenRegisters none (bteSolidFill c self status des_addr des_x des_y bte_width bte_height
      foreground_color)
    = bteDestinationRegisters ++ [RA8876_FGCR, RA8876_FGCG, RA8876_FGCB] ++
        bteSizeRegisters ++ [RA8876_BTE_CTRL1, RA8876_BTE_CTRL0] := by
  unfold bteSolidFill
  simp only [writtenRegisters, registerWrites_append, selectedAfter_append,
    registerWrites_bte_Source0_MemoryStartAddr, selectedAfter_bte_Source0_MemoryStartAddr,
    registerWrites_bte_Source0_ImageWidth, selectedAfter_bte_Source0_ImageWidth,
    registerWrites_bte_Source0_WindowStartXY, selectedAfter_bte_Source0_WindowStartXY,
    registerWrites_bte_Source1_MemoryStartAddr, selectedAfter_bte_Source1_MemoryStartAddr,
    registerWrites_bte_Source1_ImageWidth, selectedAfter_bte_Source1_ImageWidth,
    registerWrites_bte_Source1_WindowStartXY, selectedAfter_bte_Source1_WindowStartXY,
    registerWrites_bte_DestinationMemoryStartAddr, selectedAfter_bte_DestinationMemoryStartAddr,
    registerWrites_bte_DestinationImageWidth, selectedAfter_bte_DestinationImageWidth,
    registerWrites_bte_DestinationWindowStartXY, selectedAfter_bte_DestinationWindowStartXY,
    registerWrites_bte_WindowSize, selectedAfter_bte_WindowSize,
    writtenRegisters_setForegroundColor, selectedAfter_setForegroundColor,
    writtenRegisters_setBackgroundColor, selectedAfter_setBackgroundColor,
    registerWrites_lcdRegDataWrite, selectedAfter_lcdRegDataWrite,
    registerWrites_check2dBusy, selectedAfter_check2dBusy, registerWrites_checkWriteFifoEmpty,
    (registerWrites_ramAccessPrepare _).1, (registerWrites_ramAccessPrepare _).2,
    List.map_append, List.map_cons, List.map_nil, List.append_nil]
  rfl

theorem writtenRegisters_bteMpuWriteWithROP (c : Codes)
    (s1_addr s1_image_width s1_x s1_y des_addr des_image_width des_x des_y
      width height rop_code : Nat) (data : Nat → Nat) (log : List Bus)
    (h : bteMpuWriteWithROP c s1_addr s1_image_width s1_x s1_y des_addr des_image_width
      des_x des_y width height rop_code data = some log) :
    ∃ n, writtenRegisters none log
      = bteSourceRegisters.drop 10 ++ bteDestinationRegisters ++ bteSizeRegisters ++
        [RA8876_BTE_CTRL1, RA8876_BTE_CTRL0] ++
        List.replicate n RA8876_MRWDP := by
  unfold bteMpuWriteWithROP at h
  split at h
  · exact absurd h (by simp)
  · rename_i stream hs
    simp only [Option.some.injEq] at h
    subst h
    have hd := registerWrites_dataOnly RA8876_MRWDP stream (streamBytes_dataOnly _ _ _ _ hs)
    refine ⟨stream.length, ?_⟩
    simp only [bteMpuWriteWithROP_setup, writtenRegisters, registerWrites_append, selectedAfter_append,
    registerWrites_bte_Source1_MemoryStartAddr, selectedAfter_bte_Source1_MemoryStartAddr,
    registerWrites_bte_Source1_ImageWidth, selectedAfter_bte_Source1_ImageWidth,
    registerWrites_bte_Source1_WindowStartXY, selectedAfter_bte_Source1_WindowStartXY,
    registerWrites_bte_DestinationMemoryStartAddr, selectedAfter_bte_DestinationMemoryStartAddr,
    registerWrites_bte_DestinationImageWidth, selectedAfter_bte_DestinationImageWidth,
    registerWrites_bte_DestinationWindowStartXY, selectedAfter_bte_DestinationWindowStartXY,
    registerWrites_bte_WindowSize, selectedAfter_bte_WindowSize,
    writtenRegisters_setForegroundColor, selectedAfter_setForegroundColor,
    writtenRegisters_setBackgroundColor, selectedAfter_setBackgroundColor,
    registerWrites_lcdRegDataWrite, selectedAfter_lcdRegDataWrite,
    registerWrites_check2dBusy, selectedAfter_check2dBusy, registerWrites_checkWriteFifoEmpty,
    (registerWrites_ramAccessPrepare _).1, (registerWrites_ramAccessPrepare _).2,
    List.map_append, List.map_cons, List.map_nil, List.append_nil, hd.1]
    rfl

theorem writtenRegisters_bteMpuWriteWithROP16 (c : Codes) (status : Nat → Nat)
    (s1_addr s1_image_width s1_x s1_y des_addr des_image_width des_x des_y
      width height rop_code : Nat) (data : Nat → Nat) :
    ∃ n, writtenRegisters none (bteMpuWriteWithROP16 c status s1_addr s1_image_width s1_x s1_y des_addr des_image_width
      des_x des_y width height rop_code data)
      = bteSourceRegisters.drop 10 ++ bteDestinationRegisters ++ bteSizeRegisters ++
        [RA8876_BTE_CTRL1, RA8876_BTE_CTRL0] ++
        List.replicate n RA8876_MRWDP := by
  have hd := registerWrites_dataOnly RA8876_MRWDP _ (streamWords_dataOnly data height width)
  refine ⟨(streamWords data height width).length, ?_⟩
  simp only [bteMpuWriteWithROP16, bteMpuWriteWithROP_setup, writtenRegisters, registerWrites_append, selectedAfter_append,
    registerWrites_bte_Source1_MemoryStartAddr, selectedAfter_bte_Source1_MemoryStartAddr,
    registerWrites_bte_Source1_ImageWidth, selectedAfter_bte_Source1_ImageWidth,
    registerWrites_bte_Source1_WindowStartXY, selectedAfter_bte_Source1_WindowStartXY,
    registerWrites_bte_DestinationMemoryStartAddr, selectedAfter_bte_DestinationMemoryStartAddr,
    registerWrites_bte_DestinationImageWidth, selectedAfter_bte_DestinationImageWidth,
    registerWrites_bte_DestinationWindowStartXY, selectedAfter_bte_DestinationWindowStartXY,
    registerWrites_bte_WindowSize, selectedAfter_bte_WindowSize,
    writtenRegisters_setForegroundColor, selectedAfter_setForegroundColor,
    writtenRegisters_setBackgroundColor, selectedAfter_setBackgroundColor,
    registerWrites_lcdRegDataWrite, selectedAfter_lcdRegDataWrite,
    registerWrites_check2dBusy, selectedAfter_check2dBusy, registerWrites_checkWriteFifoEmpty,
    (registerWrites_ramAccessPrepare _).1, (registerWrites_ramAccessPrepare _).2,
    List.map_append, List.map_cons, List.map_nil, List.append_nil, hd.1, hd.2]
  rfl

theorem writtenRegisters_bteMpuWriteWithChromaKey (c : Codes) (self : Ra8876_Lite)
    (des_addr des_image_width des_x des_y width height : Nat) (chromakey_color : Color)
    (data : Nat → Nat) (log : List Bus)
    (h : bteMpuWriteWithChromaKey c self des_addr des_image_width des_x des_y width height
      chromakey_color data = some log) :
    ∃ n, writtenRegisters none log
      = bteDestinationRegisters ++ bteSizeRegisters ++ [RA8876_BGCR, RA8876_BGCG, RA8876_BGCB] ++
        [RA8876_BTE_CTRL1, RA8876_BTE_CTRL0] ++
        List.replicate n RA8876_MRWDP := by
  unfold bteMpuWriteWithChromaKey at h
  split at h
  · exact absurd h (by simp)
  · rename_i stream hs
    simp only [Option.some.injEq] at h
    subst h
    have hd := registerWrites_dataOnly RA8876_MRWDP stream (streamBytes_dataOnly _ _ _ _ hs)
    refine ⟨stream.length, ?_⟩
    simp only [bteMpuWriteWithChromaKey_setup, writtenRegisters, registerWrites_append, selectedAfter_append,
    registerWrites_bte_Source1_MemoryStartAddr, selectedAfter_bte_Source1_MemoryStartAddr,
    registerWrites_bte_Source1_ImageWidth, selectedAfter_bte_Source1_ImageWidth,
    registerWrites_bte_Source1_WindowStartXY, selectedAfter_bte_Source1_WindowStartXY,
    registerWrites_bte_DestinationMemoryStartAddr, selectedAfter_bte_DestinationMemoryStartAddr,
    registerWrites_bte_DestinationImageWidth, selectedAfter_bte_DestinationImageWidth,
    registerWrites_bte_DestinationWindowStartXY, selectedAfter_bte_DestinationWindowStartXY,
    registerWrites_bte_WindowSize, selectedAfter_bte_WindowSize,
    writtenRegisters_setForegroundColor, selectedAfter_setForegroundColor,
    writtenRegisters_setBackgroundColor, selectedAfter_setBackgroundColor,
    registerWrites_lcdRegDataWrite, selectedAfter_lcdRegDataWrite,
    registerWrites_check2dBusy, selectedAfter_check2dBusy, registerWrites_checkWriteFifoEmpty,
    (registerWrites_ramAccessPrepare _).1, (registerWrites_ramAccessPrepare _).2,
    List.map_append, List.map_cons, List.map_nil, List.append_nil, hd.1]
    rfl

theorem writtenRegisters_bteMpuWriteWithChromaKey16 (c : Codes) (self : Ra8876_Lite)
    (des_addr des_image_width des_x des_y width height : Nat) (chromakey_color : Color)
    (data : Nat → Nat) :
    ∃ n, writtenRegisters none (bteMpuWriteWithChromaKey16 c self des_addr des_image_width des_x des_y width height
      chromakey_color data)
      = bteDestinationRegisters ++ bteSizeRegisters ++ [RA8876_BGCR, RA8876_BGCG, RA8876_BGCB] ++
        [RA8876_BTE_CTRL1, RA8876_BTE_CTRL0] ++
        List.replicate n RA8876_MRWDP := by
  have hd := registerWrites_dataOnly RA8876_MRWDP _ (streamWords_dataOnly data height width)
  refine ⟨(streamWords data height width).length, ?_⟩
  simp only [bteMpuWriteWithChromaKey16, bteMpuWriteWithChromaKey_setup, writtenRegisters, registerWrites_append, selectedAfter_append,
    registerWrites_bte_Source1_MemoryStartAddr, selectedAfter_bte_Source1_MemoryStartAddr,
    registerWrites_bte_Source1_ImageWidth, selectedAfter_bte_Source1_ImageWidth,
    registerWrites_bte_Source1_WindowStartXY, selectedAfter_bte_Source1_WindowStartXY,
    registerWrites_bte_DestinationMemoryStartAddr, selectedAfter_bte_DestinationMemoryStartAddr,
    registerWrites_bte_DestinationImageWidth, selectedAfter_bte_DestinationImageWidth,
    registerWrites_bte_DestinationWindowStartXY, selectedAfter_bte_DestinationWindowStartXY,
    registerWrites_bte_WindowSize, selectedAfter_bte_WindowSize,
    writtenRegisters_setForegroundColor, selectedAfter_setForegroundColor,
    writtenRegisters_setBackgroundColor, selectedAfter_setBackgroundColor,
    registerWrites_lcdRegDataWrite, selectedAfter_lcdRegDataWrite,
    registerWrites_check2dBusy, selectedAfter_check2dBusy, registerWrites_checkWriteFifoEmpty,
    (registerWrites_ramAccessPrepare _).1, (registerWrites_ramAccessPrepare _).2,
    List.map_append, List.map_cons, List.map_nil, List.append_nil, hd.1]
  rfl

theorem writtenRegisters_bteMpuWriteColorExpansion (c : Codes) (self : Ra8876_Lite)
    (status : Nat → Nat) (des_addr des_image_width des_x des_y width height : Nat)
    (foreground_color background_color : Color) (data : Nat → Nat) (log : List Bus)
    (h : bteMpuWriteColorExpansion c self status des_addr des_image_width des_x des_y width height
      foreground_color background_color data = some log) :
    ∃ n, writtenRegisters none log
      = bteDestinationRegisters ++ bteSizeRegisters ++ [RA8876_FGCR, RA8876_FGCG, RA8876_FGCB] ++
        [RA8876_BGCR, RA8876_BGCG, RA8876_BGCB] ++ [RA8876_BTE_CTRL1, RA8876_BTE_CTRL0] ++
        List.replicate n RA8876_MRWDP := by
  unfold bteMpuWriteColorExpansion at h
  split at h
  · exact absurd h (by simp)
  · rename_i stream hs
    simp only [Option.some.injEq] at h
    subst h
    have hd := registerWrites_dataOnly RA8876_MRWDP stream (streamBytes_dataOnly _ _ _ _ hs)
    refine ⟨stream.length, ?_⟩
    simp only [writtenRegisters, registerWrites_append, selectedAfter_append,
    registerWrites_bte_Source1_MemoryStartAddr, selectedAfter_bte_Source1_MemoryStartAddr,
    registerWrites_bte_Source1_ImageWidth, selectedAfter_bte_Source1_ImageWidth,
    registerWrites_bte_Source1_WindowStartXY, selectedAfter_bte_Source1_WindowStartXY,
    registerWrites_bte_DestinationMemoryStartAddr, selectedAfter_bte_DestinationMemoryStartAddr,
    registerWrites_bte_DestinationImageWidth, selectedAfter_bte_DestinationImageWidth,
    registerWrites_bte_DestinationWindowStartXY, selectedAfter_bte_DestinationWindowStartXY,
    registerWrites_bte_WindowSize, selectedAfter_bte_WindowSize,
    writtenRegisters_setForegroundColor, selectedAfter_setForegroundColor,
    writtenRegisters_setBackgroundColor, selectedAfter_setBackgroundColor,
    registerWrites_lcdRegDataWrite, selectedAfter_lcdRegDataWrite,
    registerWrites_check2dBusy, selectedAfter_check2dBusy, registerWrites_checkWriteFifoEmpty,
    (registerWrites_ramAccessPrepare _).1, (registerWrites_ramAccessPrepare _).2,
    List.map_append, List.map_cons, List.map_nil, List.append_nil, hd.1, hd.2]
    rfl

theorem writtenRegisters_bteMpuWriteColorExpansionWithChromaKey (c : Codes)
    (self : Ra8876_Lite) (status : Nat → Nat) (des_addr des_image_width des_x des_y width height : Nat)
    (foreground_color background_color : Color) (data : Nat → Nat) (log : List Bus)
    (h : bteMpuWriteColorExpansionWithChromaKey c self status des_addr des_image_width des_x des_y width height
      foreground_color background_color data = some log) :
    (foreground_color = background_color ∧ log = []) ∨
    (foreground_color ≠ background_color ∧
      ∃ n, writtenRegisters none log
        = bteDestinationRegisters ++ bteSizeRegisters ++ [RA8876_FGCR, RA8876_FGCG, RA8876_FGCB] ++
        [RA8876_BGCR, RA8876_BGCG, RA8876_BGCB] ++ [RA8876_BTE_CTRL1, RA8876_BTE_CTRL0] ++
          List.replicate n RA8876_MRWDP) := by
  unfold bteMpuWriteColorExpansionWithChromaKey at h
  split at h
  · rename_i heq
    simp only [Option.some.injEq] at h
    exact Or.inl ⟨heq, h.symm⟩
  · rename_i hne
    right
    refine ⟨hne, ?_⟩
    split at h
    · exact absurd h (by simp)
    · rename_i stream hs
      simp only [Option.some.injEq] at h
      subst h
      have hd := registerWrites_dataOnly RA8876_MRWDP stream (streamBytes_dataOnly _ _ _ _ hs)
      refine ⟨stream.length, ?_⟩
      simp only [writtenRegisters, registerWrites_append, selectedAfter_append,
    registerWrites_bte_Source1_MemoryStartAddr, selectedAfter_bte_Source1_MemoryStartAddr,
    registerWrites_bte_Source1_ImageWidth, selectedAfter_bte_Source1_ImageWidth,
    registerWrites_bte_Source1_WindowStartXY, selectedAfter_bte_Source1_WindowStartXY,
    registerWrites_bte_DestinationMemoryStartAddr, selectedAfter_bte_DestinationMemoryStartAddr,
    registerWrites_bte_DestinationImageWidth, selectedAfter_bte_DestinationImageWidth,
    registerWrites_bte_DestinationWindowStartXY, selectedAfter_bte_DestinationWindowStartXY,
    registerWrites_bte_WindowSize, selectedAfter_bte_WindowSize,
    writtenRegisters_setForegroundColor, selectedAfter_setForegroundColor,
    writtenRegisters_setBackgroundColor, selectedAfter_setBackgroundColor,
    registerWrites_lcdRegDataWrite, selectedAfter_lcdRegDataWrite,
    registerWrites_check2dBusy, selectedAfter_check2dBusy, registerWrites_checkWriteFifoEmpty,
    (registerWrites_ramAccessPrepare _).1, (registerWrites_ramAccessPrepare _).2,
    List.map_append, List.map_cons, List.map_nil, List.append_nil, hd.1, hd.2]
      rfl

/-! ## The register writes of the BTE primitives, with their values -/

theorem registerWrites_portBytes (r : Nat) (data : Nat → Nat) :
    ∀ n, registerWrites (some r) ((List.range n).flatMap (fun k => lcdDataWrite (data k)))
        = (List.range n).map (fun k => (r, data k % 256)) ∧
      selectedAfter (some r) ((List.range n).flatMap (fun k => lcdDataWrite (data k)))
        = some r := by
  intro n
  induction n with
  | zero => exact ⟨rfl, rfl⟩
  | succ n ih =>
    rw [List.range_succ, List.flatMap_append, registerWrites_append, selectedAfter_append,
      ih.1, ih.2, List.map_append]
    exact ⟨rfl, rfl⟩

theorem registerWrites_portWords (r : Nat) (data : Nat → Nat) :
    ∀ n, registerWrites (some r) ((List.range n).flatMap (fun k => lcdDataWrite16bpp (data k)))
        = (List.range n).flatMap
            (fun k => [(r, data k % 256), (r, (data k >>> 8) % 256)]) ∧
      selectedAfter (some r) ((List.range n).flatMap (fun k => lcdDataWrite16bpp (data k)))
        = some r := by
  intro n
  induction n with
  | zero => exact ⟨rfl, rfl⟩
  | succ n ih =>
    have hw : registerWrites (some r) (lcdDataWrite16bpp (data n))
        = [(r, data n % 256), (r, (data n >>> 8) % 256)] := by
      have h : lcdDataWrite16bpp (data n)
          = [Bus.data (data n % 256 % 256), Bus.data ((data n >>> 8) % 256 % 256)] := rfl
      rw [h, Nat.mod_mod, Nat.mod_mod]
      rfl
    have hs : selectedAfter (some r) (lcdDataWrite16bpp (data n)) = some r := rfl
    rw [List.range_succ, List.flatMap_append, registerWrites_append, selectedAfter_append,
      ih.1, ih.2, List.flatMap_append]
    simp only [List.flatMap_cons, List.flatMap_nil, List.append_nil, hw, hs, and_self]

theorem registerWrites_setForegroundColor_values (self : Ra8876_Lite) (color : Color) :
    ∃ r g b, ∀ sel, registerWrites sel (setForegroundColor self color)
      = [(RA8876_FGCR, r), (RA8876_FGCG, g), (RA8876_FGCB, b)] := by
  rcases self with ⟨w, h, mode⟩
  cases mode <;> exact ⟨_, _, _, fun sel => by cases sel <;> rfl⟩

theorem registerWrites_setBackgroundColor_values (self : Ra8876_Lite) (color : Color) :
    ∃ r g b, ∀ sel, registerWrites sel (setBackgroundColor self color)
      = [(RA8876_BGCR, r), (RA8876_BGCG, g), (RA8876_BGCB, b)] := by
  rcases self with ⟨w, h, mode⟩
  cases mode <;> exact ⟨_, _, _, fun sel => by cases sel <;> rfl⟩

theorem registerWrites_bteMemoryCopyWithROP (c : Codes) (status : Nat → Nat)
    (s0_addr s0_image_width s0_x s0_y s1_addr s1_image_width s1_x s1_y
      des_addr des_image_width des_x des_y copy_width copy_height rop_code : Nat) :
    registerWrites none (bteMemoryCopyWithROP c status s0_addr s0_image_width s0_x s0_y
        s1_addr s1_image_width s1_x s1_y des_addr des_image_width des_x des_y copy_width
        copy_height rop_code)
      = source0Writes s0_addr s0_image_width s0_x s0_y ++
        source1Writes s1_addr s1_image_width s1_x s1_y ++
        destinationWrites des_addr des_image_width des_x des_y ++
        sizeWrites copy_width copy_height ++
        controlWrites (rop_code <<< 4 ||| c.RA8876_BTE_MEMORY_COPY_WITH_ROP)
          (c.RA8876_BTE_ENABLE <<< 4) := by
  simp only [bteMemoryCopyWithROP, registerWrites_append, selectedAfter_append,
    registerWrites_bte_Source0_MemoryStartAddr, selectedAfter_bte_Source0_MemoryStartAddr,
    registerWrites_bte_Source0_ImageWidth, selectedAfter_bte_Source0_ImageWidth,
    registerWrites_bte_Source0_WindowStartXY, selectedAfter_bte_Source0_WindowStartXY,
    registerWrites_bte_Source1_MemoryStartAddr, selectedAfter_bte_Source1_MemoryStartAddr,
    registerWrites_bte_Source1_ImageWidth, selectedAfter_bte_Source1_ImageWidth,
    registerWrites_bte_Source1_WindowStartXY, selectedAfter_bte_Source1_WindowStartXY,
    registerWrites_bte_DestinationMemoryStartAddr, selectedAfter_bte_DestinationMemoryStartAddr,
    registerWrites_bte_DestinationImageWidth, selectedAfter_bte_DestinationImageWidth,
    registerWrites_bte_DestinationWindowStartXY, selectedAfter_bte_DestinationWindowStartXY,
    registerWrites_bte_WindowSize, selectedAfter_bte_WindowSize,
    registerWrites_lcdRegDataWrite, selectedAfter_lcdRegDataWrite,
    registerWrites_check2dBusy, selectedAfter_check2dBusy, registerWrites_checkWriteFifoEmpty,
    List.append_nil,
    (registerWrites_ramAccessPrepare _).1, (registerWrites_ramAccessPrepare _).2,
    source0Writes, source1Writes, destinationWrites, sizeWrites, controlWrites,
    foregroundWrites, backgroundWrites,
    List.cons_append, List.nil_append, List.singleton_append, List.append_assoc]
  rfl

theorem registerWrites_bteMemoryCopyWithChromaKey (c : Codes) (self : Ra8876_Lite)
    (status : Nat → Nat)
    (s0_addr s0_image_width s0_x s0_y des_addr des_image_width des_x des_y
      copy_width copy_height : Nat) (chromakey_color : Color)
    (r g b : Nat)
    (hbg : ∀ sel, registerWrites sel (setBackgroundColor self chromakey_color)
      = [(RA8876_BGCR, r), (RA8876_BGCG, g), (RA8876_BGCB, b)]) :
    registerWrites none (bteMemoryCopyWithChromaKey c self status s0_addr
        s0_image_width s0_x s0_y des_addr des_image_width des_x des_y copy_width copy_height
        chromakey_color)
      = source0Writes s0_addr s0_image_width s0_x s0_y ++
        destinationWrites des_addr des_image_width des_x des_y ++
        sizeWrites copy_width copy_height ++
        backgroundWrites r g b ++
        controlWrites c.RA8876_BTE_MEMORY_COPY_WITH_CHROMA (c.RA8876_BTE_ENABLE <<< 4) := by
  simp only [bteMemoryCopyWithChromaKey, hbg, selectedAfter_setBackgroundColor, registerWrites_append, selectedAfter_append,
    registerWrites_bte_Source0_MemoryStartAddr, selectedAfter_bte_Source0_MemoryStartAddr,
    registerWrites_bte_Source0_ImageWidth, selectedAfter_bte_Source0_ImageWidth,
    registerWrites_bte_Source0_WindowStartXY, selectedAfter_bte_Source0_WindowStartXY,
    registerWrites_bte_Source1_MemoryStartAddr, selectedAfter_bte_Source1_MemoryStartAddr,
    registerWrites_bte_Source1_ImageWidth, selectedAfter_bte_Source1_ImageWidth,
    registerWrites_bte_Source1_WindowStartXY, selectedAfter_bte_Source1_WindowStartXY,
    registerWrites_bte_DestinationMemoryStartAddr, selectedAfter_bte_DestinationMemoryStartAddr,
    registerWrites_bte_DestinationImageWidth, selectedAfter_bte_DestinationImageWidth,
    registerWrites_bte_DestinationWindowStartXY, selectedAfter_bte_DestinationWindowStartXY,
    registerWrites_bte_WindowSize, selectedAfter_bte_WindowSize,
    registerWrites_lcdRegDataWrite, selectedAfter_lcdRegDataWrite,
    registerWrites_check2dBusy, selectedAfter_check2dBusy, registerWrites_checkWriteFifoEmpty,
    List.append_nil,
    (registerWrites_ramAccessPrepare _).1, (registerWrites_ramAccessPrepare _).2,
    source0Writes, source1Writes, destinationWrites, sizeWrites, controlWrites,
    foregroundWrites, backgroundWrites,
    List.cons_append, List.nil_append, List.singleton_append, List.append_assoc]
  rfl

theorem registerWrites_bteMpuWriteWithROP_setup (c : Codes)
    (s1_addr s1_image_width s1_x s1_y des_addr des_image_width des_x des_y
      width height rop_code : Nat) :
    registerWrites none (bteMpuWriteWithROP_setup c s1_addr s1_image_width s1_x s1_y
        des_addr des_image_width des_x des_y width height rop_code)
      = source1Writes s1_addr s1_image_width s1_x s1_y ++
        destinationWrites des_addr des_image_width des_x des_y ++
        sizeWrites width height ++
        controlWrites (rop_code <<< 4 ||| c.RA8876_BTE_MPU_WRITE_WITH_ROP)
          (c.RA8876_BTE_ENABLE <<< 4) ∧
    selectedAfter none (bteMpuWriteWithROP_setup c s1_addr s1_image_width s1_x s1_y
        des_addr des_image_width des_x des_y width height rop_code) = some RA8876_MRWDP := by
  constructor
  · simp only [bteMpuWriteWithROP_setup, registerWrites_append, selectedAfter_append,
    registerWrites_bte_Source0_MemoryStartAddr, selectedAfter_bte_Source0_MemoryStartAddr,
    registerWrites_bte_Source0_ImageWidth, selectedAfter_bte_Source0_ImageWidth,
    registerWrites_bte_Source0_WindowStartXY, selectedAfter_bte_Source0_WindowStartXY,
    registerWrites_bte_Source1_MemoryStartAddr, selectedAfter_bte_Source1_MemoryStartAddr,
    registerWrites_bte_Source1_ImageWidth, selectedAfter_bte_Source1_ImageWidth,
    registerWrites_bte_Source1_WindowStartXY, selectedAfter_bte_Source1_WindowStartXY,
    registerWrites_bte_DestinationMemoryStartAddr, selectedAfter_bte_DestinationMemoryStartAddr,
    registerWrites_bte_DestinationImageWidth, selectedAfter_bte_DestinationImageWidth,
    registerWrites_bte_DestinationWindowStartXY, selectedAfter_bte_DestinationWindowStartXY,
    registerWrites_bte_WindowSize, selectedAfter_bte_WindowSize,
    registerWrites_lcdRegDataWrite, selectedAfter_lcdRegDataWrite,
    registerWrites_check2dBusy, selectedAfter_check2dBusy, registerWrites_checkWriteFifoEmpty,
    List.append_nil,
    (registerWrites_ramAccessPrepare _).1, (registerWrites_ramAccessPrepare _).2,
    source0Writes, source1Writes, destinationWrites, sizeWrites, controlWrites,
    foregroundWrites, backgroundWrites,
    List.cons_append, List.nil_append, List.singleton_append, List.append_assoc]
    rfl
  · simp only [bteMpuWriteWithROP_setup, selectedAfter_append,
      (registerWrites_ramAccessPrepare _).2]

theorem registerWrites_bteMpuWriteWithROP (c : Codes)
    (s1_addr s1_image_width s1_x s1_y des_addr des_image_width des_x des_y
      width height rop_code : Nat) (data : Nat → Nat) :
    (bteMpuWriteWithROP c s1_addr s1_image_width s1_x s1_y des_addr des_image_width
        des_x des_y width height rop_code data).map (registerWrites none)
      = if 0 < height ∧ 65536 ≤ width * 2 then none
        else some (source1Writes s1_addr s1_image_width s1_x s1_y ++
          destinationWrites des_addr des_image_width des_x des_y ++
          sizeWrites width height ++
          controlWrites (rop_code <<< 4 ||| c.RA8876_BTE_MPU_WRITE_WITH_ROP)
            (c.RA8876_BTE_ENABLE <<< 4) ++
          portWrites data (height * (width * 2))) := by
  obtain ⟨hw, hs⟩ := registerWrites_bteMpuWriteWithROP_setup c s1_addr s1_image_width s1_x
    s1_y des_addr des_image_width des_x des_y width height rop_code
  unfold bteMpuWriteWithROP streamBytes
  by_cases h : 0 < height ∧ 65536 ≤ width * 2
  · simp only [h, and_self, if_true, Option.map]
  · simp only [h, if_false, Option.map, registerWrites_append, hw, hs,
      (registerWrites_portBytes RA8876_MRWDP data _).1, portWrites]

theorem registerWrites_bteMpuWriteWithROP16 (c : Codes) (status : Nat → Nat)
    (s1_addr s1_image_width s1_x s1_y des_addr des_image_width des_x des_y
      width height rop_code : Nat) (data : Nat → Nat) :
    registerWrites none (bteMpuWriteWithROP16 c status s1_addr s1_image_width s1_x s1_y
        des_addr des_image_width des_x des_y width height rop_code data)
      = source1Writes s1_addr s1_image_width s1_x s1_y ++
        destinationWrites des_addr des_image_width des_x des_y ++
        sizeWrites width height ++
        controlWrites (rop_code <<< 4 ||| c.RA8876_BTE_MPU_WRITE_WITH_ROP)
          (c.RA8876_BTE_ENABLE <<< 4) ++
        portWrites16 data (height * width) := by
  obtain ⟨hw, hs⟩ := registerWrites_bteMpuWriteWithROP_setup c s1_addr s1_image_width s1_x
    s1_y des_addr des_image_width des_x des_y width height rop_code
  unfold bteMpuWriteWithROP16 streamWords
  simp only [registerWrites_append, selectedAfter_append, hw, hs,
    (registerWrites_portWords RA8876_MRWDP data _).1, registerWrites_checkWriteFifoEmpty,
    portWrites16, List.append_nil]

theorem registerWrites_bteMpuWriteWithChromaKey_setup (c : Codes) (self : Ra8876_Lite)
    (des_addr des_image_width des_x des_y width height : Nat) (chromakey_color : Color)
    (r g b : Nat)
    (hbg : ∀ sel, registerWrites sel (setBackgroundColor self chromakey_color)
      = [(RA8876_BGCR, r), (RA8876_BGCG, g), (RA8876_BGCB, b)]) :
    registerWrites none (bteMpuWriteWithChromaKey_setup c self des_addr
        des_image_width des_x des_y width height chromakey_color)
      = destinationWrites des_addr des_image_width des_x des_y ++
        sizeWrites width height ++
        backgroundWrites r g b ++
        controlWrites c.RA8876_BTE_MPU_WRITE_WITH_CHROMA (c.RA8876_BTE_ENABLE <<< 4) ∧
    selectedAfter none (bteMpuWriteWithChromaKey_setup c self des_addr
        des_image_width des_x des_y width height chromakey_color) = some RA8876_MRWDP := by
  refine ⟨?_, ?_⟩
  · simp only [bteMpuWriteWithChromaKey_setup, hbg, selectedAfter_setBackgroundColor, registerWrites_append, selectedAfter_append,
    registerWrites_bte_Source0_MemoryStartAddr, selectedAfter_bte_Source0_MemoryStartAddr,
    registerWrites_bte_Source0_ImageWidth, selectedAfter_bte_Source0_ImageWidth,
    registerWrites_bte_Source0_WindowStartXY, selectedAfter_bte_Source0_WindowStartXY,
    registerWrites_bte_Source1_MemoryStartAddr, selectedAfter_bte_Source1_MemoryStartAddr,
    registerWrites_bte_Source1_ImageWidth, selectedAfter_bte_Source1_ImageWidth,
    registerWrites_bte_Source1_WindowStartXY, selectedAfter_bte_Source1_WindowStartXY,
    registerWrites_bte_DestinationMemoryStartAddr, selectedAfter_bte_DestinationMemoryStartAddr,
    registerWrites_bte_DestinationImageWidth, selectedAfter_bte_DestinationImageWidth,
    registerWrites_bte_DestinationWindowStartXY, selectedAfter_bte_DestinationWindowStartXY,
    registerWrites_bte_WindowSize, selectedAfter_bte_WindowSize,
    registerWrites_lcdRegDataWrite, selectedAfter_lcdRegDataWrite,
    registerWrites_check2dBusy, selectedAfter_check2dBusy, registerWrites_checkWriteFifoEmpty,
    List.append_nil,
    (registerWrites_ramAccessPrepare _).1, (registerWrites_ramAccessPrepare _).2,
    source0Writes, source1Writes, destinationWrites, sizeWrites, controlWrites,
    foregroundWrites, backgroundWrites,
    List.cons_append, List.nil_append, List.singleton_append, List.append_assoc]
    rfl
  · simp only [bteMpuWriteWithChromaKey_setup, selectedAfter_append,
      (registerWrites_ramAccessPrepare _).2]

theorem registerWrites_bteMpuWriteWithChromaKey (c : Codes) (self : Ra8876_Lite)
    (des_addr des_image_width des_x des_y width height : Nat) (chromakey_color : Color)
    (data : Nat → Nat)
    (r g b : Nat)
    (hbg : ∀ sel, registerWrites sel (setBackgroundColor self chromakey_color)
      = [(RA8876_BGCR, r), (RA8876_BGCG, g), (RA8876_BGCB, b)]) :
    (bteMpuWriteWithChromaKey c self des_addr des_image_width des_x des_y width
        height chromakey_color data).map (registerWrites none)
      = if 0 < height ∧ 65536 ≤ width * 2 then none
        else some (destinationWrites des_addr des_image_width des_x des_y ++
          sizeWrites width height ++
          backgroundWrites r g b ++
          controlWrites c.RA8876_BTE_MPU_WRITE_WITH_CHROMA (c.RA8876_BTE_ENABLE <<< 4) ++
          portWrites data (height * (width * 2))) := by
  obtain ⟨hw, hs⟩ := registerWrites_bteMpuWriteWithChromaKey_setup c self des_addr
    des_image_width des_x des_y width height chromakey_color r g b hbg
  unfold bteMpuWriteWithChromaKey streamBytes
  by_cases h : 0 < height ∧ 65536 ≤ width * 2
  · simp only [h, and_self, if_true, Option.map]
  · simp only [h, if_false, Option.map, registerWrites_append, hw, hs,
      (registerWrites_portBytes RA8876_MRWDP data _).1, portWrites]

theorem registerWrites_bteMpuWriteWithChromaKey16 (c : Codes) (self : Ra8876_Lite)
    (des_addr des_image_width des_x des_y width height : Nat) (chromakey_color : Color)
    (data : Nat → Nat)
    (r g b : Nat)
    (hbg : ∀ sel, registerWrites sel (setBackgroundColor self chromakey_color)
      = [(RA8876_BGCR, r), (RA8876_BGCG, g), (RA8876_BGCB, b)]) :
    registerWrites none (bteMpuWriteWithChromaKey16 c self des_addr
        des_image_width des_x des_y width height chromakey_color data)
      = destinationWrites des_addr des_image_width des_x des_y ++
        sizeWrites width height ++
        backgroundWrites r g b ++
        controlWrites c.RA8876_BTE_MPU_WRITE_WITH_CHROMA (c.RA8876_BTE_ENABLE <<< 4) ++
        portWrites16 data (height * width) := by
  obtain ⟨hw, hs⟩ := registerWrites_bteMpuWriteWithChromaKey_setup c self des_addr
    des_image_width des_x des_y width height chromakey_color r g b hbg
  unfold bteMpuWriteWithChromaKey16 streamWords
  simp only [registerWrites_append, selectedAfter_append, hw, hs,
    (registerWrites_portWords RA8876_MRWDP data _).1, portWrites16]

theorem registerWrites_bteMpuWriteColorExpansion (c : Codes) (self : Ra8876_Lite)
    (status : Nat → Nat) (des_addr des_image_width des_x des_y width height : Nat)
    (foreground_color background_color : Color) (data : Nat → Nat)
    (fr fg fb br bg bb : Nat)
    (hfg : ∀ sel, registerWrites sel (setForegroundColor self foreground_color)
      = [(RA8876_FGCR, fr), (RA8876_FGCG, fg), (RA8876_FGCB, fb)])
    (hbg : ∀ sel, registerWrites sel (setBackgroundColor self background_color)
      = [(RA8876_BGCR, br), (RA8876_BGCG, bg), (RA8876_BGCB, bb)]) :
    (bteMpuWriteColorExpansion c self status des_addr des_image_width
        des_x des_y width height foreground_color background_color data).map
          (registerWrites none)
      = if 0 < height ∧ 65536 ≤ width / 8 then none
        else some (destinationWrites des_addr des_image_width des_x des_y ++
          sizeWrites width height ++
          foregroundWrites fr fg fb ++
          backgroundWrites br bg bb ++
          controlWrites
            (c.RA8876_BTE_ROP_BUS_WIDTH8 <<< 4 ||| c.RA8876_BTE_MPU_WRITE_COLOR_EXPANSION)
            (c.RA8876_BTE_ENABLE <<< 4) ++
          portWrites data (height * (width / 8))) := by
  unfold bteMpuWriteColorExpansion streamBytes
  by_cases h : 0 < height ∧ 65536 ≤ width / 8
  · simp only [h, and_self, if_true, Option.map]
  · simp only [h, if_false, Option.map, hfg, hbg, selectedAfter_setForegroundColor,
      selectedAfter_setBackgroundColor,
      (registerWrites_portBytes RA8876_MRWDP data _).1,
      (registerWrites_portBytes RA8876_MRWDP data _).2, portWrites, registerWrites_append, selectedAfter_append,
    registerWrites_bte_Source0_MemoryStartAddr, selectedAfter_bte_Source0_MemoryStartAddr,
    registerWrites_bte_Source0_ImageWidth, selectedAfter_bte_Source0_ImageWidth,
    registerWrites_bte_Source0_WindowStartXY, selectedAfter_bte_Source0_WindowStartXY,
    registerWrites_bte_Source1_MemoryStartAddr, selectedAfter_bte_Source1_MemoryStartAddr,
    registerWrites_bte_Source1_ImageWidth, selectedAfter_bte_Source1_ImageWidth,
    registerWrites_bte_Source1_WindowStartXY, selectedAfter_bte_Source1_WindowStartXY,
    registerWrites_bte_DestinationMemoryStartAddr, selectedAfter_bte_DestinationMemoryStartAddr,
    registerWrites_bte_DestinationImageWidth, selectedAfter_bte_DestinationImageWidth,
    registerWrites_bte_DestinationWindowStartXY, selectedAfter_bte_DestinationWindowStartXY,
    registerWrites_bte_WindowSize, selectedAfter_bte_WindowSize,
    registerWrites_lcdRegDataWrite, selectedAfter_lcdRegDataWrite,
    registerWrites_check2dBusy, selectedAfter_check2dBusy, registerWrites_checkWriteFifoEmpty,
    List.append_nil,
    (registerWrites_ramAccessPrepare _).1, (registerWrites_ramAccessPrepare _).2,
    source0Writes, source1Writes, destinationWrites, sizeWrites, controlWrites,
    foregroundWrites, backgroundWrites,
    List.cons_append, List.nil_append, List.singleton_append, List.append_assoc]
    rfl

theorem registerWrites_bteMpuWriteColorExpansionWithChromaKey (c : Codes)
    (self : Ra8876_Lite) (status : Nat → Nat)
    (des_addr des_image_width des_x des_y width height : Nat)
    (foreground_color background_color : Color) (data : Nat → Nat)
    (fr fg fb br bg bb : Nat)
    (hfg : ∀ sel, registerWrites sel (setForegroundColor self foreground_color)
      = [(RA8876_FGCR, fr), (RA8876_FGCG, fg), (RA8876_FGCB, fb)])
    (hbg : ∀ sel, registerWrites sel (setBackgroundColor self background_color)
      = [(RA8876_BGCR, br), (RA8876_BGCG, bg), (RA8876_BGCB, bb)]) :
    (bteMpuWriteColorExpansionWithChromaKey c self status des_addr
        des_image_width des_x des_y width height foreground_color background_color data).map
          (registerWrites none)
      = if foreground_color = background_color then some []
        else if 0 < height ∧ 65536 ≤ width / 8 then none
        else some (destinationWrites des_addr des_image_width des_x des_y ++
          sizeWrites width height ++
          foregroundWrites fr fg fb ++
          backgroundWrites br bg bb ++
          controlWrites
            (c.RA8876_BTE_ROP_BUS_WIDTH8 <<< 4 |||
              c.RA8876_BTE_MPU_WRITE_COLOR_EXPANSION_WITH_CHROMA)
            (c.RA8876_BTE_ENABLE <<< 4) ++
          portWrites data (height * (width / 8))) := by
  unfold bteMpuWriteColorExpansionWithChromaKey streamBytes
  by_cases he : foreground_color = background_color
  · simp only [he, if_true, Option.map, registerWrites]
  · by_cases h : 0 < height ∧ 65536 ≤ width / 8
    · simp only [he, h, and_self, if_true, if_false, Option.map]
    · simp only [he, h, if_false, Option.map, hfg, hbg, selectedAfter_setForegroundColor,
        selectedAfter_setBackgroundColor,
        (registerWrites_portBytes RA8876_MRWDP data _).1,
        (registerWrites_portBytes RA8876_MRWDP data _).2, portWrites, registerWrites_append, selectedAfter_append,
    registerWrites_bte_Source0_MemoryStartAddr, selectedAfter_bte_Source0_MemoryStartAddr,
    registerWrites_bte_Source0_ImageWidth, selectedAfter_bte_Source0_ImageWidth,
    registerWrites_bte_Source0_WindowStartXY, selectedAfter_bte_Source0_WindowStartXY,
    registerWrites_bte_Source1_MemoryStartAddr, selectedAfter_bte_Source1_MemoryStartAddr,
    registerWrites_bte_Source1_ImageWidth, selectedAfter_bte_Source1_ImageWidth,
    registerWrites_bte_Source1_WindowStartXY, selectedAfter_bte_Source1_WindowStartXY,
    registerWrites_bte_DestinationMemoryStartAddr, selectedAfter_bte_DestinationMemoryStartAddr,
    registerWrites_bte_DestinationImageWidth, selectedAfter_bte_DestinationImageWidth,
    registerWrites_bte_DestinationWindowStartXY, selectedAfter_bte_DestinationWindowStartXY,
    registerWrites_bte_WindowSize, selectedAfter_bte_WindowSize,
    registerWrites_lcdRegDataWrite, selectedAfter_lcdRegDataWrite,
    registerWrites_check2dBusy, selectedAfter_check2dBusy, registerWrites_checkWriteFifoEmpty,
    List.append_nil,
    (registerWrites_ramAccessPrepare _).1, (registerWrites_ramAccessPrepare _).2,
    source0Writes, source1Writes, destinationWrites, sizeWrites, controlWrites,
    foregroundWrites, backgroundWrites,
    List.cons_append, List.nil_append, List.singleton_append, List.append_assoc]
      rfl

theorem registerWrites_btePatternFill (c : Codes) (status : Nat → Nat)
    (p8x8or16x16 s0_addr s0_image_width s0_x s0_y des_addr des_image_width des_x des_y
      copy_width copy_height : Nat) :
    registerWrites none (btePatternFill c status p8x8or16x16 s0_addr s0_image_width s0_x
        s0_y des_addr des_image_width des_x des_y copy_width copy_height)
      = source0Writes s0_addr s0_image_width s0_x s0_y ++
        destinationWrites des_addr des_image_width des_x des_y ++
        sizeWrites copy_width copy_height ++
        controlWrites (c.RA8876_BTE_ROP_CODE_12 <<< 4 ||| c.RA8876_BTE_PATTERN_FILL_WITH_ROP)
          (if p8x8or16x16 = 0 then c.RA8876_BTE_ENABLE <<< 4 ||| c.RA8876_PATTERN_FORMAT8X8
            else c.RA8876_BTE_ENABLE <<< 4 ||| c.RA8876_PATTERN_FORMAT16X16) := by
  unfold btePatternFill
  by_cases hp : p8x8or16x16 = 0
  · simp only [hp, if_true, registerWrites_append, selectedAfter_append,
    registerWrites_bte_Source0_MemoryStartAddr, selectedAfter_bte_Source0_MemoryStartAddr,
    registerWrites_bte_Source0_ImageWidth, selectedAfter_bte_Source0_ImageWidth,
    registerWrites_bte_Source0_WindowStartXY, selectedAfter_bte_Source0_WindowStartXY,
    registerWrites_bte_Source1_MemoryStartAddr, selectedAfter_bte_Source1_MemoryStartAddr,
    registerWrites_bte_Source1_ImageWidth, selectedAfter_bte_Source1_ImageWidth,
    registerWrites_bte_Source1_WindowStartXY, selectedAfter_bte_Source1_WindowStartXY,
    registerWrites_bte_DestinationMemoryStartAddr, selectedAfter_bte_DestinationMemoryStartAddr,
    registerWrites_bte_DestinationImageWidth, selectedAfter_bte_DestinationImageWidth,
    registerWrites_bte_DestinationWindowStartXY, selectedAfter_bte_DestinationWindowStartXY,
    registerWrites_bte_WindowSize, selectedAfter_bte_WindowSize,
    registerWrites_lcdRegDataWrite, selectedAfter_lcdRegDataWrite,
    registerWrites_check2dBusy, selectedAfter_check2dBusy, registerWrites_checkWriteFifoEmpty,
    List.append_nil,
    (registerWrites_ramAccessPrepare _).1, (registerWrites_ramAccessPrepare _).2,
    source0Writes, source1Writes, destinationWrites, sizeWrites, controlWrites,
    foregroundWrites, backgroundWrites,
    List.cons_append, List.nil_append, List.singleton_append, List.append_assoc]
    rfl
  · simp only [hp, if_false, registerWrites_append, selectedAfter_append,
    registerWrites_bte_Source0_MemoryStartAddr, selectedAfter_bte_Source0_MemoryStartAddr,
    registerWrites_bte_Source0_ImageWidth, selectedAfter_bte_Source0_ImageWidth,
    registerWrites_bte_Source0_WindowStartXY, selectedAfter_bte_Source0_WindowStartXY,
    registerWrites_bte_Source1_MemoryStartAddr, selectedAfter_bte_Source1_MemoryStartAddr,
    registerWrites_bte_Source1_ImageWidth, selectedAfter_bte_Source1_ImageWidth,
    registerWrites_bte_Source1_WindowStartXY, selectedAfter_bte_Source1_WindowStartXY,
    registerWrites_bte_DestinationMemoryStartAddr, selectedAfter_bte_DestinationMemoryStartAddr,
    registerWrites_bte_DestinationImageWidth, selectedAfter_bte_DestinationImageWidth,
    registerWrites_bte_DestinationWindowStartXY, selectedAfter_bte_DestinationWindowStartXY,
    registerWrites_bte_WindowSize, selectedAfter_bte_WindowSize,
    registerWrites_lcdRegDataWrite, selectedAfter_lcdRegDataWrite,
    registerWrites_check2dBusy, selectedAfter_check2dBusy, registerWrites_checkWriteFifoEmpty,
    List.append_nil,
    (registerWrites_ramAccessPrepare _).1, (registerWrites_ramAccessPrepare _).2,
    source0Writes, source1Writes, destinationWrites, sizeWrites, controlWrites,
    foregroundWrites, backgroundWrites,
    List.cons_append, List.nil_append, List.singleton_append, List.append_assoc]
    rfl

theorem registerWrites_btePatternFillWithChromaKey (c : Codes) (self : Ra8876_Lite)
    (status : Nat → Nat)
    (p8x8or16x16 s0_addr s0_image_width s0_x s0_y des_addr des_image_width des_x des_y
      copy_width copy_height : Nat) (chromakey_color : Color)
    (r g b : Nat)
    (hbg : ∀ sel, registerWrites sel (setBackgroundColor self chromakey_color)
      = [(RA8876_BGCR, r), (RA8876_BGCG, g), (RA8876_BGCB, b)]) :
    registerWrites none (btePatternFillWithChromaKey c self status p8x8or16x16
        s0_addr s0_image_width s0_x s0_y des_addr des_image_width des_x des_y copy_width
        copy_height chromakey_color)
      = source0Writes s0_addr s0_image_width s0_x s0_y ++
        destinationWrites des_addr des_image_width des_x des_y ++
        sizeWrites copy_width copy_height ++
        backgroundWrites r g b ++
        controlWrites
          (c.RA8876_BTE_ROP_CODE_12 <<< 4 ||| c.RA8876_BTE_PATTERN_FILL_WITH_CHROMA)
          (if p8x8or16x16 = 0 then c.RA8876_BTE_ENABLE <<< 4 ||| c.RA8876_PATTERN_FORMAT8X8
            else c.RA8876_BTE_ENABLE <<< 4 ||| c.RA8876_PATTERN_FORMAT16X16) := by
  unfold btePatternFillWithChromaKey
  by_cases hp : p8x8or16x16 = 0
  · simp only [hp, if_true, hbg, selectedAfter_setBackgroundColor, registerWrites_append, selectedAfter_append,
    registerWrites_bte_Source0_MemoryStartAddr, selectedAfter_bte_Source0_MemoryStartAddr,
    registerWrites_bte_Source0_ImageWidth, selectedAfter_bte_Source0_ImageWidth,
    registerWrites_bte_Source0_WindowStartXY, selectedAfter_bte_Source0_WindowStartXY,
    registerWrites_bte_Source1_MemoryStartAddr, selectedAfter_bte_Source1_MemoryStartAddr,
    registerWrites_bte_Source1_ImageWidth, selectedAfter_bte_Source1_ImageWidth,
    registerWrites_bte_Source1_WindowStartXY, selectedAfter_bte_Source1_WindowStartXY,
    registerWrites_bte_DestinationMemoryStartAddr, selectedAfter_bte_DestinationMemoryStartAddr,
    registerWrites_bte_DestinationImageWidth, selectedAfter_bte_DestinationImageWidth,
    registerWrites_bte_DestinationWindowStartXY, selectedAfter_bte_DestinationWindowStartXY,
    registerWrites_bte_WindowSize, selectedAfter_bte_WindowSize,
    registerWrites_lcdRegDataWrite, selectedAfter_lcdRegDataWrite,
    registerWrites_check2dBusy, selectedAfter_check2dBusy, registerWrites_checkWriteFifoEmpty,
    List.append_nil,
    (registerWrites_ramAccessPrepare _).1, (registerWrites_ramAccessPrepare _).2,
    source0Writes, source1Writes, destinationWrites, sizeWrites, controlWrites,
    foregroundWrites, backgroundWrites,
    List.cons_append, List.nil_append, List.singleton_append, List.append_assoc]
    rfl
  · simp only [hp, if_false, hbg, selectedAfter_setBackgroundColor, registerWrites_append, selectedAfter_append,
    registerWrites_bte_Source0_MemoryStartAddr, selectedAfter_bte_Source0_MemoryStartAddr,
    registerWrites_bte_Source0_ImageWidth, selectedAfter_bte_Source0_ImageWidth,
    registerWrites_bte_Source0_WindowStartXY, selectedAfter_bte_Source0_WindowStartXY,
    registerWrites_bte_Source1_MemoryStartAddr, selectedAfter_bte_Source1_MemoryStartAddr,
    registerWrites_bte_Source1_ImageWidth, selectedAfter_bte_Source1_ImageWidth,
    registerWrites_bte_Source1_WindowStartXY, selectedAfter_bte_Source1_WindowStartXY,
    registerWrites_bte_DestinationMemoryStartAddr, selectedAfter_bte_DestinationMemoryStartAddr,
    registerWrites_bte_DestinationImageWidth, selectedAfter_bte_DestinationImageWidth,
    registerWrites_bte_DestinationWindowStartXY, selectedAfter_bte_DestinationWindowStartXY,
    registerWrites_bte_WindowSize, selectedAfter_bte_WindowSize,
    registerWrites_lcdRegDataWrite, selectedAfter_lcdRegDataWrite,
    registerWrites_check2dBusy, selectedAfter_check2dBusy, registerWrites_checkWriteFifoEmpty,
    List.append_nil,
    (registerWrites_ramAccessPrepare _).1, (registerWrites_ramAccessPrepare _).2,
    source0Writes, source1Writes, destinationWrites, sizeWrites, controlWrites,
    foregroundWrites, backgroundWrites,
    List.cons_append, List.nil_append, List.singleton_append, List.append_assoc]
    rfl

theorem registerWrites_bteMemoryCopyWithOpacity (c : Codes) (status : Nat → Nat)
    (s0_addr s0_image_width s0_x s0_y s1_addr s1_image_width s1_x s1_y
      des_addr des_image_width des_x des_y copy_width copy_height alpha : Nat) :
    registerWrites none (bteMemoryCopyWithOpacity c status s0_addr s0_image_width s0_x s0_y
        s1_addr s1_image_width s1_x s1_y des_addr des_image_width des_x des_y copy_width
        copy_height alpha)
      = source0Writes s0_addr s0_image_width s0_x s0_y ++
        source1Writes s1_addr s1_image_width s1_x s1_y ++
        destinationWrites des_addr des_image_width des_x des_y ++
        sizeWrites copy_width copy_height ++
        [(RA8876_BTE_CTRL1, c.RA8876_BTE_MEMORY_COPY_WITH_OPACITY % 256),
          (RA8876_APB_CTRL, (if alpha > 32 then 32 else alpha) % 256),
          (RA8876_BTE_CTRL0, (c.RA8876_BTE_ENABLE <<< 4) % 256)] := by
  simp only [bteMemoryCopyWithOpacity, registerWrites_append, selectedAfter_append,
    registerWrites_bte_Source0_MemoryStartAddr, selectedAfter_bte_Source0_MemoryStartAddr,
    registerWrites_bte_Source0_ImageWidth, selectedAfter_bte_Source0_ImageWidth,
    registerWrites_bte_Source0_WindowStartXY, selectedAfter_bte_Source0_WindowStartXY,
    registerWrites_bte_Source1_MemoryStartAddr, selectedAfter_bte_Source1_MemoryStartAddr,
    registerWrites_bte_Source1_ImageWidth, selectedAfter_bte_Source1_ImageWidth,
    registerWrites_bte_Source1_WindowStartXY, selectedAfter_bte_Source1_WindowStartXY,
    registerWrites_bte_DestinationMemoryStartAddr, selectedAfter_bte_DestinationMemoryStartAddr,
    registerWrites_bte_DestinationImageWidth, selectedAfter_bte_DestinationImageWidth,
    registerWrites_bte_DestinationWindowStartXY, selectedAfter_bte_DestinationWindowStartXY,
    registerWrites_bte_WindowSize, selectedAfter_bte_WindowSize,
    registerWrites_lcdRegDataWrite, selectedAfter_lcdRegDataWrite,
    registerWrites_check2dBusy, selectedAfter_check2dBusy, registerWrites_checkWriteFifoEmpty,
    List.append_nil,
    (registerWrites_ramAccessPrepare _).1, (registerWrites_ramAccessPrepare _).2,
    source0Writes, source1Writes, destinationWrites, sizeWrites, controlWrites,
    foregroundWrites, backgroundWrites,
    List.cons_append, List.nil_append, List.singleton_append, List.append_assoc]
  rfl

theorem registerWrites_bteSolidFill (c : Codes) (self : Ra8876_Lite) (status : Nat → Nat)
    (des_addr des_x des_y bte_width bte_height : Nat) (foreground_color : Color)
    (r g b : Nat)
    (hfg : ∀ sel, registerWrites sel (setForegroundColor self foreground_color)
      = [(RA8876_FGCR, r), (RA8876_FGCG, g), (RA8876_FGCB, b)]) :
    registerWrites none (bteSolidFill c self status des_addr des_x des_y
        bte_width bte_height foreground_color)
      = destinationWrites des_addr self._canvasWidth des_x des_y ++
        foregroundWrites r g b ++
        sizeWrites bte_width bte_height ++
        controlWrites c.RA8876_BTE_SOLID_FILL (c.RA8876_BTE_ENABLE <<< 4) := by
  simp only [bteSolidFill, hfg, selectedAfter_setForegroundColor, registerWrites_append, selectedAfter_append,
    registerWrites_bte_Source0_MemoryStartAddr, selectedAfter_bte_Source0_MemoryStartAddr,
    registerWrites_bte_Source0_ImageWidth, selectedAfter_bte_Source0_ImageWidth,
    registerWrites_bte_Source0_WindowStartXY, selectedAfter_bte_Source0_WindowStartXY,
    registerWrites_bte_Source1_MemoryStartAddr, selectedAfter_bte_Source1_MemoryStartAddr,
    registerWrites_bte_Source1_ImageWidth, selectedAfter_bte_Source1_ImageWidth,
    registerWrites_bte_Source1_WindowStartXY, selectedAfter_bte_Source1_WindowStartXY,
    registerWrites_bte_DestinationMemoryStartAddr, selectedAfter_bte_DestinationMemoryStartAddr,
    registerWrites_bte_DestinationImageWidth, selectedAfter_bte_DestinationImageWidth,
    registerWrites_bte_DestinationWindowStartXY, selectedAfter_bte_DestinationWindowStartXY,
    registerWrites_bte_WindowSize, selectedAfter_bte_WindowSize,
    registerWrites_lcdRegDataWrite, selectedAfter_lcdRegDataWrite,
    registerWrites_check2dBusy, selectedAfter_check2dBusy, registerWrites_checkWriteFifoEmpty,
    List.append_nil,
    (registerWrites_ramAccessPrepare _).1, (registerWrites_ramAccessPrepare _).2,
    source0Writes, source1Writes, destinationWrites, sizeWrites, controlWrites,
    foregroundWrites, backgroundWrites,
    List.cons_append, List.nil_append, List.singleton_append, List.append_assoc]
  rfl

/-! ## The BTE protocol -/

theorem bteProgrammed_with_port (L : List Nat) (n : Nat) (hL : BteProgrammed L)
    (hP : ∀ a ∈ L, bteOrderOk a RA8876_MRWDP = true) :
    BteProgrammed (L ++ List.replicate n RA8876_MRWDP) := by
  constructor
  · unfold BteProtocol
    rw [List.pairwise_append]
    refine ⟨hL.1, ?_, ?_⟩
    · rw [List.pairwise_replicate]
      right
      decide
    · intro a ha b hb
      rw [List.eq_of_mem_replicate hb]
      exact hP a ha
  · rw [List.count_append, hL.2, List.count_replicate]
    have : (RA8876_MRWDP == RA8876_BTE_CTRL0) = false := by decide
    simp [this]

theorem writtenRegisters_bteMpuWriteWithROP_setup (c : Codes)
    (s1_addr s1_image_width s1_x s1_y des_addr des_image_width des_x des_y
      width height rop_code : Nat) :
    writtenRegisters none (bteMpuWriteWithROP_setup c s1_addr s1_image_width s1_x s1_y
      des_addr des_image_width des_x des_y width height rop_code)
      = bteSourceRegisters.drop 10 ++ bteDestinationRegisters ++ bteSizeRegisters ++
        [RA8876_BTE_CTRL1, RA8876_BTE_CTRL0] := by
  simp only [bteMpuWriteWithROP_setup, writtenRegisters, registerWrites_append, selectedAfter_append,
    registerWrites_bte_Source1_MemoryStartAddr, selectedAfter_bte_Source1_MemoryStartAddr,
    registerWrites_bte_Source1_ImageWidth, selectedAfter_bte_Source1_ImageWidth,
    registerWrites_bte_Source1_WindowStartXY, selectedAfter_bte_Source1_WindowStartXY,
    registerWrites_bte_DestinationMemoryStartAddr, selectedAfter_bte_DestinationMemoryStartAddr,
    registerWrites_bte_DestinationImageWidth, selectedAfter_bte_DestinationImageWidth,
    registerWrites_bte_DestinationWindowStartXY, selectedAfter_bte_DestinationWindowStartXY,
    registerWrites_bte_WindowSize, selectedAfter_bte_WindowSize,
    writtenRegisters_setForegroundColor, selectedAfter_setForegroundColor,
    writtenRegisters_setBackgroundColor, selectedAfter_setBackgroundColor,
    registerWrites_lcdRegDataWrite, selectedAfter_lcdRegDataWrite,
    registerWrites_check2dBusy, selectedAfter_check2dBusy, registerWrites_checkWriteFifoEmpty,
    (registerWrites_ramAccessPrepare _).1, (registerWrites_ramAccessPrepare _).2,
    List.map_append, List.map_cons, List.map_nil, List.append_nil]
  rfl

theorem writtenRegisters_bteMpuWriteWithChromaKey_setup (c : Codes) (self : Ra8876_Lite)
    (des_addr des_image_width des_x des_y width height : Nat) (chromakey_color : Color) :
    writtenRegisters none (bteMpuWriteWithChromaKey_setup c self des_addr des_image_width
      des_x des_y width height chromakey_color)
      = bteDestinationRegisters ++ bteSizeRegisters ++
        [RA8876_BGCR, RA8876_BGCG, RA8876_BGCB] ++ [RA8876_BTE_CTRL1, RA8876_BTE_CTRL0] := by
  simp only [bteMpuWriteWithChromaKey_setup, writtenRegisters, registerWrites_append, selectedAfter_append,
    registerWrites_bte_Source1_MemoryStartAddr, selectedAfter_bte_Source1_MemoryStartAddr,
    registerWrites_bte_Source1_ImageWidth, selectedAfter_bte_Source1_ImageWidth,
    registerWrites_bte_Source1_WindowStartXY, selectedAfter_bte_Source1_WindowStartXY,
    registerWrites_bte_DestinationMemoryStartAddr, selectedAfter_bte_DestinationMemoryStartAddr,
    registerWrites_bte_DestinationImageWidth, selectedAfter_bte_DestinationImageWidth,
    registerWrites_bte_DestinationWindowStartXY, selectedAfter_bte_DestinationWindowStartXY,
    registerWrites_bte_WindowSize, selectedAfter_bte_WindowSize,
    writtenRegisters_setForegroundColor, selectedAfter_setForegroundColor,
    writtenRegisters_setBackgroundColor, selectedAfter_setBackgroundColor,
    registerWrites_lcdRegDataWrite, selectedAfter_lcdRegDataWrite,
    registerWrites_check2dBusy, selectedAfter_check2dBusy, registerWrites_checkWriteFifoEmpty,
    (registerWrites_ramAccessPrepare _).1, (registerWrites_ramAccessPrepare _).2,
    List.map_append, List.map_cons, List.map_nil, List.append_nil]
  rfl

theorem streamBytes_isSome (data : Nat → Nat) (height bound : Nat)
    (h : height = 0 ∨ bound < 65536) : (streamBytes data height bound).isSome = true := by
  unfold streamBytes
  rw [if_neg (by omega)]
  rfl

theorem registers_source0Writes (addr width x y : Nat) :
    (source0Writes addr width x y).map Prod.fst = bteSourceRegisters.take 10 := rfl

theorem registers_source1Writes (addr width x y : Nat) :
    (source1Writes addr width x y).map Prod.fst = bteSourceRegisters.drop 10 := rfl

theorem registers_destinationWrites (addr width x y : Nat) :
    (destinationWrites addr width x y).map Prod.fst = bteDestinationRegisters := rfl

theorem registers_sizeWrites (width height : Nat) :
    (sizeWrites width height).map Prod.fst = bteSizeRegisters := rfl

theorem registers_foregroundWrites (r g b : Nat) :
    (foregroundWrites r g b).map Prod.fst = [RA8876_FGCR, RA8876_FGCG, RA8876_FGCB] := rfl

theorem registers_backgroundWrites (r g b : Nat) :
    (backgroundWrites r g b).map Prod.fst = [RA8876_BGCR, RA8876_BGCG, RA8876_BGCB] := rfl

theorem registers_controlWrites (selector enable : Nat) :
    (controlWrites selector enable).map Prod.fst = [RA8876_BTE_CTRL1, RA8876_BTE_CTRL0] := rfl

theorem registers_portWrites (data : Nat → Nat) (n : Nat) :
    (portWrites data n).map Prod.fst = List.replicate n RA8876_MRWDP := by
  unfold portWrites
  induction n with
  | zero => rfl
  | succ n ih =>
    rw [List.range_succ, List.map_append, List.map_append, ih, List.replicate_succ']
    rfl

theorem registers_portWrites16 (data : Nat → Nat) (n : Nat) :
    (portWrites16 data n).map Prod.fst = List.replicate (n + n) RA8876_MRWDP := by
  unfold portWrites16
  induction n with
  | zero => rfl
  | succ n ih =>
    have e : n + 1 + (n + 1) = n + n + 1 + 1 := by omega
    rw [List.range_succ, List.flatMap_append, List.map_append, ih, e, List.replicate_succ',
      List.replicate_succ', List.append_assoc]
    rfl

/-- C13: every BTE primitive programs the engine in the order of the protocol, and writes
every register of the order. For each primitive the register writes of the call are exactly:
the source descriptor(s) (start address, image width, window start), then the destination
descriptor, then the transfer size, then the operation selector `RA8876_BTE_CTRL1`, then the
enable register `RA8876_BTE_CTRL0` (with the colour registers, and the alpha register of
`bteMemoryCopyWithOpacity`, before the enable write), and after the enable write nothing but
the pixel data at the memory port; the registers of this list follow the BTE protocol with the
enable register written once. The MPU writes that stream bytes do not return when a line has
65536 bytes or more; their register programming (`_setup`) is as stated in every call.
`bteMpuWriteColorExpansionWithChromaKey` with equal colours writes nothing. -/
theorem bte_primitives_follow_protocol (c : Codes) (self : Ra8876_Lite) (status : Nat → Nat) :
    (∀ s0_addr s0_image_width s0_x s0_y s1_addr s1_image_width s1_x s1_y des_addr
        des_image_width des_x des_y copy_width copy_height rop_code,
      ProgramsEngine
        (registerWrites none (bteMemoryCopyWithROP c status s0_addr s0_image_width s0_x s0_y
          s1_addr s1_image_width s1_x s1_y des_addr des_image_width des_x des_y copy_width
          copy_height rop_code))
        (source0Writes s0_addr s0_image_width s0_x s0_y ++
          source1Writes s1_addr s1_image_width s1_x s1_y ++
          destinationWrites des_addr des_image_width des_x des_y ++
          sizeWrites copy_width copy_height ++
          controlWrites (rop_code <<< 4 ||| c.RA8876_BTE_MEMORY_COPY_WITH_ROP)
            (c.RA8876_BTE_ENABLE <<< 4))) ∧
    (∀ s0_addr s0_image_width s0_x s0_y des_addr des_image_width des_x des_y copy_width
        copy_height chromakey_color, ∃ r g b,
      ProgramsEngine
        (registerWrites none (bteMemoryCopyWithChromaKey c self status s0_addr
          s0_image_width s0_x s0_y des_addr des_image_width des_x des_y copy_width
          copy_height chromakey_color))
        (source0Writes s0_addr s0_image_width s0_x s0_y ++
          destinationWrites des_addr des_image_width des_x des_y ++
          sizeWrites copy_width copy_height ++
          backgroundWrites r g b ++
          controlWrites c.RA8876_BTE_MEMORY_COPY_WITH_CHROMA (c.RA8876_BTE_ENABLE <<< 4))) ∧
    (∀ s1_addr s1_image_width s1_x s1_y des_addr des_image_width des_x des_y width height
        rop_code data,
      ProgramsEngine
        (registerWrites none (bteMpuWriteWithROP_setup c s1_addr s1_image_width s1_x s1_y
          des_addr des_image_width des_x des_y width height rop_code))
        (source1Writes s1_addr s1_image_width s1_x s1_y ++
          destinationWrites des_addr des_image_width des_x des_y ++
          sizeWrites width height ++
          controlWrites (rop_code <<< 4 ||| c.RA8876_BTE_MPU_WRITE_WITH_ROP)
            (c.RA8876_BTE_ENABLE <<< 4)) ∧
      ProgramsEngineUnless (0 < height ∧ 65536 ≤ width * 2)
        ((bteMpuWriteWithROP c s1_addr s1_image_width s1_x s1_y des_addr des_image_width
          des_x des_y width height rop_code data).map (registerWrites none))
        (source1Writes s1_addr s1_image_width s1_x s1_y ++
          destinationWrites des_addr des_image_width des_x des_y ++
          sizeWrites width height ++
          controlWrites (rop_code <<< 4 ||| c.RA8876_BTE_MPU_WRITE_WITH_ROP)
            (c.RA8876_BTE_ENABLE <<< 4) ++
          portWrites data (height * (width * 2))) ∧
      ProgramsEngine
        (registerWrites none (bteMpuWriteWithROP16 c status s1_addr s1_image_width s1_x s1_y
          des_addr des_image_width des_x des_y width height rop_code data))
        (source1Writes s1_addr s1_image_width s1_x s1_y ++
          destinationWrites des_addr des_image_width des_x des_y ++
          sizeWrites width height ++
          controlWrites (rop_code <<< 4 ||| c.RA8876_BTE_MPU_WRITE_WITH_ROP)
            (c.RA8876_BTE_ENABLE <<< 4) ++
          portWrites16 data (height * width))) ∧
    (∀ des_addr des_image_width des_x des_y width height chromakey_color data, ∃ r g b,
      ProgramsEngine
        (registerWrites none (bteMpuWriteWithChromaKey_setup c self des_addr des_image_width
          des_x des_y width height chromakey_color))
        (destinationWrites des_addr des_image_width des_x des_y ++
          sizeWrites width height ++
          backgroundWrites r g b ++
          controlWrites c.RA8876_BTE_MPU_WRITE_WITH_CHROMA (c.RA8876_BTE_ENABLE <<< 4)) ∧
      ProgramsEngineUnless (0 < height ∧ 65536 ≤ width * 2)
        ((bteMpuWriteWithChromaKey c self des_addr des_image_width des_x des_y width height
          chromakey_color data).map (registerWrites none))
        (destinationWrites des_addr des_image_width des_x des_y ++
          sizeWrites width height ++
          backgroundWrites r g b ++
          controlWrites c.RA8876_BTE_MPU_WRITE_WITH_CHROMA (c.RA8876_BTE_ENABLE <<< 4) ++
          portWrites data (height * (width * 2))) ∧
      ProgramsEngine
        (registerWrites none (bteMpuWriteWithChromaKey16 c self des_addr des_image_width
          des_x des_y width height chromakey_color data))
        (destinationWrites des_addr des_image_width des_x des_y ++
          sizeWrites width height ++
          backgroundWrites r g b ++
          controlWrites c.RA8876_BTE_MPU_WRITE_WITH_CHROMA (c.RA8876_BTE_ENABLE <<< 4) ++
          portWrites16 data (height * width))) ∧
    (∀ des_addr des_image_width des_x des_y width height foreground_color background_color
        data, ∃ fr fg fb br bg bb,
      ProgramsEngineUnless (0 < height ∧ 65536 ≤ width / 8)
        ((bteMpuWriteColorExpansion c self status des_addr des_image_width des_x des_y width
          height foreground_color background_color data).map (registerWrites none))
        (destinationWrites des_addr des_image_width des_x des_y ++
          sizeWrites width height ++
          foregroundWrites fr fg fb ++
          backgroundWrites br bg bb ++
          controlWrites
            (c.RA8876_BTE_ROP_BUS_WIDTH8 <<< 4 ||| c.RA8876_BTE_MPU_WRITE_COLOR_EXPANSION)
            (c.RA8876_BTE_ENABLE <<< 4) ++
          portWrites data (height * (width / 8))) ∧
      (foreground_color = background_color →
        bteMpuWriteColorExpansionWithChromaKey c self status des_addr des_image_width des_x
          des_y width height foreground_color background_color data = some []) ∧
      (foreground_color ≠ background_color →
        ProgramsEngineUnless (0 < height ∧ 65536 ≤ width / 8)
          ((bteMpuWriteColorExpansionWithChromaKey c self status des_addr des_image_width
            des_x des_y width height foreground_color background_color data).map
              (registerWrites none))
          (destinationWrites des_addr des_image_width des_x des_y ++
            sizeWrites width height ++
            foregroundWrites fr fg fb ++
            backgroundWrites br bg bb ++
            controlWrites
              (c.RA8876_BTE_ROP_BUS_WIDTH8 <<< 4 |||
                c.RA8876_BTE_MPU_WRITE_COLOR_EXPANSION_WITH_CHROMA)
              (c.RA8876_BTE_ENABLE <<< 4) ++
            portWrites data (height * (width / 8))))) ∧
    (∀ p8x8or16x16 s0_addr s0_image_width s0_x s0_y des_addr des_image_width des_x des_y
        copy_width copy_height chromakey_color, ∃ r g b,
      ProgramsEngine
        (registerWrites none (btePatternFill c status p8x8or16x16 s0_addr s0_image_width
          s0_x s0_y des_addr des_image_width des_x des_y copy_width copy_height))
        (source0Writes s0_addr s0_image_width s0_x s0_y ++
          destinationWrites des_addr des_image_width des_x des_y ++
          sizeWrites copy_width copy_height ++
          controlWrites
            (c.RA8876_BTE_ROP_CODE_12 <<< 4 ||| c.RA8876_BTE_PATTERN_FILL_WITH_ROP)
            (if p8x8or16x16 = 0 then c.RA8876_BTE_ENABLE <<< 4 ||| c.RA8876_PATTERN_FORMAT8X8
              else c.RA8876_BTE_ENABLE <<< 4 ||| c.RA8876_PATTERN_FORMAT16X16)) ∧
      ProgramsEngine
        (registerWrites none (btePatternFillWithChromaKey c self status p8x8or16x16 s0_addr
          s0_image_width s0_x s0_y des_addr des_image_width des_x des_y copy_width
          copy_height chromakey_color))
        (source0Writes s0_addr s0_image_width s0_x s0_y ++
          destinationWrites des_addr des_image_width des_x des_y ++
          sizeWrites copy_width copy_height ++
          backgroundWrites r g b ++
          controlWrites
            (c.RA8876_BTE_ROP_CODE_12 <<< 4 ||| c.RA8876_BTE_PATTERN_FILL_WITH_CHROMA)
            (if p8x8or16x16 = 0 then c.RA8876_BTE_ENABLE <<< 4 ||| c.RA8876_PATTERN_FORMAT8X8
              else c.RA8876_BTE_ENABLE <<< 4 ||| c.RA8876_PATTERN_FORMAT16X16))) ∧
    (∀ s0_addr s0_image_width s0_x s0_y s1_addr s1_image_width s1_x s1_y des_addr
        des_image_width des_x des_y copy_width copy_height alpha,
      ProgramsEngine
        (registerWrites none (bteMemoryCopyWithOpacity c status s0_addr s0_image_width s0_x
          s0_y s1_addr s1_image_width s1_x s1_y des_addr des_image_width des_x des_y
          copy_width copy_height alpha))
        (source0Writes s0_addr s0_image_width s0_x s0_y ++
          source1Writes s1_addr s1_image_width s1_x s1_y ++
          destinationWrites des_addr des_image_width des_x des_y ++
          sizeWrites copy_width copy_height ++
          [(RA8876_BTE_CTRL1, c.RA8876_BTE_MEMORY_COPY_WITH_OPACITY % 256),
            (RA8876_APB_CTRL, (if alpha > 32 then 32 else alpha) % 256),
            (RA8876_BTE_CTRL0, (c.RA8876_BTE_ENABLE <<< 4) % 256)])) ∧
    (∀ des_addr des_x des_y bte_width bte_height foreground_color, ∃ r g b,
      ProgramsEngine
        (registerWrites none (bteSolidFill c self status des_addr des_x des_y bte_width
          bte_height foreground_color))
        (destinationWrites des_addr self._canvasWidth des_x des_y ++
          foregroundWrites r g b ++
          sizeWrites bte_width bte_height ++
          controlWrites c.RA8876_BTE_SOLID_FILL (c.RA8876_BTE_ENABLE <<< 4))) := by
  refine ⟨?_, ?_, ?_, ?_, ?_, ?_, ?_, ?_⟩
  · intros
    refine ⟨registerWrites_bteMemoryCopyWithROP _ _ _ _ _ _ _ _ _ _ _ _ _ _ _ _ _, ?_⟩
    simp only [registers_source0Writes, registers_source1Writes, registers_destinationWrites,
      registers_sizeWrites, registers_foregroundWrites, registers_backgroundWrites,
      registers_controlWrites, registers_portWrites, registers_portWrites16,
      List.map_append, List.map_cons, List.map_nil]
    decide
  · intro s0_addr s0_image_width s0_x s0_y des_addr des_image_width des_x des_y copy_width
      copy_height chromakey_color
    obtain ⟨r, g, b, hbg⟩ := registerWrites_setBackgroundColor_values self chromakey_color
    refine ⟨r, g, b, registerWrites_bteMemoryCopyWithChromaKey c self status s0_addr
      s0_image_width s0_x s0_y des_addr des_image_width des_x des_y copy_width copy_height
      chromakey_color r g b hbg, ?_⟩
    simp only [registers_source0Writes, registers_source1Writes, registers_destinationWrites,
      registers_sizeWrites, registers_foregroundWrites, registers_backgroundWrites,
      registers_controlWrites, registers_portWrites, registers_portWrites16,
      List.map_append, List.map_cons, List.map_nil]
    decide
  · intro s1_addr s1_image_width s1_x s1_y des_addr des_image_width des_x des_y width height
      rop_code data
    refine ⟨⟨(registerWrites_bteMpuWriteWithROP_setup c s1_addr s1_image_width s1_x s1_y
        des_addr des_image_width des_x des_y width height rop_code).1, ?_⟩,
      ⟨registerWrites_bteMpuWriteWithROP c s1_addr s1_image_width s1_x s1_y des_addr
        des_image_width des_x des_y width height rop_code data, ?_⟩,
      ⟨registerWrites_bteMpuWriteWithROP16 c status s1_addr s1_image_width s1_x s1_y des_addr
        des_image_width des_x des_y width height rop_code data, ?_⟩⟩
    · simp only [registers_source0Writes, registers_source1Writes, registers_destinationWrites,
      registers_sizeWrites, registers_foregroundWrites, registers_backgroundWrites,
      registers_controlWrites, registers_portWrites, registers_portWrites16,
      List.map_append, List.map_cons, List.map_nil]
      decide
    · simp only [registers_source0Writes, registers_source1Writes, registers_destinationWrites,
      registers_sizeWrites, registers_foregroundWrites, registers_backgroundWrites,
      registers_controlWrites, registers_portWrites, registers_portWrites16,
      List.map_append, List.map_cons, List.map_nil]
      exact bteProgrammed_with_port _ _ (by decide) (by decide)
    · simp only [registers_source0Writes, registers_source1Writes, registers_destinationWrites,
      registers_sizeWrites, registers_foregroundWrites, registers_backgroundWrites,
      registers_controlWrites, registers_portWrites, registers_portWrites16,
      List.map_append, List.map_cons, List.map_nil]
      exact bteProgrammed_with_port _ _ (by decide) (by decide)
  · intro des_addr des_image_width des_x des_y width height chromakey_color data
    obtain ⟨r, g, b, hbg⟩ := registerWrites_setBackgroundColor_values self chromakey_color
    refine ⟨r, g, b, ⟨(registerWrites_bteMpuWriteWithChromaKey_setup c self des_addr
        des_image_width des_x des_y width height chromakey_color r g b hbg).1, ?_⟩,
      ⟨registerWrites_bteMpuWriteWithChromaKey c self des_addr des_image_width des_x des_y
        width height chromakey_color data r g b hbg, ?_⟩,
      ⟨registerWrites_bteMpuWriteWithChromaKey16 c self des_addr des_image_width des_x des_y
        width height chromakey_color data r g b hbg, ?_⟩⟩
    · simp only [registers_source0Writes, registers_source1Writes, registers_destinationWrites,
      registers_sizeWrites, registers_foregroundWrites, registers_backgroundWrites,
      registers_controlWrites, registers_portWrites, registers_portWrites16,
      List.map_append, List.map_cons, List.map_nil]
      decide
    · simp only [registers_source0Writes, registers_source1Writes, registers_destinationWrites,
      registers_sizeWrites, registers_foregroundWrites, registers_backgroundWrites,
      registers_controlWrites, registers_portWrites, registers_portWrites16,
      List.map_append, List.map_cons, List.map_nil]
      exact bteProgrammed_with_port _ _ (by decide) (by decide)
    · simp only [registers_source0Writes, registers_source1Writes, registers_destinationWrites,
      registers_sizeWrites, registers_foregroundWrites, registers_backgroundWrites,
      registers_controlWrites, registers_portWrites, registers_portWrites16,
      List.map_append, List.map_cons, List.map_nil]
      exact bteProgrammed_with_port _ _ (by decide) (by decide)
  · intro des_addr des_image_width des_x des_y width height foreground_color background_color
      data
    obtain ⟨fr, fg, fb, hfg⟩ := registerWrites_setForegroundColor_values self foreground_color
    obtain ⟨br, bg, bb, hbg⟩ := registerWrites_setBackgroundColor_values self background_color
    refine ⟨fr, fg, fb, br, bg, bb, ⟨registerWrites_bteMpuWriteColorExpansion c self status
        des_addr des_image_width des_x des_y width height foreground_color background_color
        data fr fg fb br bg bb hfg hbg, ?_⟩, ?_, ?_⟩
    · simp only [registers_source0Writes, registers_source1Writes, registers_destinationWrites,
      registers_sizeWrites, registers_foregroundWrites, registers_backgroundWrites,
      registers_controlWrites, registers_portWrites, registers_portWrites16,
      List.map_append, List.map_cons, List.map_nil]
      exact bteProgrammed_with_port _ _ (by decide) (by decide)
    · intro he
      unfold bteMpuWriteColorExpansionWithChromaKey
      rw [if_pos he]
    · intro hne
      have h := registerWrites_bteMpuWriteColorExpansionWithChromaKey c self status
        des_addr des_image_width des_x des_y width height foreground_color background_color
        data fr fg fb br bg bb hfg hbg
      rw [if_neg hne] at h
      refine ⟨h, ?_⟩
      simp only [registers_source0Writes, registers_source1Writes, registers_destinationWrites,
      registers_sizeWrites, registers_foregroundWrites, registers_backgroundWrites,
      registers_controlWrites, registers_portWrites, registers_portWrites16,
      List.map_append, List.map_cons, List.map_nil]
      exact bteProgrammed_with_port _ _ (by decide) (by decide)
  · intro p8x8or16x16 s0_addr s0_image_width s0_x s0_y des_addr des_image_width des_x des_y
      copy_width copy_height chromakey_color
    obtain ⟨r, g, b, hbg⟩ := registerWrites_setBackgroundColor_values self chromakey_color
    refine ⟨r, g, b, ⟨registerWrites_btePatternFill c status p8x8or16x16 s0_addr
        s0_image_width s0_x s0_y des_addr des_image_width des_x des_y copy_width copy_height,
        ?_⟩,
      ⟨registerWrites_btePatternFillWithChromaKey c self status p8x8or16x16 s0_addr
        s0_image_width s0_x s0_y des_addr des_image_width des_x des_y copy_width copy_height
        chromakey_color r g b hbg, ?_⟩⟩
    · simp only [registers_source0Writes, registers_source1Writes, registers_destinationWrites,
      registers_sizeWrites, registers_foregroundWrites, registers_backgroundWrites,
      registers_controlWrites, registers_portWrites, registers_portWrites16,
      List.map_append, List.map_cons, List.map_nil]
      decide
    · simp only [registers_source0Writes, registers_source1Writes, registers_destinationWrites,
      registers_sizeWrites, registers_foregroundWrites, registers_backgroundWrites,
      registers_controlWrites, registers_portWrites, registers_portWrites16,
      List.map_append, List.map_cons, List.map_nil]
      decide
  · intros
    refine ⟨registerWrites_bteMemoryCopyWithOpacity _ _ _ _ _ _ _ _ _ _ _ _ _ _ _ _ _, ?_⟩
    simp only [registers_source0Writes, registers_source1Writes, registers_destinationWrites,
      registers_sizeWrites, registers_foregroundWrites, registers_backgroundWrites,
      registers_controlWrites, registers_portWrites, registers_portWrites16,
      List.map_append, List.map_cons, List.map_nil]
    decide
  · intro des_addr des_x des_y bte_width bte_height foreground_color
    obtain ⟨r, g, b, hfg⟩ := registerWrites_setForegroundColor_values self foreground_color
    refine ⟨r, g, b, registerWrites_bteSolidFill c self status des_addr des_x des_y
      bte_width bte_height foreground_color r g b hfg, ?_⟩
    simp only [registers_source0Writes, registers_source1Writes, registers_destinationWrites,
      registers_sizeWrites, registers_foregroundWrites, registers_backgroundWrites,
      registers_controlWrites, registers_portWrites, registers_portWrites16,
      List.map_append, List.map_cons, List.map_nil]
    decide

/-! ## Opacity and DMA -/

theorem le_bytes32 (x : Nat) (h : x < 4294967296) :
    x % 256 + 256 * ((x >>> 8) % 256) + 65536 * ((x >>> 16) % 256)
      + 16777216 * ((x >>> 24) % 256) = x := by
  simp only [Nat.shiftRight_eq_div_pow]
  norm_num
  omega

theorem le_bytes16 (x : Nat) (h : x < 65536) :
    x % 256 + 256 * ((x >>> 8) % 256) = x := by
  simp only [Nat.shiftRight_eq_div_pow]
  norm_num
  omega

/-- C18: for every 8-bit `alpha`, `bteMemoryCopyWithOpacity` writes the alpha-blending
register `RA8876_APB_CTRL` once, with the value `min alpha 32`: `alpha = 0` programs 0 and
every `alpha ≥ 32` programs 32. -/
theorem bteMemoryCopyWithOpacity_alpha (c : Codes) (status : Nat → Nat)
    (s0_addr s0_image_width s0_x s0_y s1_addr s1_image_width s1_x s1_y
      des_addr des_image_width des_x des_y copy_width copy_height alpha : Nat)
    (h : alpha < 256) :
    (registerWrites none (bteMemoryCopyWithOpacity c status s0_addr s0_image_width s0_x s0_y
        s1_addr s1_image_width s1_x s1_y des_addr des_image_width des_x des_y copy_width
        copy_height alpha)).filter (fun w => w.1 = RA8876_APB_CTRL)
      = [(RA8876_APB_CTRL, min alpha 32)] ∧
    lastWrite (registerWrites none (bteMemoryCopyWithOpacity c status s0_addr s0_image_width
        s0_x s0_y s1_addr s1_image_width s1_x s1_y des_addr des_image_width des_x des_y
        copy_width copy_height alpha)) RA8876_APB_CTRL = some (min alpha 32) ∧
    (alpha = 0 →
      lastWrite (registerWrites none (bteMemoryCopyWithOpacity c status s0_addr
        s0_image_width s0_x s0_y s1_addr s1_image_width s1_x s1_y des_addr des_image_width
        des_x des_y copy_width copy_height alpha)) RA8876_APB_CTRL = some 0) ∧
    (32 ≤ alpha →
      lastWrite (registerWrites none (bteMemoryCopyWithOpacity c status s0_addr
        s0_image_width s0_x s0_y s1_addr s1_image_width s1_x s1_y des_addr des_image_width
        des_x des_y copy_width copy_height alpha)) RA8876_APB_CTRL = some 32) := by
  have hv : (if alpha > 32 then 32 else alpha) % 256 = min alpha 32 := by
    split <;> omega
  have hf : (registerWrites none (bteMemoryCopyWithOpacity c status s0_addr s0_image_width
        s0_x s0_y s1_addr s1_image_width s1_x s1_y des_addr des_image_width des_x des_y
        copy_width copy_height alpha)).filter (fun w => w.1 = RA8876_APB_CTRL)
      = [(RA8876_APB_CTRL, min alpha 32)] := by
    rw [← hv]
    simp only [bteMemoryCopyWithOpacity, registerWrites_append, selectedAfter_append,
    registerWrites_bte_Source0_MemoryStartAddr, selectedAfter_bte_Source0_MemoryStartAddr,
    registerWrites_bte_Source0_ImageWidth, selectedAfter_bte_Source0_ImageWidth,
    registerWrites_bte_Source0_WindowStartXY, selectedAfter_bte_Source0_WindowStartXY,
    registerWrites_bte_Source1_MemoryStartAddr, selectedAfter_bte_Source1_MemoryStartAddr,
    registerWrites_bte_Source1_ImageWidth, selectedAfter_bte_Source1_ImageWidth,
    registerWrites_bte_Source1_WindowStartXY, selectedAfter_bte_Source1_WindowStartXY,
    registerWrites_bte_DestinationMemoryStartAddr, selectedAfter_bte_DestinationMemoryStartAddr,
    registerWrites_bte_DestinationImageWidth, selectedAfter_bte_DestinationImageWidth,
    registerWrites_bte_DestinationWindowStartXY, selectedAfter_bte_DestinationWindowStartXY,
    registerWrites_bte_WindowSize, selectedAfter_bte_WindowSize,
    registerWrites_lcdRegDataWrite, selectedAfter_lcdRegDataWrite,
    registerWrites_check2dBusy, selectedAfter_check2dBusy, registerWrites_checkWriteFifoEmpty,
    List.append_nil,
      List.cons_append, List.nil_append, List.singleton_append]
    rfl
  have hl : lastWrite (registerWrites none (bteMemoryCopyWithOpacity c status s0_addr
        s0_image_width s0_x s0_y s1_addr s1_image_width s1_x s1_y des_addr des_image_width
        des_x des_y copy_width copy_height alpha)) RA8876_APB_CTRL = some (min alpha 32) := by
    unfold lastWrite
    rw [hf]
    rfl
  refine ⟨hf, hl, ?_, ?_⟩
  · intro h0
    rw [hl, h0]
    rfl
  · intro h32
    rw [hl, Nat.min_eq_right h32]

/-- C20: `dmaDataLinearTransfer` programs a flat destination and a byte count. With
`des_addr` a 32-bit address and `picture_width * picture_height * bytesPerPixel < 2^32`, the
bytes written to `RA8876_DMA_DX0`, `DX1`, `DY0`, `DY1` are the little-endian bytes of
`des_addr`, the bytes written to `RA8876_DMAW_WTH0`, `WTH1`, `HIGH0`, `HIGH1` are the
little-endian bytes of the byte count, each of these registers is written once, and the
write of `RA8876_DMA_START` to `RA8876_DMA_CTRL` is the last register write. -/
theorem dmaDataLinearTransfer_programs (c : Codes) (self : Ra8876_Lite) (status : Nat → Nat)
    (des_addr picture_width picture_height src_addr : Nat)
    (hd : des_addr < 4294967296)
    (hn : picture_width * picture_height * getColorDepth self._colorMode < 4294967296) :
    (registerWrites none (dmaDataLinearTransfer c self status des_addr picture_width
        picture_height src_addr)).filter
        (fun w => w.1 ∈ [RA8876_DMA_DX0, RA8876_DMA_DX1, RA8876_DMA_DY0, RA8876_DMA_DY1])
      = [(RA8876_DMA_DX0, des_addr % 256), (RA8876_DMA_DX1, des_addr / 256 % 256),
          (RA8876_DMA_DY0, des_addr / 65536 % 256),
          (RA8876_DMA_DY1, des_addr / 16777216 % 256)] ∧
    (registerWrites none (dmaDataLinearTransfer c self status des_addr picture_width
        picture_height src_addr)).filter
        (fun w => w.1 ∈ [RA8876_DMAW_WTH0, RA8876_DMAW_WTH1, RA8876_DMAW_HIGH0,
          RA8876_DMAW_HIGH1])
      = [(RA8876_DMAW_WTH0,
            picture_width * picture_height * getColorDepth self._colorMode % 256),
          (RA8876_DMAW_WTH1,
            picture_width * picture_height * getColorDepth self._colorMode / 256 % 256),
          (RA8876_DMAW_HIGH0,
            picture_width * picture_height * getColorDepth self._colorMode / 65536 % 256),
          (RA8876_DMAW_HIGH1,
            picture_width * picture_height * getColorDepth self._colorMode / 16777216
              % 256)] ∧
    lastWrite32 (registerWrites none (dmaDataLinearTransfer c self status des_addr
        picture_width picture_height src_addr))
        RA8876_DMA_DX0 RA8876_DMA_DX1 RA8876_DMA_DY0 RA8876_DMA_DY1 = some des_addr ∧
    lastWrite32 (registerWrites none (dmaDataLinearTransfer c self status des_addr
        picture_width picture_height src_addr))
        RA8876_DMAW_WTH0 RA8876_DMAW_WTH1 RA8876_DMAW_HIGH0 RA8876_DMAW_HIGH1
      = some (picture_width * picture_height * getColorDepth self._colorMode) ∧
    (registerWrites none (dmaDataLinearTransfer c self status des_addr picture_width
        picture_height src_addr)).getLast?
      = some (RA8876_DMA_CTRL, c.RA8876_DMA_START % 256) := by
  have hpos : 0 < getColorDepth self._colorMode := by
    cases self._colorMode <;> decide
  have hwh : picture_width * picture_height < 4294967296 :=
    lt_of_le_of_lt (Nat.le_mul_of_pos_right _ hpos) hn
  have hbc : (picture_width * picture_height % 4294967296) * getColorDepth self._colorMode
      % 4294967296 = picture_width * picture_height * getColorDepth self._colorMode := by
    rw [Nat.mod_eq_of_lt hwh, Nat.mod_eq_of_lt hn]
  have hs8 : ∀ x : Nat, x >>> 8 = x / 256 := fun x => by
    rw [Nat.shiftRight_eq_div_pow]
  have hs16 : ∀ x : Nat, x >>> 16 = x / 65536 := fun x => by
    rw [Nat.shiftRight_eq_div_pow]
  have hs24 : ∀ x : Nat, x >>> 24 = x / 16777216 := fun x => by
    rw [Nat.shiftRight_eq_div_pow]
  have hd32 := le_bytes32 des_addr hd
  have hn32 := le_bytes32 _ hn
  rw [hs8, hs16, hs24] at hd32 hn32
  simp only [dmaDataLinearTransfer, hbc, hs8, hs16, hs24, registerWrites_append, selectedAfter_append,
    registerWrites_bte_Source0_MemoryStartAddr, selectedAfter_bte_Source0_MemoryStartAddr,
    registerWrites_bte_Source0_ImageWidth, selectedAfter_bte_Source0_ImageWidth,
    registerWrites_bte_Source0_WindowStartXY, selectedAfter_bte_Source0_WindowStartXY,
    registerWrites_bte_Source1_MemoryStartAddr, selectedAfter_bte_Source1_MemoryStartAddr,
    registerWrites_bte_Source1_ImageWidth, selectedAfter_bte_Source1_ImageWidth,
    registerWrites_bte_Source1_WindowStartXY, selectedAfter_bte_Source1_WindowStartXY,
    registerWrites_bte_DestinationMemoryStartAddr, selectedAfter_bte_DestinationMemoryStartAddr,
    registerWrites_bte_DestinationImageWidth, selectedAfter_bte_DestinationImageWidth,
    registerWrites_bte_DestinationWindowStartXY, selectedAfter_bte_DestinationWindowStartXY,
    registerWrites_bte_WindowSize, selectedAfter_bte_WindowSize,
    registerWrites_lcdRegDataWrite, selectedAfter_lcdRegDataWrite,
    registerWrites_check2dBusy, selectedAfter_check2dBusy, registerWrites_checkWriteFifoEmpty,
    List.append_nil]
  simp only [List.cons_append, List.nil_append, List.singleton_append]
  refine ⟨rfl, rfl, ?_, ?_, rfl⟩
  · exact Eq.trans rfl (congrArg some hd32)
  · exact Eq.trans rfl (congrArg some hn32)

/-! ## Restoring the primary-display defaults -/

theorem lastWrite_append_right (A B : List (Nat × Nat)) (reg : Nat)
    (h : (lastWrite B reg).isSome = true) : lastWrite (A ++ B) reg = lastWrite B reg := by
  unfold lastWrite at h ⊢
  rw [List.filter_append, List.getLast?_append]
  cases hB : (List.filter (fun w => decide (w.1 = reg)) B).getLast? with
  | none => rw [hB] at h; exact absurd h (by simp)
  | some v => rfl

theorem lastWrite16_append_right (A B : List (Nat × Nat)) (lo hi : Nat)
    (h0 : (lastWrite B lo).isSome = true) (h1 : (lastWrite B hi).isSome = true) :
    lastWrite16 (A ++ B) lo hi = lastWrite16 B lo hi := by
  unfold lastWrite16
  rw [lastWrite_append_right A B lo h0, lastWrite_append_right A B hi h1]

theorem lastWrite32_append_right (A B : List (Nat × Nat)) (r0 r1 r2 r3 : Nat)
    (h0 : (lastWrite B r0).isSome = true) (h1 : (lastWrite B r1).isSome = true)
    (h2 : (lastWrite B r2).isSome = true) (h3 : (lastWrite B r3).isSome = true) :
    lastWrite32 (A ++ B) r0 r1 r2 r3 = lastWrite32 B r0 r1 r2 r3 := by
  unfold lastWrite32
  rw [lastWrite_append_right A B r0 h0, lastWrite_append_right A B r1 h1,
    lastWrite_append_right A B r2 h2, lastWrite_append_right A B r3 h3]

theorem registerWrites_restoreMainWindow (sel : Option Nat) (self : Ra8876_Lite) :
    registerWrites sel (restoreMainWindow self)
      = [(RA8876_AWUL_X0, 0), (RA8876_AWUL_X1, 0), (RA8876_AWUL_Y0, 0), (RA8876_AWUL_Y1, 0),
          (RA8876_AW_WTH0, self._canvasWidth % 256),
          (RA8876_AW_WTH1, self._canvasWidth / 256 % 256),
          (RA8876_AW_HT0, self._canvasHeight % 256),
          (RA8876_AW_HT1, self._canvasHeight / 256 % 256),
          (RA8876_CVSSA0, 0), (RA8876_CVSSA1, 0), (RA8876_CVSSA2, 0), (RA8876_CVSSA3, 0)] := by
  have hs8 : ∀ x : Nat, x >>> 8 = x / 256 := fun x => by
    rw [Nat.shiftRight_eq_div_pow]
  simp only [restoreMainWindow, registerWrites_append, selectedAfter_append,
    registerWrites_activeWindowXY, selectedAfter_activeWindowXY,
    registerWrites_activeWindowWH, selectedAfter_activeWindowWH,
    registerWrites_canvasImageStartAddress, hs8, List.cons_append, List.nil_append]
  rfl

/-- A log that ends with the restore sequence leaves the primary-display defaults. -/
theorem restoredDefaults_suffix (self : Ra8876_Lite) (front : List Bus)
    (hw : self._canvasWidth < 65536) (hh : self._canvasHeight < 65536) :
    RestoredDefaults self (registerWrites none (front ++ restoreMainWindow self)) := by
  have hs8 : ∀ x : Nat, x >>> 8 = x / 256 := fun x => by
    rw [Nat.shiftRight_eq_div_pow]
  have hcw := le_bytes16 _ hw
  have hch := le_bytes16 _ hh
  rw [hs8] at hcw hch
  rw [registerWrites_append, registerWrites_restoreMainWindow]
  generalize registerWrites none front = A
  generalize self._canvasWidth % 256 = w0 at hcw ⊢
  generalize self._canvasWidth / 256 % 256 = w1 at hcw ⊢
  generalize self._canvasHeight % 256 = h0 at hch ⊢
  generalize self._canvasHeight / 256 % 256 = h1 at hch ⊢
  refine ⟨?_, ?_, ?_, ?_, ?_⟩
  · rw [lastWrite16_append_right _ _ _ _ (by rfl) (by rfl)]
    rfl
  · rw [lastWrite16_append_right _ _ _ _ (by rfl) (by rfl)]
    rfl
  · rw [lastWrite16_append_right _ _ _ _ (by rfl) (by rfl)]
    exact Eq.trans rfl (congrArg some hcw)
  · rw [lastWrite16_append_right _ _ _ _ (by rfl) (by rfl)]
    exact Eq.trans rfl (congrArg some hch)
  · rw [lastWrite32_append_right _ _ _ _ _ _ (by rfl) (by rfl) (by rfl) (by rfl)]
    rfl

theorem setPixelCursor_isSome (self : Ra8876_Lite) (x y lnOffset : Nat)
    (hw : 0 < self._canvasWidth) : ∃ cursor, setPixelCursor self x y lnOffset = some cursor := by
  have hpos : 0 < getColorDepth self._colorMode := by
    cases self._colorMode <;> decide
  have hne : ¬ self._canvasWidth * getColorDepth self._colorMode = 0 :=
    Nat.pos_iff_ne_zero.mp (Nat.mul_pos hw hpos)
  have ha : ∃ a, canvasAddress_from_lnOffset self._canvasWidth self._colorMode lnOffset
      = some a := by
    unfold canvasAddress_from_lnOffset
    simp only []
    rw [if_neg hne]
    split
    · exact ⟨_, rfl⟩
    · exact ⟨_, rfl⟩
  obtain ⟨a, ha⟩ := ha
  unfold setPixelCursor
  rw [ha]
  simp only []
  split
  · exact ⟨_, rfl⟩
  · exact ⟨_, rfl⟩

theorem append_restore (a x y z : List Bus) : a ++ x ++ y ++ z = a ++ (x ++ y ++ z) := by
  simp only [List.append_assoc]

/-- C14: `canvasWrite` (memory buffer, `byte_count > 0`), `canvasRead` (`data_count > 0`) and
`putPicture` (memory buffer) restore the primary-display defaults before returning, for every
argument, an out-of-range `lnOffset` included, in a state with a canvas width that is not zero:
the call returns, its log ends with the restore sequence, and after it the last values written
to the active-window origin registers are (0, 0), to the active-window size registers the
canvas width and height, and to the canvas start-address registers `CANVAS_OFFSET = 0`. -/
theorem bulk_transfers_restore_defaults (self : Ra8876_Lite)
    (h0 : 0 < self._canvasWidth) (hw : self._canvasWidth < 65536)
    (hh : self._canvasHeight < 65536) :
    (∀ data lnOffset byte_count, 0 < byte_count →
      ∃ front, canvasWrite self data lnOffset byte_count
          = some (front ++ restoreMainWindow self) ∧
        RestoredDefaults self (registerWrites none (front ++ restoreMainWindow self))) ∧
    (∀ lnOffset data_count, 0 < data_count →
      ∃ front, canvasRead self lnOffset data_count = some (front ++ restoreMainWindow self) ∧
        RestoredDefaults self (registerWrites none (front ++ restoreMainWindow self))) ∧
    (∀ macr x y width height data rotate_ccw90 lnOffset,
      ∃ front, putPicture self macr x y width height data rotate_ccw90 lnOffset
          = some (front ++ restoreMainWindow self) ∧
        RestoredDefaults self (registerWrites none (front ++ restoreMainWindow self))) := by
  refine ⟨?_, ?_, ?_⟩
  · intro data lnOffset byte_count hb
    obtain ⟨cursor, hc⟩ := setPixelCursor_isSome self 0 0 lnOffset h0
    unfold canvasWrite
    rw [if_neg (by omega), if_neg (by omega)]
    simp only [hc]
    exact ⟨_, congrArg some (append_restore _ _ _ _), restoredDefaults_suffix self _ hw hh⟩
  · intro lnOffset data_count hb
    obtain ⟨cursor, hc⟩ := setPixelCursor_isSome self 0 0 lnOffset h0
    unfold canvasRead
    rw [if_neg (by omega), if_neg (by omega)]
    simp only [hc]
    exact ⟨_, congrArg some (append_restore _ _ _ _), restoredDefaults_suffix self _ hw hh⟩
  · intro macr x y width height data rotate_ccw90 lnOffset
    obtain ⟨cursor, hc⟩ := setPixelCursor_isSome self
      (if rotate_ccw90 = true then y else x) (if rotate_ccw90 = true then x else y) lnOffset h0
    unfold putPicture putPicture_set_frame
    simp only [hc]
    exact ⟨_, congrArg some (append_restore _ _ _ _), restoredDefaults_suffix self _ hw hh⟩

/-! ## Pixel writes and blitting -/

/-- C15: `putPixel` with a line offset whose conversion fails still accesses the hardware.
On the canvas of 800 pixels in the 16-bit colour mode the conversion of line offset 20971 gives
`-1`, `setPixelCursor` writes nothing, and `putPixel` goes on to select the memory port and to
write the two bytes of the pixel. -/
theorem putPixel_writes_after_failed_conversion :
    canvasAddress_from_lnOffset 800 COLOR_MODE.COLOR_16BPP_RGB565 20971 = some (-1) ∧
    setPixelCursor sampleDisplay 0 0 20971 = some [] ∧
    putPixel sampleDisplay 0 0 (Color.mk 255 255 255 255) 20971
      = some [Bus.command RA8876_MRWDP, Bus.data 255, Bus.data 255] ∧
    registerWrites none [Bus.command RA8876_MRWDP, Bus.data 255, Bus.data 255]
      = [(RA8876_MRWDP, 255), (RA8876_MRWDP, 255)] := by
  refine ⟨by decide, by decide, by decide, by decide⟩

theorem int32_eq_some (x : Int) (h0 : -2147483648 ≤ x) (h1 : x ≤ 2147483647) :
    int32 x = some x := by
  unfold int32
  rw [if_pos ⟨h0, h1⟩]

theorem toUInt16_eq (x : Int) (h0 : 0 ≤ x) (h1 : x < 65536) : toUInt16 x = x.toNat := by
  unfold toUInt16
  rw [Int.emod_eq_of_lt h0 h1]

theorem registerWrites_setBackgroundColor (sel : Option Nat) (self : Ra8876_Lite)
    (color : Color) :
    ∃ r g b, registerWrites sel (setBackgroundColor self color)
      = [(RA8876_BGCR, r), (RA8876_BGCG, g), (RA8876_BGCB, b)] := by
  rcases self with ⟨w, h, mode⟩
  cases mode <;> cases sel <;> exact ⟨_, _, _, rfl⟩

theorem transferSize_bteMemoryCopyWithROP (c : Codes) (status : Nat → Nat)
    (s0_addr s0_image_width s0_x s0_y s1_addr s1_image_width s1_x s1_y
      des_addr des_image_width des_x des_y copy_width copy_height rop_code : Nat)
    (hw : copy_width < 65536) (hh : copy_height < 65536) :
    TransferSize (registerWrites none (bteMemoryCopyWithROP c status s0_addr s0_image_width
      s0_x s0_y s1_addr s1_image_width s1_x s1_y des_addr des_image_width des_x des_y
      copy_width copy_height rop_code)) copy_width copy_height := by
  have hs8 : ∀ x : Nat, x >>> 8 = x / 256 := fun x => by
    rw [Nat.shiftRight_eq_div_pow]
  have hcw := le_bytes16 _ hw
  have hch := le_bytes16 _ hh
  rw [hs8] at hcw hch
  unfold TransferSize
  simp only [bteMemoryCopyWithROP, registerWrites_append, selectedAfter_append,
    registerWrites_bte_Source0_MemoryStartAddr, selectedAfter_bte_Source0_MemoryStartAddr,
    registerWrites_bte_Source0_ImageWidth, selectedAfter_bte_Source0_ImageWidth,
    registerWrites_bte_Source0_WindowStartXY, selectedAfter_bte_Source0_WindowStartXY,
    registerWrites_bte_Source1_MemoryStartAddr, selectedAfter_bte_Source1_MemoryStartAddr,
    registerWrites_bte_Source1_ImageWidth, selectedAfter_bte_Source1_ImageWidth,
    registerWrites_bte_Source1_WindowStartXY, selectedAfter_bte_Source1_WindowStartXY,
    registerWrites_bte_DestinationMemoryStartAddr, selectedAfter_bte_DestinationMemoryStartAddr,
    registerWrites_bte_DestinationImageWidth, selectedAfter_bte_DestinationImageWidth,
    registerWrites_bte_DestinationWindowStartXY, selectedAfter_bte_DestinationWindowStartXY,
    registerWrites_bte_WindowSize, selectedAfter_bte_WindowSize,
    registerWrites_lcdRegDataWrite, selectedAfter_lcdRegDataWrite,
    registerWrites_check2dBusy, selectedAfter_check2dBusy, registerWrites_checkWriteFifoEmpty,
    List.append_nil, hs8,
    List.cons_append, List.nil_append, List.singleton_append]
  generalize copy_width % 256 = w0 at hcw ⊢
  generalize copy_width / 256 % 256 = w1 at hcw ⊢
  generalize copy_height % 256 = h0 at hch ⊢
  generalize copy_height / 256 % 256 = h1 at hch ⊢
  exact ⟨Eq.trans rfl (congrArg some hcw), Eq.trans rfl (congrArg some hch)⟩

theorem transferSize_bteMemoryCopyWithOpacity (c : Codes) (status : Nat → Nat)
    (s0_addr s0_image_width s0_x s0_y s1_addr s1_image_width s1_x s1_y
      des_addr des_image_width des_x des_y copy_width copy_height alpha : Nat)
    (hw : copy_width < 65536) (hh : copy_height < 65536) :
    TransferSize (registerWrites none (bteMemoryCopyWithOpacity c status s0_addr
      s0_image_width s0_x s0_y s1_addr s1_image_width s1_x s1_y des_addr des_image_width des_x
      des_y copy_width copy_height alpha)) copy_width copy_height := by
  have hs8 : ∀ x : Nat, x >>> 8 = x / 256 := fun x => by
    rw [Nat.shiftRight_eq_div_pow]
  have hcw := le_bytes16 _ hw
  have hch := le_bytes16 _ hh
  rw [hs8] at hcw hch
  unfold TransferSize
  simp only [bteMemoryCopyWithOpacity, registerWrites_append, selectedAfter_append,
    registerWrites_bte_Source0_MemoryStartAddr, selectedAfter_bte_Source0_MemoryStartAddr,
    registerWrites_bte_Source0_ImageWidth, selectedAfter_bte_Source0_ImageWidth,
    registerWrites_bte_Source0_WindowStartXY, selectedAfter_bte_Source0_WindowStartXY,
    registerWrites_bte_Source1_MemoryStartAddr, selectedAfter_bte_Source1_MemoryStartAddr,
    registerWrites_bte_Source1_ImageWidth, selectedAfter_bte_Source1_ImageWidth,
    registerWrites_bte_Source1_WindowStartXY, selectedAfter_bte_Source1_WindowStartXY,
    registerWrites_bte_DestinationMemoryStartAddr, selectedAfter_bte_DestinationMemoryStartAddr,
    registerWrites_bte_DestinationImageWidth, selectedAfter_bte_DestinationImageWidth,
    registerWrites_bte_DestinationWindowStartXY, selectedAfter_bte_DestinationWindowStartXY,
    registerWrites_bte_WindowSize, selectedAfter_bte_WindowSize,
    registerWrites_lcdRegDataWrite, selectedAfter_lcdRegDataWrite,
    registerWrites_check2dBusy, selectedAfter_check2dBusy, registerWrites_checkWriteFifoEmpty,
    List.append_nil, hs8,
    List.cons_append, List.nil_append, List.singleton_append]
  generalize copy_width % 256 = w0 at hcw ⊢
  generalize copy_width / 256 % 256 = w1 at hcw ⊢
  generalize copy_height % 256 = h0 at hch ⊢
  generalize copy_height / 256 % 256 = h1 at hch ⊢
  exact ⟨Eq.trans rfl (congrArg some hcw), Eq.trans rfl (congrArg some hch)⟩

theorem transferSize_bteMemoryCopyWithChromaKey (c : Codes) (self : Ra8876_Lite)
    (status : Nat → Nat)
    (s0_addr s0_image_width s0_x s0_y des_addr des_image_width des_x des_y
      copy_width copy_height : Nat) (chromakey_color : Color)
    (hw : copy_width < 65536) (hh : copy_height < 65536) :
    TransferSize (registerWrites none (bteMemoryCopyWithChromaKey c self status s0_addr
      s0_image_width s0_x s0_y des_addr des_image_width des_x des_y copy_width copy_height
      chromakey_color)) copy_width copy_height := by
  have hs8 : ∀ x : Nat, x >>> 8 = x / 256 := fun x => by
    rw [Nat.shiftRight_eq_div_pow]
  have hcw := le_bytes16 _ hw
  have hch := le_bytes16 _ hh
  rw [hs8] at hcw hch
  obtain ⟨r, g, b, hbg⟩ := registerWrites_setBackgroundColor (some RA8876_BTE_HIG1) self
    chromakey_color
  unfold TransferSize
  simp only [bteMemoryCopyWithChromaKey, registerWrites_append, selectedAfter_append,
    registerWrites_bte_Source0_MemoryStartAddr, selectedAfter_bte_Source0_MemoryStartAddr,
    registerWrites_bte_Source0_ImageWidth, selectedAfter_bte_Source0_ImageWidth,
    registerWrites_bte_Source0_WindowStartXY, selectedAfter_bte_Source0_WindowStartXY,
    registerWrites_bte_Source1_MemoryStartAddr, selectedAfter_bte_Source1_MemoryStartAddr,
    registerWrites_bte_Source1_ImageWidth, selectedAfter_bte_Source1_ImageWidth,
    registerWrites_bte_Source1_WindowStartXY, selectedAfter_bte_Source1_WindowStartXY,
    registerWrites_bte_DestinationMemoryStartAddr, selectedAfter_bte_DestinationMemoryStartAddr,
    registerWrites_bte_DestinationImageWidth, selectedAfter_bte_DestinationImageWidth,
    registerWrites_bte_DestinationWindowStartXY, selectedAfter_bte_DestinationWindowStartXY,
    registerWrites_bte_WindowSize, selectedAfter_bte_WindowSize,
    registerWrites_lcdRegDataWrite, selectedAfter_lcdRegDataWrite,
    registerWrites_check2dBusy, selectedAfter_check2dBusy, registerWrites_checkWriteFifoEmpty,
    List.append_nil, hs8, hbg,
    selectedAfter_setBackgroundColor,
    List.cons_append, List.nil_append, List.singleton_append]
  generalize copy_width % 256 = w0 at hcw ⊢
  generalize copy_width / 256 % 256 = w1 at hcw ⊢
  generalize copy_height % 256 = h0 at hch ⊢
  generalize copy_height / 256 % 256 = h1 at hch ⊢
  exact ⟨Eq.trans rfl (congrArg some hcw), Eq.trans rfl (congrArg some hch)⟩

theorem clippedSize_lt (extent : Int) (destExtent : Nat) (destStart : Int)
    (h0 : 0 ≤ destStart) (hd : destExtent < 65536) :
    clippedSize extent destExtent destStart < 65536 := by
  unfold clippedSize
  omega

theorem toUInt16_clipped (extent : Int) (destExtent : Nat) (destStart : Int)
    (h0 : 0 ≤ destStart) (h1 : destStart ≤ destExtent) (hd : destExtent < 65536)
    (he : 0 ≤ extent) :
    toUInt16 (min extent ((destExtent : Int) - destStart))
      = clippedSize extent destExtent destStart := by
  unfold clippedSize
  exact toUInt16_eq _ (by omega) (by omega)

/-- The clipping of `blit`, `masked_blit` and `alpha_blit`, with the call of the BTE primitive
as `k`. -/
theorem clip_both (k : Nat → Nat → List Bus) (dest : BITMAP)
    (dest_x dest_y width height : Int)
    (hdw : dest.w < 65536) (hdh : dest.h < 65536)
    (hx0 : 0 ≤ dest_x) (hx1 : dest_x ≤ dest.w) (hy0 : 0 ≤ dest_y) (hy1 : dest_y ≤ dest.h)
    (hw : 0 ≤ width) (hh : 0 ≤ height)
    (hox : dest_x + width ≤ 2147483647) (hoy : dest_y + height ≤ 2147483647) :
    (do
      let right ← int32 (dest_x + width)
      let width ← if right > (dest.w : Int) then int32 ((dest.w : Int) - dest_x) else some width
      let bottom ← int32 (dest_y + height)
      let height ←
        if bottom > (dest.h : Int) then int32 ((dest.h : Int) - dest_y) else some height
      some (k (toUInt16 width) (toUInt16 height)))
      = some (k (clippedSize width dest.w dest_x) (clippedSize height dest.h dest_y)) := by
  have e1 := int32_eq_some (dest_x + width) (by omega) hox
  have e2 := int32_eq_some (dest_y + height) (by omega) hoy
  have e3 := int32_eq_some ((dest.w : Int) - dest_x) (by omega) (by omega)
  have e4 := int32_eq_some ((dest.h : Int) - dest_y) (by omega) (by omega)
  have c1 : toUInt16 (if dest_x + width > (dest.w : Int) then (dest.w : Int) - dest_x
      else width) = clippedSize width dest.w dest_x := by
    rw [← toUInt16_clipped width dest.w dest_x hx0 hx1 hdw hw]
    congr 1
    split <;> omega
  have c2 : toUInt16 (if dest_y + height > (dest.h : Int) then (dest.h : Int) - dest_y
      else height) = clippedSize height dest.h dest_y := by
    rw [← toUInt16_clipped height dest.h dest_y hy0 hy1 hdh hh]
    congr 1
    split <;> omega
  rw [← c1, ← c2]
  simp only [bind_pure_comp, Option.bind_eq_bind, e1, e2, e3, e4, Option.some_bind]
  by_cases h1 : dest_x + width > (dest.w : Int) <;>
    by_cases h2 : dest_y + height > (dest.h : Int) <;>
    simp only [h1, h2, if_true, if_false, Option.some_bind]

/-- C16 (as stated) fails at the edge of `int`: with `dest_x = 1` and `width = 2147483647`, in
the range that the claim gives, the sum `dest_x+width` of the clipping test is not an `int`,
and no transfer size `min(width, 100 - 1) = 99` is handed to the engine. -/
theorem blit_clip_overflow :
    ((0 : Int) ≤ 1 ∧ (1 : Int) ≤ (sampleBitmap.w : Int) ∧ (0 : Int) ≤ 0 ∧
      (0 : Int) ≤ (sampleBitmap.h : Int) ∧ (0 : Int) ≤ 2147483647 ∧ (0 : Int) ≤ 10) ∧
    int32 (1 + 2147483647) = none ∧
    blit sampleCodes (fun _ => 0) sampleBitmap sampleBitmap 0 0 1 0 2147483647 10 = none ∧
    masked_blit sampleCodes sampleDisplay (fun _ => 0) sampleBitmap sampleBitmap
      0 0 1 0 2147483647 10 = none ∧
    alpha_blit sampleCodes (fun _ => 0) sampleBitmap sampleBitmap 0 0 1 0 2147483647 10 16
      = none := by
  refine ⟨by decide, by decide, by decide, by decide, by decide⟩

/-- C16 (amended): for every call with `0 ≤ dest_x ≤ dest width`, `0 ≤ dest_y ≤ dest height`,
`source_x ≤ source width`, `source_y ≤ source height`, `width, height ≥ 0` and sums
`dest_x + width`, `dest_y + height` that are `int` values, `blit`, `masked_blit` and
`alpha_blit` return and hand the same transfer size to the BTE engine, which is exactly
`(min(width, destWidth - dest_x), min(height, destHeight - dest_y))`; so
`dest_x + clippedWidth ≤ destWidth` and `dest_y + clippedHeight ≤ destHeight`. -/
theorem blit_clipped_size (c : Codes) (self : Ra8876_Lite) (status : Nat → Nat)
    (source dest : BITMAP) (source_x source_y dest_x dest_y width height alpha : Int)
    (hdw : dest.w < 65536) (hdh : dest.h < 65536)
    (hx0 : 0 ≤ dest_x) (hx1 : dest_x ≤ dest.w) (hy0 : 0 ≤ dest_y) (hy1 : dest_y ≤ dest.h)
    (hsx : source_x ≤ source.w) (hsy : source_y ≤ source.h)
    (hw : 0 ≤ width) (hh : 0 ≤ height)
    (hox : dest_x + width ≤ 2147483647) (hoy : dest_y + height ≤ 2147483647) :
    (∃ log, blit c status source dest source_x source_y dest_x dest_y width height = some log ∧
      TransferSize (registerWrites none log)
        (clippedSize width dest.w dest_x) (clippedSize height dest.h dest_y)) ∧
    (∃ log, masked_blit c self status source dest source_x source_y dest_x dest_y width height
        = some log ∧
      TransferSize (registerWrites none log)
        (clippedSize width dest.w dest_x) (clippedSize height dest.h dest_y)) ∧
    (∃ log, alpha_blit c status source dest source_x source_y dest_x dest_y width height alpha
        = some log ∧
      TransferSize (registerWrites none log)
        (clippedSize width dest.w dest_x) (clippedSize height dest.h dest_y)) ∧
    (clippedSize width dest.w dest_x : Int) = min width ((dest.w : Int) - dest_x) ∧
    (clippedSize height dest.h dest_y : Int) = min height ((dest.h : Int) - dest_y) ∧
    dest_x + (clippedSize width dest.w dest_x : Int) ≤ dest.w ∧
    dest_y + (clippedSize height dest.h dest_y : Int) ≤ dest.h := by
  have hcw := clippedSize_lt width dest.w dest_x hx0 hdw
  have hch := clippedSize_lt height dest.h dest_y hy0 hdh
  have hgs : ¬ (source_x > (source.w : Int) ∨ source_y > (source.h : Int)) := by omega
  have hgd : ¬ (dest_x > (dest.w : Int) ∨ dest_y > (dest.h : Int)) := by omega
  refine ⟨?_, ?_, ?_, ?_, ?_, ?_, ?_⟩
  · refine ⟨_, ?_, transferSize_bteMemoryCopyWithROP c status source.thisBitmapAddress
      source.w (toUInt16 source_x) (toUInt16 source_y) 0 0 0 0 dest.thisBitmapAddress dest.w
      (toUInt16 dest_x) (toUInt16 dest_y) _ _ c.RA8876_BTE_ROP_CODE_12 hcw hch⟩
    unfold blit
    rw [if_neg hgs, if_neg hgd]
    exact clip_both (fun w h => bteMemoryCopyWithROP c status source.thisBitmapAddress
      source.w (toUInt16 source_x) (toUInt16 source_y) 0 0 0 0 dest.thisBitmapAddress dest.w
      (toUInt16 dest_x) (toUInt16 dest_y) w h c.RA8876_BTE_ROP_CODE_12) dest dest_x dest_y
      width height hdw hdh hx0 hx1 hy0 hy1 hw hh hox hoy
  · refine ⟨_, ?_, transferSize_bteMemoryCopyWithChromaKey c self status
      source.thisBitmapAddress source.w (toUInt16 source_x) (toUInt16 source_y)
      dest.thisBitmapAddress dest.w (toUInt16 dest_x) (toUInt16 dest_y) _ _ c.MASK_COLOR
      hcw hch⟩
    unfold masked_blit
    rw [if_neg hgs, if_neg hgd]
    exact clip_both (fun w h => bteMemoryCopyWithChromaKey c self status
      source.thisBitmapAddress source.w (toUInt16 source_x) (toUInt16 source_y)
      dest.thisBitmapAddress dest.w (toUInt16 dest_x) (toUInt16 dest_y) w h c.MASK_COLOR)
      dest dest_x dest_y width height hdw hdh hx0 hx1 hy0 hy1 hw hh hox hoy
  · refine ⟨_, ?_, transferSize_bteMemoryCopyWithOpacity c status dest.thisBitmapAddress
      dest.w (toUInt16 dest_x) (toUInt16 dest_y) source.thisBitmapAddress source.w
      (toUInt16 source_x) (toUInt16 source_y) dest.thisBitmapAddress dest.w
      (toUInt16 dest_x) (toUInt16 dest_y) _ _ (toUInt8 alpha) hcw hch⟩
    unfold alpha_blit
    rw [if_neg hgs, if_neg hgd]
    exact clip_both (fun w h => bteMemoryCopyWithOpacity c status dest.thisBitmapAddress
      dest.w (toUInt16 dest_x) (toUInt16 dest_y) source.thisBitmapAddress source.w
      (toUInt16 source_x) (toUInt16 source_y) dest.thisBitmapAddress dest.w
      (toUInt16 dest_x) (toUInt16 dest_y) w h (toUInt8 alpha)) dest dest_x dest_y
      width height hdw hdh hx0 hx1 hy0 hy1 hw hh hox hoy
  · unfold clippedSize
    omega
  · unfold clippedSize
    omega
  · unfold clippedSize
    omega
  · unfold clippedSize
    omega

/-- C17 (as stated) fails: a start coordinate that equals the width of its bitmap, or that is
negative, is not a pixel of the bitmap, and the three functions still program the engine
(36 register writes by `blit`, 29 by `masked_blit`, 37 by `alpha_blit`). -/
theorem blit_start_not_rejected :
    (blit sampleCodes (fun _ => 0) sampleBitmap sampleBitmap 100 0 0 0 10 10).map
        (fun log => (registerWrites none log).length) = some 36 ∧
    (blit sampleCodes (fun _ => 0) sampleBitmap sampleBitmap (-1) 0 0 0 10 10).map
        (fun log => (registerWrites none log).length) = some 36 ∧
    (blit sampleCodes (fun _ => 0) sampleBitmap sampleBitmap 0 0 100 100 10 10).map
        (fun log => (registerWrites none log).length) = some 36 ∧
    (masked_blit sampleCodes sampleDisplay (fun _ => 0) sampleBitmap sampleBitmap
        100 0 0 0 10 10).map
        (fun log => (registerWrites none log).length) = some 29 ∧
    (alpha_blit sampleCodes (fun _ => 0) sampleBitmap sampleBitmap 0 (-1) 0 0 10 10 16).map
        (fun log => (registerWrites none log).length) = some 37 := by
  refine ⟨by decide, by decide, by decide, by decide, by decide⟩

/-- C17 (amended): `blit`, `masked_blit` and `alpha_blit` return without any bus access, so
without any register write, whenever `source_x` is greater than the width of the source
bitmap, or `source_y` greater than its height, or `dest_x` greater than the width of the
destination bitmap, or `dest_y` greater than its height. -/
theorem blit_rejects_start_beyond (c : Codes) (self : Ra8876_Lite) (status : Nat → Nat)
    (source dest : BITMAP) (source_x source_y dest_x dest_y width height alpha : Int)
    (h : source_x > source.w ∨ source_y > source.h ∨ dest_x > dest.w ∨ dest_y > dest.h) :
    blit c status source dest source_x source_y dest_x dest_y width height = some [] ∧
    masked_blit c self status source dest source_x source_y dest_x dest_y width height
      = some [] ∧
    alpha_blit c status source dest source_x source_y dest_x dest_y width height alpha
      = some [] := by
  unfold blit masked_blit alpha_blit
  by_cases hs : source_x > (source.w : Int) ∨ source_y > (source.h : Int)
  · simp only [if_pos hs, and_self]
  · have hd : dest_x > (dest.w : Int) ∨ dest_y > (dest.h : Int) := by
      rcases h with h | h | h | h
      · exact absurd (Or.inl h) hs
      · exact absurd (Or.inr h) hs
      · exact Or.inl h
      · exact Or.inr h
    simp only [if_neg hs, if_pos hd, and_self]

/-! ## The table index of `mem_free` and the two scans -/

/-- On a ready allocator, `mem_free` of an offset in its accepted range whose table index is
not below the table length reads outside the table. -/
theorem mem_free_outside_table (cw : Nat) (m : Memory) (offset : Int)
    (hr : m.isMemoryManagementReady ≠ 0) (hbs : m.mem_block_size ≠ 0)
    (hlo : 0 ≤ offset) (hhi : offset < (MEM_SIZE_MAX : Int))
    (hidx : m.memory_tbl.length ≤ offset.toNat / m.mem_block_size) :
    mem_free cw m offset = none := by
  have hM : (MEM_SIZE_MAX : Int) < 4294967296 := by decide
  have hmod : offset % 4294967296 < (MEM_SIZE_MAX : Int) := by
    rw [Int.emod_eq_of_lt hlo (by omega)]
    exact hhi
  unfold mem_free
  rw [if_neg hr, if_pos hmod, if_neg hbs]
  simp only []
  rw [List.getElem?_eq_none hidx]

/-- C21 (failing input): on the allocator that `mem_init` sets up for canvas width 1280 (block
size 5120, 6553 table entries), the offset 33551360 is in the range `0 ≤ offset < MEM_SIZE_MAX`
that `mem_free` accepts, and the table index `offset / 5120 = 6553` that `mem_free` reads is
the table size: the read `memory_tbl[index]` is outside the table. -/
theorem mem_free_reads_outside_table :
    ∃ m0, mem_init 1280 Memory.fresh = some m0 ∧ Initialised m0 ∧
      m0.mem_block_size = 5120 ∧ m0.mem_alloc_tbl_size = 6553 ∧
      m0.memory_tbl.length = 6553 ∧
      ((0 : Int) ≤ 33551360 ∧ (33551360 : Int) < (MEM_SIZE_MAX : Int)) ∧
      (33551360 : Int).toNat / m0.mem_block_size = 6553 ∧
      m0.memory_tbl[6553]? = none ∧
      mem_free 1280 m0 33551360 = none := by
  have hbs : blockSizeFor 1280 = 5120 := by decide
  obtain ⟨m0, hm0⟩ := mem_init_isSome 1280 Memory.fresh (by rw [hbs]; decide)
  have hI := mem_init_initialised 1280 Memory.fresh m0 hm0
  obtain ⟨-, hm⟩ := mem_init_eq 1280 Memory.fresh m0 hm0
  have hT : (MEM_SIZE_MAX / 5120) % 65536 = 6553 := by decide
  rw [hbs, hT] at hm
  have hidx : (33551360 : Int).toNat / 5120 = 6553 := by decide
  have hb : m0.mem_block_size = 5120 := by rw [hm]
  have hl : m0.memory_tbl.length = 6553 := by rw [hm, List.length_replicate]
  have hrange : (0 : Int) ≤ 33551360 ∧ (33551360 : Int) < (MEM_SIZE_MAX : Int) := by decide
  refine ⟨m0, hm0, hI, hb, by rw [hm], hl, hrange, by rw [hb]; exact hidx,
    List.getElem?_eq_none (by rw [hl]), ?_⟩
  exact mem_free_outside_table 1280 m0 33551360 hI.1 hI.2.1 hrange.1 hrange.2
    (by rw [hl, hb, hidx])

/-- The backward scan is a last-fit search among the start blocks `i` with
`i + nmemb ≤ mem_alloc_tbl_size`: it stamps and returns the greatest vacant one, or fails. -/
theorem scanBackward_spec (tbl : List Nat) (T bs n : Nat) (hT : tbl.length = T) (hn : 1 ≤ n)
    (hb : T * bs < 2 ^ 31) :
    ∀ (left : Nat), left ≤ T →
      (∃ i tbl', i < left ∧ i + n ≤ T ∧ Vacant tbl i n ∧
          (∀ k, i < k → k < left → k + n ≤ T → ¬ Vacant tbl k n) ∧
          writeRun tbl (n % 65536) i n = some tbl' ∧
          scanBackward tbl T bs n left = some (tbl', ((i * bs : Nat) : Int))) ∨
      ((∀ k, k < left → k + n ≤ T → ¬ Vacant tbl k n) ∧
          scanBackward tbl T bs n left = some (tbl, -1)) := by
  intro left
  induction left with
  | zero =>
    intro _
    right
    exact ⟨fun k hk _ => by omega, rfl⟩
  | succ left ih =>
    intro hle
    have hoT : left < tbl.length := by omega
    have hstart : MEM_START_ENTRY + left = left := by
      unfold MEM_START_ENTRY CANVAS_OFFSET
      omega
    have hprev := ih (by omega)
    have hstep : ¬ (Vacant tbl left n ∧ left + n ≤ T) →
        scanBackward tbl T bs n (left + 1) = scanBackward tbl T bs n left := by
      intro hv
      simp only [scanBackward, hstart, List.getElem?_eq_getElem hoT]
      split
      · rename_i hcond
        have hnv : ¬ Vacant tbl left n := fun h => hv ⟨h, hcond.2⟩
        rw [tryRun_not_vacant tbl bs n left (by omega) hnv]
      · rfl
    by_cases hv : Vacant tbl left n ∧ left + n ≤ T
    · left
      have hob : left * bs < 2 ^ 31 :=
        lt_of_le_of_lt (Nat.mul_le_mul_right bs (by omega : left ≤ T)) hb
      obtain ⟨t, ht, htry⟩ := tryRun_vacant tbl bs n left hn hv.1 hob
      refine ⟨left, t, by omega, hv.2, hv.1, fun k h1 h2 _ => by omega, ht, ?_⟩
      have h0 : tbl[left]? = some 0 := by simpa using hv.1 0 (by omega)
      have hcond : (0 : Nat) = 0 ∧ left + n ≤ T := ⟨rfl, hv.2⟩
      simp only [scanBackward, hstart, h0, hcond, and_self, if_true, htry]
    · rw [hstep hv]
      rcases hprev with ⟨i, t, h1, h2, h3, h4, h5, h6⟩ | ⟨h1, h2⟩
      · left
        refine ⟨i, t, by omega, h2, h3, ?_, h5, h6⟩
        intro k hik hk hkn
        by_cases hkl : k = left
        · subst hkl
          exact fun h => hv ⟨h, hkn⟩
        · exact h4 k hik (by omega) hkn
      · right
        refine ⟨?_, h2⟩
        intro k hk hkn
        by_cases hkl : k = left
        · subst hkl
          exact fun h => hv ⟨h, hkn⟩
        · exact h1 k (by omega) hkn

/-- C22: the small-class (backward) policy, with the threshold as a parameter. On an
initialised allocator, for `0 < size ≤ threshold` and `n = ceil(size / BlockSize)`,
`mem_malloc` returns `BlockSize` times the greatest block index `i` with
`MEM_START_ENTRY ≤ i`, `i + n ≤` table size and entries `i..i+n-1` all free (and stamps these
entries with `n`), and returns `-1`, leaving the object as it is, when no such `i` exists. -/
theorem mem_malloc_small_class (threshold cw : Nat) (m : Memory) (size : Nat)
    (hI : Initialised m) (hs0 : 0 < size) (hsT : size ≤ threshold) (hs : size < 2 ^ 32) :
    (∃ i tbl', MEM_START_ENTRY ≤ i ∧
        i + ceilDiv size m.mem_block_size ≤ m.mem_alloc_tbl_size ∧
        Vacant m.memory_tbl i (ceilDiv size m.mem_block_size) ∧
        (∀ k, i < k → k + ceilDiv size m.mem_block_size ≤ m.mem_alloc_tbl_size →
          ¬ Vacant m.memory_tbl k (ceilDiv size m.mem_block_size)) ∧
        writeRun m.memory_tbl (ceilDiv size m.mem_block_size) i
          (ceilDiv size m.mem_block_size) = some tbl' ∧
        mem_malloc_with threshold cw m size
          = some ({ m with memory_tbl := tbl' }, ((i * m.mem_block_size : Nat) : Int))) ∨
    ((∀ k, MEM_START_ENTRY ≤ k →
        k + ceilDiv size m.mem_block_size ≤ m.mem_alloc_tbl_size →
        ¬ Vacant m.memory_tbl k (ceilDiv size m.mem_block_size)) ∧
      mem_malloc_with threshold cw m size = some (m, -1)) := by
  obtain ⟨hr, hbs, h4, hbl, hlen, hT, hmul⟩ := hI
  have hn := nmembOf_eq size m.mem_block_size hbs h4 hs
  have hn1 := ceilDiv_pos size m.mem_block_size hbs hs0
  have hb : m.mem_alloc_tbl_size * m.mem_block_size < 2 ^ 31 :=
    lt_of_le_of_lt hmul (by unfold MEM_SIZE_MAX; norm_num)
  have hsz : ¬ size = 0 := by omega
  have hgt : ¬ size > threshold := by omega
  have hstart : m.mem_alloc_tbl_size - MEM_START_ENTRY = m.mem_alloc_tbl_size := by
    unfold MEM_START_ENTRY CANVAS_OFFSET
    omega
  have h0 : ∀ k : Nat, MEM_START_ENTRY ≤ k := fun k => by
    unfold MEM_START_ENTRY CANVAS_OFFSET
    omega
  have hcall : mem_malloc_with threshold cw m size =
      match scanBackward m.memory_tbl m.mem_alloc_tbl_size m.mem_block_size
          (ceilDiv size m.mem_block_size) m.mem_alloc_tbl_size with
      | none => none
      | some (tbl', r) => some ({ m with memory_tbl := tbl' }, r) := by
    simp only [mem_malloc_with, ensureReady_of_ready cw m hr, hsz, ↓reduceIte, hn, hgt, hstart]
  rcases scanBackward_spec m.memory_tbl m.mem_alloc_tbl_size m.mem_block_size
      (ceilDiv size m.mem_block_size) hlen hn1 hb m.mem_alloc_tbl_size (le_refl _) with
    ⟨i, t, h1, h2, h3, h5, h6, h7⟩ | ⟨h1, h2⟩
  · left
    have hmod : ceilDiv size m.mem_block_size % 65536 = ceilDiv size m.mem_block_size :=
      Nat.mod_eq_of_lt (by omega)
    rw [hmod] at h6
    refine ⟨i, t, h0 i, h2, h3, ?_, h6, ?_⟩
    · intro k hik hkn
      exact h5 k hik (by omega) hkn
    · rw [hcall, h7]
  · right
    refine ⟨fun k _ hkn => h1 k (by omega) hkn, ?_⟩
    rw [hcall, h2]

/-- C23: in the shipped configuration (`MEM_LARGE_BLOCK_THRESHOLD = 0`) the backward scan is
unreachable: for every allocator state and every size, `mem_malloc` gives the result and the
object, table included, of the allocator that only has the forward scan after the `size == 0`
check, and has a defined result exactly when that allocator has one. -/
theorem mem_malloc_eq_forwardOnly (cw : Nat) (m : Memory) (size : Nat) :
    mem_malloc cw m size = forwardOnlyMalloc cw m size := by
  unfold mem_malloc mem_malloc_with forwardOnlyMalloc
  cases ensureReady cw m with
  | none => rfl
  | some m0 =>
    by_cases hz : size = 0
    · simp only [hz, if_true]
    · have hgt : size > MEM_LARGE_BLOCK_THRESHOLD := Nat.pos_of_ne_zero hz
      simp only [hz, if_false, hgt, if_true]

/-- C24: every successful `mem_malloc(size)` (on the object `m0` that the lazy initialisation
leaves) returns an offset `o` that is not negative, so it is not the failure value `-1`, with
`o + size ≤ o + ceil(size/BlockSize) * BlockSize ≤ MEM_SIZE_MAX`: the allocated byte range
lies inside the arena. -/
theorem mem_malloc_range_in_arena (cw : Nat) (m m0 m' : Memory) (size : Nat) (o : Int)
    (h0 : ensureReady cw m = some m0) (hI : Initialised m0) (hs : size < 2 ^ 32)
    (h : mem_malloc cw m size = some (m', o)) (ho : o ≠ -1) :
    0 ≤ o ∧
    o + (size : Int) ≤ o + ((ceilDiv size m0.mem_block_size * m0.mem_block_size : Nat) : Int) ∧
    o + ((ceilDiv size m0.mem_block_size * m0.mem_block_size : Nat) : Int)
      ≤ (MEM_SIZE_MAX : Int) := by
  rw [mem_malloc_ensureReady cw m m0 size h0] at h
  have hpos : 0 ≤ o := by
    by_contra hneg
    exact ho (mem_malloc_failed cw m0 m' size o hI hs h (by omega)).2
  obtain ⟨i, t, -, hoo, h1, -, -, -, -⟩ := mem_malloc_success cw m0 m' size o hI hs h hpos
  obtain ⟨-, hbs, -, -, -, -, hmul⟩ := hI
  have hbpos : 0 < m0.mem_block_size := Nat.pos_of_ne_zero hbs
  have hsize : size ≤ ceilDiv size m0.mem_block_size * m0.mem_block_size := by
    rw [ceilDiv_eq size m0.mem_block_size hbs]
    have hdm := Nat.div_add_mod size m0.mem_block_size
    have hml := Nat.mod_lt size hbpos
    split
    · have : (size / m0.mem_block_size + 1) * m0.mem_block_size
          = m0.mem_block_size * (size / m0.mem_block_size) + m0.mem_block_size := by ring
      omega
    · have : size / m0.mem_block_size * m0.mem_block_size
          = m0.mem_block_size * (size / m0.mem_block_size) := by ring
      omega
  have hin : (i + ceilDiv size m0.mem_block_size) * m0.mem_block_size ≤ MEM_SIZE_MAX :=
    le_trans (Nat.mul_le_mul_right _ (by omega)) hmul
  have hsplit : (i + ceilDiv size m0.mem_block_size) * m0.mem_block_size
      = i * m0.mem_block_size + ceilDiv size m0.mem_block_size * m0.mem_block_size := by ring
  subst hoo
  refine ⟨hpos, by omega, by omega⟩

/-! ## The window of `canvasWrite` and the address of a line -/

/-- C25 (failing input): on the canvas of 800 pixels in the 16-bit colour mode (1600 bytes a
line), `canvasWrite` of 2400 bytes programs the active-window height 1 before it streams the
data, and `canvasWrite` of 800 bytes programs the height 0: the test for a partial line is
`byte_count % _canvasWidth`, in pixels, so the window holds 1600 and 0 bytes. -/
theorem canvasWrite_window_too_small :
    (canvasWrite sampleDisplay (fun _ => 0) 0 2400).map
        (fun log => firstWrite16 (registerWrites none log) RA8876_AW_HT0 RA8876_AW_HT1)
      = some (some 1) ∧
    1 * 800 * getColorDepth sampleDisplay._colorMode < 2400 ∧
    (canvasWrite sampleDisplay (fun _ => 0) 0 800).map
        (fun log => firstWrite16 (registerWrites none log) RA8876_AW_HT0 RA8876_AW_HT1)
      = some (some 0) ∧
    0 * 800 * getColorDepth sampleDisplay._colorMode < 800 := by
  refine ⟨by rfl, by decide, by rfl, by decide⟩

theorem canvasAddress_from_lnOffset_cases (w : Nat) (mode : COLOR_MODE) (lnOffset : Nat)
    (hw : 1 ≤ w) (hw16 : w < 65536) :
    (lnOffset < MEM_SIZE_MAX / (w * getColorDepth mode) ∧
      (lnOffset + 1) * (w * getColorDepth mode) ≤ MEM_SIZE_MAX ∧
      canvasAddress_from_lnOffset w mode lnOffset
        = some ((lnOffset * (w * getColorDepth mode) : Nat) : Int)) ∨
    (MEM_SIZE_MAX / (w * getColorDepth mode) ≤ lnOffset ∧
      canvasAddress_from_lnOffset w mode lnOffset = some (-1)) := by
  have hbpp := getColorDepth_range mode
  have hdef : canvasAddress_from_lnOffset w mode lnOffset =
      if w * getColorDepth mode = 0 then none
      else if lnOffset ≤ (MEM_SIZE_MAX / (w * getColorDepth mode) + 4294967296 - 1) % 4294967296
        then some (toInt32 ((lnOffset * w % 4294967296) * getColorDepth mode % 4294967296))
        else some (-1) := rfl
  rw [hdef]
  generalize getColorDepth mode = bpp at hbpp
  have hd0 : w * bpp ≠ 0 := by
    rcases hbpp with h | h | h <;> subst h <;> omega
  have hdpos : 0 < w * bpp := Nat.pos_of_ne_zero hd0
  have hdle : w * bpp ≤ 196605 := by
    rcases hbpp with h | h | h <;> subst h <;> omega
  have hq1 : 1 ≤ MEM_SIZE_MAX / (w * bpp) := by
    apply (Nat.le_div_iff_mul_le hdpos).2
    unfold MEM_SIZE_MAX
    omega
  have hqle : MEM_SIZE_MAX / (w * bpp) ≤ MEM_SIZE_MAX := Nat.div_le_self _ _
  have hbound : (MEM_SIZE_MAX / (w * bpp) + 4294967296 - 1) % 4294967296
      = MEM_SIZE_MAX / (w * bpp) - 1 := by
    unfold MEM_SIZE_MAX at hqle hq1 ⊢
    omega
  rw [hbound, if_neg hd0]
  by_cases hlt : lnOffset < MEM_SIZE_MAX / (w * bpp)
  · left
    have hle : lnOffset ≤ MEM_SIZE_MAX / (w * bpp) - 1 := by omega
    have hnext : (lnOffset + 1) * (w * bpp) ≤ MEM_SIZE_MAX :=
      le_trans (Nat.mul_le_mul_right _ (by omega)) (Nat.div_mul_le_self _ _)
    have hexp : (lnOffset + 1) * (w * bpp) = lnOffset * (w * bpp) + w * bpp := by ring
    have hprod : lnOffset * w * bpp < MEM_SIZE_MAX := by
      rw [Nat.mul_assoc]
      omega
    have hlw : lnOffset * w ≤ lnOffset * w * bpp :=
      Nat.le_mul_of_pos_right _ (by rcases hbpp with h | h | h <;> subst h <;> omega)
    have hval : toInt32 ((lnOffset * w % 4294967296) * bpp % 4294967296)
        = ((lnOffset * (w * bpp) : Nat) : Int) := by
      unfold MEM_SIZE_MAX at hprod
      have e1 : lnOffset * w % 4294967296 = lnOffset * w := Nat.mod_eq_of_lt (by omega)
      have e2 : lnOffset * w * bpp % 4294967296 = lnOffset * w * bpp :=
        Nat.mod_eq_of_lt (by omega)
      rw [e1, e2]
      unfold toInt32
      rw [e2, if_pos (by omega), Nat.mul_assoc]
    rw [if_pos hle, hval]
    exact ⟨hlt, hnext, rfl⟩
  · right
    have hle : ¬ lnOffset ≤ MEM_SIZE_MAX / (w * bpp) - 1 := by omega
    rw [if_neg hle]
    exact ⟨by omega, rfl⟩

/-- C26: for a canvas width `1 ≤ w` (a `uint16_t`) and every colour mode (1, 2 or 3 bytes per
pixel), `canvasAddress_from_lnOffset` returns a value `a`; `a` is negative exactly when
`lnOffset` is out of range (`MEM_SIZE_MAX / (w * bpp) ≤ lnOffset`), and then it is `-1`; a
successful result satisfies `0 ≤ a` and `a + w * bpp ≤ MEM_SIZE_MAX`, so the whole addressed
scanline lies inside the arena. -/
theorem canvasAddress_in_arena (w : Nat) (mode : COLOR_MODE) (lnOffset : Nat)
    (hw : 1 ≤ w) (hw16 : w < 65536) :
    ∃ a, canvasAddress_from_lnOffset w mode lnOffset = some a ∧
      (a < 0 ↔ MEM_SIZE_MAX / (w * getColorDepth mode) ≤ lnOffset) ∧
      (a < 0 → a = -1) ∧
      (0 ≤ a → a = ((lnOffset * w * getColorDepth mode : Nat) : Int) ∧
        a + ((w * getColorDepth mode : Nat) : Int) ≤ (MEM_SIZE_MAX : Int)) := by
  rcases canvasAddress_from_lnOffset_cases w mode lnOffset hw hw16 with
    ⟨h1, h2, h3⟩ | ⟨h1, h2⟩
  · refine ⟨_, h3, ?_, ?_, ?_⟩
    · constructor
      · intro h
        omega
      · intro h
        omega
    · intro h
      omega
    · intro _
      have hexp : (lnOffset + 1) * (w * getColorDepth mode)
          = lnOffset * (w * getColorDepth mode) + w * getColorDepth mode := by ring
      refine ⟨by rw [Nat.mul_assoc], ?_⟩
      omega
  · refine ⟨_, h2, ?_, ?_, ?_⟩
    · constructor
      · intro _
        exact h1
      · intro _
        decide
    · intro _
      rfl
    · intro h
      exact absurd h (by decide)

/-! ## The bytes of a pixel in the colour mode RGB565 -/

set_option maxRecDepth 100000

theorem green_low_bits : ∀ g, g < 256 → (g &&& 0x1C) <<< 3 = g / 4 % 8 * 32 := by
  decide

theorem blue_high_bits : ∀ b, b < 256 → (b &&& 0xF8) >>> 3 = b / 8 := by
  decide

theorem red_high_bits : ∀ r, r < 256 → r &&& 0xF8 = r / 8 * 8 := by
  decide

theorem green_high_bits : ∀ g, g < 256 → (g &&& 0xE0) >>> 5 = g / 32 := by
  decide

theorem rgb565_eq (r g b : Nat) (hg : g < 256) (hb : b < 256) :
    rgb565 r g b = 2048 * (r / 8) + (32 * (g / 4) + b / 8) := by
  unfold rgb565
  rw [Nat.or_assoc]
  simp only [Nat.shiftRight_eq_div_pow, Nat.shiftLeft_eq]
  have e1 : g / 2 ^ 2 * 2 ^ 5 ||| b / 2 ^ 3 = 2 ^ 5 * (g / 2 ^ 2) + b / 2 ^ 3 := by
    rw [Nat.mul_comm]
    exact (Nat.mul_add_lt_is_or (by norm_num; omega) _).symm
  have e2 : r / 2 ^ 3 * 2 ^ 11 ||| (2 ^ 5 * (g / 2 ^ 2) + b / 2 ^ 3)
      = 2 ^ 11 * (r / 2 ^ 3) + (2 ^ 5 * (g / 2 ^ 2) + b / 2 ^ 3) := by
    rw [Nat.mul_comm]
    exact (Nat.mul_add_lt_is_or (by norm_num; omega) _).symm
  rw [e1, e2]
  norm_num

theorem low_byte_or (a c : Nat) (hc : c < 32) : a * 32 ||| c = a * 32 + c := by
  have h := Nat.mul_add_lt_is_or (show c < 2 ^ 5 by norm_num; exact hc) a
  rw [Nat.mul_comm] at h
  norm_num at h
  exact h.symm

theorem high_byte_or (a c : Nat) (hc : c < 8) : a * 8 ||| c = a * 8 + c := by
  have h := Nat.mul_add_lt_is_or (show c < 2 ^ 3 by norm_num; exact hc) a
  rw [Nat.mul_comm] at h
  norm_num at h
  exact h.symm

/-- C27: in the colour mode `COLOR_16BPP_RGB565`, for every colour with 8-bit components,
`putPixel` (in a state with a canvas width that is not zero) writes, after the cursor and the
selection of the memory port, two data bytes, the low byte first, that form the 16-bit value
`(r >> 3) << 11 | (g >> 2) << 5 | (b >> 3)`: the first byte is G[4:2] in bits 7..5 and B[7:3]
in bits 4..0, the second byte is R[7:3] in bits 7..3 and G[7:5] in bits 2..0. -/
theorem putPixel_rgb565 (self : Ra8876_Lite) (x y : Nat) (color : Color) (lnOffset : Nat)
    (hm : self._colorMode = COLOR_MODE.COLOR_16BPP_RGB565) (h0 : 0 < self._canvasWidth)
    (hr : color.r < 256) (hg : color.g < 256) (hb : color.b < 256) :
    ∃ cursor, setPixelCursor self x y lnOffset = some cursor ∧
      putPixel self x y color lnOffset
        = some (cursor ++ ramAccessPrepare ++
            [Bus.data (rgb565 color.r color.g color.b % 256),
              Bus.data (rgb565 color.r color.g color.b / 256)]) ∧
      rgb565 color.r color.g color.b % 256 = color.g / 4 % 8 * 32 + color.b / 8 ∧
      rgb565 color.r color.g color.b / 256 = color.r / 8 * 8 + color.g / 32 ∧
      rgb565 color.r color.g color.b < 65536 := by
  obtain ⟨cursor, hc⟩ := setPixelCursor_isSome self x y lnOffset h0
  have hv := rgb565_eq color.r color.g color.b hg hb
  have hlo : (((color.g &&& 0x1C) <<< 3) ||| ((color.b &&& 0xF8) >>> 3)) % 256
      = rgb565 color.r color.g color.b % 256 := by
    rw [green_low_bits _ hg, blue_high_bits _ hb, low_byte_or _ _ (by omega), hv]
    omega
  have hhi : ((color.r &&& 0xF8) ||| ((color.g &&& 0xE0) >>> 5)) % 256
      = rgb565 color.r color.g color.b / 256 := by
    rw [red_high_bits _ hr, green_high_bits _ hg, high_byte_or _ _ (by omega), hv]
    omega
  refine ⟨cursor, hc, ?_, by omega, by omega, by omega⟩
  unfold putPixel
  rw [hc, hm]
  simp only [lcdDataWrite, hlo, hhi, List.append_assoc, List.singleton_append]

/-! ## Fonts, the pixel clock and the colour of a font pixel -/

/-- C28 (failing input): in the sample font of two ranges, 20h to 7Eh and A0h to FFh, the
character 100h lies in neither range, and `GetCharInfo` returns the first character info of
the last range (2000), not of the first range (1000): the loop has left the last range's
`pFirstCharInfo` in `pCharInfo`, so the test `pCharInfo == 0` for the default is false. -/
theorem GetCharInfo_default_is_last_range :
    (∀ pProp ∈ sampleFont.pProp, ¬ (0x100 ≥ pProp.FirstChar ∧ 0x100 ≤ pProp.LastChar)) ∧
    sampleFont.pProp.head?.map (fun pProp => pProp.pFirstCharInfo) = some 1000 ∧
    sampleFont.pProp.getLast?.map (fun pProp => pProp.pFirstCharInfo) = some 2000 ∧
    GetCharInfo_loop 0x100 sampleFont.pProp 0 = Sum.inr 2000 ∧
    GetCharInfo sampleFont 0x100 = 2000 := by
  refine ⟨by decide, by decide, by decide, by decide, by decide⟩

/-- For a pixel clock of 14 MHz or more the dividers pass the range check of
`ra8876PllInitial` and the PLL frequency lies between 100 and 600 MHz. -/
theorem pllDividers_in_range (pclk : Nat) (h14 : 14 ≤ pclk) (h16 : pclk < 65536) :
    1 ≤ (pllDividers pclk).2 ∧ (pllDividers pclk).2 ≤ 63 ∧
    100 ≤ pllFrequency (pllDividers pclk).2 0 ∧ pllFrequency (pllDividers pclk).2 0 ≤ 600 := by
  unfold pllFrequency pllDividers toUInt8 OSC_FREQ SPLL_FREQ_MAX
  by_cases h1 : pclk > 54 ∧ pclk ≤ 148
  · rw [if_pos h1]
    have hx : 0 ≤ (pclk : Int) * 4 / ((12 : Nat) : Int) - 1 ∧
        (pclk : Int) * 4 / ((12 : Nat) : Int) - 1 < 256 := by
      simp only [Nat.cast_ofNat]
      omega
    simp only [Int.emod_eq_of_lt hx.1 hx.2, Nat.cast_ofNat, pow_zero, Nat.div_one]
    omega
  · rw [if_neg h1]
    by_cases h2 : pclk > 148
    · simp only [h2, if_true]
      decide
    · have hx : 0 ≤ (pclk : Int) * 8 / ((12 : Nat) : Int) - 1 ∧
          (pclk : Int) * 8 / ((12 : Nat) : Int) - 1 < 256 := by
        simp only [Nat.cast_ofNat]
        omega
      simp only [h2, if_false, Int.emod_eq_of_lt hx.1 hx.2, Nat.cast_ofNat, pow_zero,
        Nat.div_one]
      omega

/-- C29 (failing input): for the pixel clock of 9 MHz (the timing `WQVGA_480x272_60Hz` of
LcdParam.h) `ra8876PllInitial` computes `xPLLDIVK = 3`, `xPLLDIVN = 5`, passes its range check
`1 ≤ xPLLDIVN ≤ 63`, programs the registers 05h and 06h and reports success when the PLL
comes up; the PLL frequency `12 * (5 + 1) / 2^0` is 72 MHz, below 100 MHz. The same holds
for every pixel clock from 3 to 13 MHz; 74 MHz gives 288 MHz. -/
theorem ra8876PllInitial_pll_below_range :
    pllDividers 9 = (3, 5) ∧
    (ra8876PllInitial 1 0 0x80 9).1 = true ∧
    registerWrites none (ra8876PllInitial 1 0 0x80 9).2
      = [(RA8876_CCR, 0), (0x05, 6), (0x06, 5), (0x07, 2), (0x08, 26), (0x09, 2),
          (0x0A, 19), (RA8876_CCR, 0x80)] ∧
    pllFrequency (pllDividers 9).2 0 = 72 ∧
    (∀ pclk, pclk < 14 → 3 ≤ pclk →
      (1 ≤ (pllDividers pclk).2 ∧ (pllDividers pclk).2 ≤ 63) ∧
      pllFrequency (pllDividers pclk).2 0 < 100) ∧
    pllFrequency (pllDividers 74).2 0 = 288 := by
  refine ⟨by decide, by decide, by decide, by decide, by decide, by decide⟩

/-- C30 (failing input): for the font depth of 8 bits per pixel, `bfc_GetColorBasedPixel`
maps the pixel value 0 with the background colour (10, 20, 30) to (246, 236, 226): the
background term `bg.r*(255-pixel)` is not divided by 255, so it is `10 * 255 = 2550`, stored
in an 8-bit component. The maximum pixel value 255 gives the font colour, and so do both ends
of the depths 1, 2 and 4. -/
theorem bfc_GetColorBasedPixel_background_8bpp :
    bfc_GetColorBasedPixel (Color.mk 0 0 0 0) 0 8 (Color.mk 200 100 50 255)
      (Color.mk 10 20 30 255) = Color.mk 246 236 226 0 ∧
    (10 : Int) * (255 - 0) = 2550 ∧ toUInt8 2550 = 246 ∧
    bfc_GetColorBasedPixel (Color.mk 0 0 0 0) 255 8 (Color.mk 200 100 50 255)
      (Color.mk 10 20 30 255) = Color.mk 200 100 50 0 ∧
    (∀ bpp ∈ [1, 2, 4],
      bfc_GetColorBasedPixel (Color.mk 0 0 0 0) 0 bpp (Color.mk 200 100 50 255)
        (Color.mk 10 20 30 255) = Color.mk 10 20 30 0 ∧
      bfc_GetColorBasedPixel (Color.mk 0 0 0 0) (2 ^ bpp - 1) bpp (Color.mk 200 100 50 255)
        (Color.mk 10 20 30 255) = Color.mk 200 100 50 0) := by
  refine ⟨by decide, by decide, by decide, by decide, by decide⟩

/-! ## The theorems at concrete inputs -/

set_option maxRecDepth 100000

/-- C1 at canvas width 16383: two allocations, the first freed and its block allocated again;
the two live allocations occupy block 0 and blocks 1 to 2. -/
theorem live_allocations_disjoint_witness :
    blockSizeFor 16383 ≠ 0 ∧
    run 16383 Memory.fresh [] [Op.malloc 65532, Op.malloc 70000, Op.free 0, Op.malloc 3]
      ≠ Except.error TraceError.undefinedBehaviour ∧
    run 16383 Memory.fresh [] [Op.malloc 65532, Op.malloc 70000, Op.free 0, Op.malloc 3]
      = Except.ok (allocator16383 [1, 2, 2],
          [{ offset := 0, size := 3 }, { offset := 65532, size := 70000 }]) ∧
    List.Pairwise (DisjointBlocks 65532)
      [{ offset := 0, size := 3 }, { offset := 65532, size := 70000 }] :=
  ⟨by decide,
    (live_allocations_disjoint 16383
      [Op.malloc 65532, Op.malloc 70000, Op.free 0, Op.malloc 3]).1 (by decide),
    rfl,
    (live_allocations_disjoint 16383
      [Op.malloc 65532, Op.malloc 70000, Op.free 0, Op.malloc 3]).2
      (allocator16383 [1, 2, 2])
      [{ offset := 0, size := 3 }, { offset := 65532, size := 70000 }] rfl⟩

/-- C2 at canvas width 16383: with block 0 in use, a request for 70000 bytes (2 blocks) returns
65532 and stamps 2 on blocks 1 and 2. -/
theorem mem_malloc_stamps_exactly_witness :
    ensureReady 16383 (allocator16383 [1]) = some (allocator16383 [1]) ∧
    Initialised (allocator16383 [1]) ∧
    mem_malloc 16383 (allocator16383 [1]) 70000 = some (allocator16383 [1, 2, 2], 65532) ∧
    Vacant (allocator16383 [1]).memory_tbl 1 2 ∧
    Stamped (allocator16383 [1, 2, 2]).memory_tbl 1 2 2 ∧
    SameOutside (allocator16383 [1]).memory_tbl (allocator16383 [1, 2, 2]).memory_tbl 1 2 ∧
    usedBlocks (allocator16383 [1, 2, 2]).memory_tbl
      = usedBlocks (allocator16383 [1]).memory_tbl + 2 :=
  have h := mem_malloc_stamps_exactly 16383 (allocator16383 [1]) (allocator16383 [1])
    (allocator16383 [1, 2, 2]) 70000 65532 rfl (by decide) (by decide) (by decide) (by decide)
  ⟨rfl, by decide, by decide, h.2.2.2.1, h.2.2.2.2.1, h.2.2.2.2.2.1, h.2.2.2.2.2.2.2.2⟩

/-- C4 at canvas width 16383: with block 0 in use, a request for 512 blocks finds no run (the
only start block inside the table is block 0) and fails. -/
theorem mem_malloc_fails_without_run_witness :
    Initialised (allocator16383 [1]) ∧
    ceilDiv 33552384 (allocator16383 [1]).mem_block_size = 512 ∧
    mem_malloc 16383 (allocator16383 [1]) 33552384 = some (allocator16383 [1], -1) :=
  ⟨by decide, by decide,
    mem_malloc_fails_without_run 16383 (allocator16383 [1]) 33552384
      (by decide) (by decide) (by decide)
      (fun i _ hi hv =>
        have hi2 : i + 512 ≤ 512 := hi
        have hi0 : i = 0 := by omega
        have h0 : (allocator16383 [1]).memory_tbl[i + 0]? = some 0 := hv 0 (by decide)
        absurd (hi0 ▸ h0) (by decide))⟩

/-- C5 at canvas width 16383: freeing the second of two live allocations clears blocks 1 and 2
and nothing else. -/
theorem mem_free_live_witness :
    run 16383 Memory.fresh [] [Op.malloc 65532, Op.malloc 70000]
      = Except.ok (allocator16383 [1, 2, 2],
          [{ offset := 65532, size := 70000 }, { offset := 0, size := 65532 }]) ∧
    ∃ m', mem_free 16383 (allocator16383 [1, 2, 2]) 65532 = some (m', 0) ∧
      Stamped m'.memory_tbl 1 2 0 ∧
      SameOutside (allocator16383 [1, 2, 2]).memory_tbl m'.memory_tbl 1 2 ∧
      m'.mem_block_size = 65532 ∧ m'.mem_alloc_tbl_size = 512 :=
  ⟨rfl,
    mem_free_live 16383 [Op.malloc 65532, Op.malloc 70000] (allocator16383 [1, 2, 2])
      [{ offset := 65532, size := 70000 }, { offset := 0, size := 65532 }]
      { offset := 65532, size := 70000 } rfl (by decide)⟩

/-- C6 at canvas width 800 with 2 bytes per pixel and line offset 100. -/
theorem canvasAddress_from_lnOffset_eq_witness :
    (1 ≤ 800 ∧ 800 < 65536 ∧ 100 < 2 ^ 32) ∧
    canvasAddress_from_lnOffset 800 COLOR_MODE.COLOR_16BPP_RGB565 100
      = some (addressFromLineOffset 800 2 100) :=
  ⟨by decide,
    (canvasAddress_from_lnOffset_eq.1 800 COLOR_MODE.COLOR_16BPP_RGB565 100
      (by decide) (by decide) (by decide)).1⟩

/-- C7 at canvas width 16383: allocate 70000 bytes behind a used block, free them, allocate
them again; both allocations return 65532. -/
theorem malloc_free_malloc_same_witness :
    Initialised (allocator16383 [1]) ∧
    mem_malloc 16383 (allocator16383 [1]) 70000 = some (allocator16383 [1, 2, 2], 65532) ∧
    ∃ m2 m3, mem_free 16383 (allocator16383 [1, 2, 2]) 65532 = some (m2, 0) ∧
      mem_malloc 16383 m2 70000 = some (m3, 65532) ∧ m2 = allocator16383 [1] :=
  ⟨by decide, by decide,
    malloc_free_malloc_same 16383 (allocator16383 [1]) (allocator16383 [1, 2, 2]) 70000 65532
      (by decide) (by decide) (by decide) (by decide)⟩

/-- C8 on a new allocator at canvas width 16383: the lazy initialisation is defined and
`mem_malloc(0)` fails on the empty table. -/
theorem mem_malloc_zero_witness :
    (Memory.fresh.isMemoryManagementReady = 0 → blockSizeFor 16383 ≠ 0) ∧
    ∃ m', mem_malloc 16383 Memory.fresh 0 = some (m', -1) ∧
      (Memory.fresh.isMemoryManagementReady ≠ 0 → m' = Memory.fresh) ∧
      (Memory.fresh.isMemoryManagementReady = 0 → ∀ e ∈ m'.memory_tbl, e = 0) :=
  ⟨fun _ => by decide, mem_malloc_zero 16383 Memory.fresh (fun _ => by decide)⟩

/-- C9 at the failure value `-1` of `mem_malloc`. -/
theorem mem_free_out_of_bound_witness :
    (allocator16383 [1]).isMemoryManagementReady ≠ 0 ∧
    mem_free 16383 (allocator16383 [1]) (-1) = some (allocator16383 [1], 1) :=
  ⟨by decide,
    mem_free_out_of_bound 16383 (allocator16383 [1]) (-1) (by decide) (by decide) (by decide)
      (Or.inl (by decide))⟩

/-- C10 at canvas width 16383: with block 0 in use, a request for the whole arena (513
blocks) fails and the table, the block size and the table size are what they were. -/
theorem mem_malloc_failure_atomic_witness :
    (allocator16383 [1]).isMemoryManagementReady ≠ 0 ∧
    mem_malloc 16383 (allocator16383 [1]) 33554432 = some (allocator16383 [1], -1) ∧
    (allocator16383 [1]).memory_tbl = 1 :: List.replicate 511 0 ∧
    (allocator16383 [1]).mem_block_size = 65532 ∧
    (allocator16383 [1]).mem_alloc_tbl_size = 512 :=
  have h := mem_malloc_failure_atomic 16383 (allocator16383 [1]) (allocator16383 [1]) 33554432
    (by decide) (by decide)
  ⟨by decide, by decide, h.1, h.2.1, h.2.2.1⟩

/-- C11 (amended) at canvas width 1280: the block size is 5120 in every colour mode. -/
theorem mem_init_block_size_witness :
    (0 < 1280 ∧ 1280 < 16384) ∧
    ∃ m0, mem_init 1280 Memory.fresh = some m0 ∧ m0.mem_block_size = 1280 * MEM_BLOCK_LN_NUM ∧
      m0.mem_block_size = (1280 % 65536 * MEM_BLOCK_LN_NUM) % 65536 :=
  ⟨by decide, mem_init_block_size 1280 Memory.fresh (by decide) (by decide)⟩

/-- C13 at concrete calls: the register writes of the 8-bit `bteMpuWriteWithROP` of one pixel
(bytes ABh, CDh) from source 1 at address 0 to the destination at address 768000 on images of
800 pixels, and of `bteMemoryCopyWithOpacity` with `alpha = 16`. -/
theorem bte_primitives_follow_protocol_witness :
    (bteMpuWriteWithROP sampleCodes 0 800 5 6 768000 800 7 8 1 1 12
        (fun k => if k = 0 then 0xAB else 0xCD)).map (registerWrites none)
      = some [(0x9D, 0), (0x9E, 0), (0x9F, 0), (0xA0, 0), (0xA1, 0x20), (0xA2, 0x03),
          (0xA3, 5), (0xA4, 0), (0xA5, 6), (0xA6, 0),
          (0xA7, 0x00), (0xA8, 0xB8), (0xA9, 0x0B), (0xAA, 0), (0xAB, 0x20), (0xAC, 0x03),
          (0xAD, 7), (0xAE, 0), (0xAF, 8), (0xB0, 0),
          (0xB1, 1), (0xB2, 0), (0xB3, 1), (0xB4, 0),
          (0x91, 0xC0), (0x90, 0x10), (0x04, 0xAB), (0x04, 0xCD)] ∧
    registerWrites none (bteMemoryCopyWithOpacity sampleCodes (fun _ => 0)
        0 800 5 6 0 800 0 0 768000 800 7 8 10 20 16)
      = [(0x93, 0), (0x94, 0), (0x95, 0), (0x96, 0), (0x97, 0x20), (0x98, 0x03),
          (0x99, 5), (0x9A, 0), (0x9B, 6), (0x9C, 0),
          (0x9D, 0), (0x9E, 0), (0x9F, 0), (0xA0, 0), (0xA1, 0x20), (0xA2, 0x03),
          (0xA3, 0), (0xA4, 0), (0xA5, 0), (0xA6, 0),
          (0xA7, 0x00), (0xA8, 0xB8), (0xA9, 0x0B), (0xAA, 0), (0xAB, 0x20), (0xAC, 0x03),
          (0xAD, 7), (0xAE, 0), (0xAF, 8), (0xB0, 0),
          (0xB1, 10), (0xB2, 0), (0xB3, 20), (0xB4, 0),
          (0x91, 10), (0xB5, 16), (0x90, 0x10)] :=
  ⟨Eq.trans ((bte_primitives_follow_protocol sampleCodes sampleDisplay (fun _ => 0)).2.2.1
      0 800 5 6 768000 800 7 8 1 1 12 (fun k => if k = 0 then 0xAB else 0xCD)).2.1.1
      (by decide),
    Eq.trans ((bte_primitives_follow_protocol sampleCodes sampleDisplay (fun _ => 0)).2.2.2.2.2.2.1
      0 800 5 6 0 800 0 0 768000 800 7 8 10 20 16).1 (by decide)⟩

/-- C14 at a concrete call: `canvasWrite` of 16 bytes with the out-of-range line offset 20971
on the canvas of 800 by 480 pixels. -/
theorem bulk_transfers_restore_defaults_witness :
    (0 < sampleDisplay._canvasWidth ∧ sampleDisplay._canvasWidth < 65536 ∧
      sampleDisplay._canvasHeight < 65536 ∧ 0 < 16) ∧
    canvasAddress_from_lnOffset 800 COLOR_MODE.COLOR_16BPP_RGB565 20971 = some (-1) ∧
    ∃ front, canvasWrite sampleDisplay (fun _ => 0) 20971 16
        = some (front ++ restoreMainWindow sampleDisplay) ∧
      RestoredDefaults sampleDisplay
        (registerWrites none (front ++ restoreMainWindow sampleDisplay)) :=
  ⟨by decide, by decide,
    (bulk_transfers_restore_defaults sampleDisplay (by decide) (by decide) (by decide)).1
      (fun _ => 0) 20971 16 (by decide)⟩

/-- C16 (amended) at a concrete call: a copy of 20 by 20 pixels to (90, 95) of a bitmap of
100 by 100 pixels is clipped to 10 by 5 pixels. -/
theorem blit_clipped_size_witness :
    (sampleBitmap.w < 65536 ∧ sampleBitmap.h < 65536 ∧ (0 : Int) ≤ 90 ∧
      (90 : Int) ≤ sampleBitmap.w ∧ (0 : Int) ≤ 95 ∧ (95 : Int) ≤ sampleBitmap.h ∧
      (0 : Int) ≤ sampleBitmap.w ∧ (0 : Int) ≤ sampleBitmap.h ∧ (0 : Int) ≤ 20 ∧
      (90 : Int) + 20 ≤ 2147483647 ∧ (95 : Int) + 20 ≤ 2147483647) ∧
    clippedSize 20 sampleBitmap.w 90 = 10 ∧ clippedSize 20 sampleBitmap.h 95 = 5 ∧
    ∃ log, blit sampleCodes (fun _ => 0) sampleBitmap sampleBitmap 0 0 90 95 20 20 = some log ∧
      TransferSize (registerWrites none log)
        (clippedSize 20 sampleBitmap.w 90) (clippedSize 20 sampleBitmap.h 95) :=
  ⟨by decide, by decide, by decide,
    (blit_clipped_size sampleCodes sampleDisplay (fun _ => 0) sampleBitmap sampleBitmap
      0 0 90 95 20 20 16 (by decide) (by decide) (by decide) (by decide) (by decide)
      (by decide) (by decide) (by decide) (by decide) (by decide) (by decide) (by decide)).1⟩

/-- C17 (amended) at a concrete call: `source_x = 101` is beyond the source bitmap of 100 by
100 pixels. -/
theorem blit_rejects_start_beyond_witness :
    ((101 : Int) > sampleBitmap.w ∨ (0 : Int) > sampleBitmap.h ∨ (0 : Int) > sampleBitmap.w ∨
      (0 : Int) > sampleBitmap.h) ∧
    blit sampleCodes (fun _ => 0) sampleBitmap sampleBitmap 101 0 0 0 10 10 = some [] ∧
    masked_blit sampleCodes sampleDisplay (fun _ => 0) sampleBitmap sampleBitmap
      101 0 0 0 10 10 = some [] ∧
    alpha_blit sampleCodes (fun _ => 0) sampleBitmap sampleBitmap 101 0 0 0 10 10 16
      = some [] :=
  ⟨by decide,
    blit_rejects_start_beyond sampleCodes sampleDisplay (fun _ => 0) sampleBitmap sampleBitmap
      101 0 0 0 10 10 16 (by decide)⟩

/-- C18 at a concrete call: `alpha = 200` programs 32. -/
theorem bteMemoryCopyWithOpacity_alpha_witness :
    200 < 256 ∧
    lastWrite (registerWrites none (bteMemoryCopyWithOpacity sampleCodes (fun _ => 0)
      0 800 0 0 0 800 0 0 0 800 0 0 10 10 200)) RA8876_APB_CTRL = some (min 200 32) :=
  ⟨by decide,
    (bteMemoryCopyWithOpacity_alpha sampleCodes (fun _ => 0) 0 800 0 0 0 800 0 0 0 800 0 0
      10 10 200 (by decide)).2.1⟩

/-- C20 at a concrete call: a picture of 800 by 480 pixels of 2 bytes to address 768000. -/
theorem dmaDataLinearTransfer_programs_witness :
    (768000 < 4294967296 ∧
      800 * 480 * getColorDepth sampleDisplay._colorMode < 4294967296) ∧
    lastWrite32 (registerWrites none (dmaDataLinearTransfer sampleCodes sampleDisplay
        (fun _ => 0) 768000 800 480 0))
        RA8876_DMA_DX0 RA8876_DMA_DX1 RA8876_DMA_DY0 RA8876_DMA_DY1 = some 768000 ∧
    lastWrite32 (registerWrites none (dmaDataLinearTransfer sampleCodes sampleDisplay
        (fun _ => 0) 768000 800 480 0))
        RA8876_DMAW_WTH0 RA8876_DMAW_WTH1 RA8876_DMAW_HIGH0 RA8876_DMAW_HIGH1
      = some (800 * 480 * getColorDepth sampleDisplay._colorMode) :=
  ⟨by decide,
    (dmaDataLinearTransfer_programs sampleCodes sampleDisplay (fun _ => 0) 768000 800 480 0
      (by decide) (by decide)).2.2.1,
    (dmaDataLinearTransfer_programs sampleCodes sampleDisplay (fun _ => 0) 768000 800 480 0
      (by decide) (by decide)).2.2.2.1⟩

/-- C22 on the arena of 16 blocks of 4096 bytes with block 0 in use and the threshold 8192: a
request for 4096 bytes is of the small class and gets the last block, at 61440. -/
theorem mem_malloc_small_class_witness :
    (Initialised (arena16 [1]) ∧ 0 < 4096 ∧ 4096 ≤ 8192 ∧ 4096 < 2 ^ 32) ∧
    (mem_malloc_with 8192 1024 (arena16 [1]) 4096).map Prod.snd = some 61440 ∧
    ((∃ i tbl', MEM_START_ENTRY ≤ i ∧
        i + ceilDiv 4096 (arena16 [1]).mem_block_size ≤ (arena16 [1]).mem_alloc_tbl_size ∧
        Vacant (arena16 [1]).memory_tbl i (ceilDiv 4096 (arena16 [1]).mem_block_size) ∧
        (∀ k, i < k →
          k + ceilDiv 4096 (arena16 [1]).mem_block_size ≤ (arena16 [1]).mem_alloc_tbl_size →
          ¬ Vacant (arena16 [1]).memory_tbl k (ceilDiv 4096 (arena16 [1]).mem_block_size)) ∧
        writeRun (arena16 [1]).memory_tbl (ceilDiv 4096 (arena16 [1]).mem_block_size) i
          (ceilDiv 4096 (arena16 [1]).mem_block_size) = some tbl' ∧
        mem_malloc_with 8192 1024 (arena16 [1]) 4096
          = some ({ arena16 [1] with memory_tbl := tbl' },
              ((i * (arena16 [1]).mem_block_size : Nat) : Int))) ∨
      ((∀ k, MEM_START_ENTRY ≤ k →
          k + ceilDiv 4096 (arena16 [1]).mem_block_size ≤ (arena16 [1]).mem_alloc_tbl_size →
          ¬ Vacant (arena16 [1]).memory_tbl k (ceilDiv 4096 (arena16 [1]).mem_block_size)) ∧
        mem_malloc_with 8192 1024 (arena16 [1]) 4096 = some (arena16 [1], -1))) :=
  ⟨by decide, by decide,
    mem_malloc_small_class 8192 1024 (arena16 [1]) 4096 (by decide) (by decide) (by decide)
      (by decide)⟩

/-- C24 on the arena of 16 blocks of 4096 bytes with block 0 in use: a request for 5000 bytes
gets the two blocks at 4096. -/
theorem mem_malloc_range_in_arena_witness :
    (ensureReady 1024 (arena16 [1]) = some (arena16 [1]) ∧ Initialised (arena16 [1]) ∧
      5000 < 2 ^ 32 ∧
      mem_malloc 1024 (arena16 [1]) 5000 = some (arena16 [1, 2, 2], 4096) ∧
      (4096 : Int) ≠ -1) ∧
    (0 : Int) ≤ 4096 ∧
    (4096 : Int) + ((5000 : Nat) : Int)
      ≤ 4096 + ((ceilDiv 5000 (arena16 [1]).mem_block_size * (arena16 [1]).mem_block_size
          : Nat) : Int) ∧
    (4096 : Int) + ((ceilDiv 5000 (arena16 [1]).mem_block_size * (arena16 [1]).mem_block_size
        : Nat) : Int) ≤ (MEM_SIZE_MAX : Int) :=
  ⟨by decide,
    mem_malloc_range_in_arena 1024 (arena16 [1]) (arena16 [1]) (arena16 [1, 2, 2]) 5000 4096
      (by decide) (by decide) (by decide) (by decide) (by decide)⟩

/-- C26 at canvas width 800 in the 16-bit colour mode and line offset 100. -/
theorem canvasAddress_in_arena_witness :
    (1 ≤ 800 ∧ 800 < 65536) ∧
    ∃ a, canvasAddress_from_lnOffset 800 COLOR_MODE.COLOR_16BPP_RGB565 100 = some a ∧
      (a < 0 ↔ MEM_SIZE_MAX / (800 * getColorDepth COLOR_MODE.COLOR_16BPP_RGB565) ≤ 100) ∧
      (a < 0 → a = -1) ∧
      (0 ≤ a →
        a = ((100 * 800 * getColorDepth COLOR_MODE.COLOR_16BPP_RGB565 : Nat) : Int) ∧
        a + ((800 * getColorDepth COLOR_MODE.COLOR_16BPP_RGB565 : Nat) : Int)
          ≤ (MEM_SIZE_MAX : Int)) :=
  ⟨by decide,
    canvasAddress_in_arena 800 COLOR_MODE.COLOR_16BPP_RGB565 100 (by decide) (by decide)⟩

/-- C27 at a concrete pixel: the colour (255, 128, 64) is the value FC08h, written as 08h and
FCh. -/
theorem putPixel_rgb565_witness :
    (sampleDisplay._colorMode = COLOR_MODE.COLOR_16BPP_RGB565 ∧
      0 < sampleDisplay._canvasWidth ∧ (Color.mk 255 128 64 255).r < 256 ∧
      (Color.mk 255 128 64 255).g < 256 ∧ (Color.mk 255 128 64 255).b < 256) ∧
    rgb565 255 128 64 = 0xFC08 ∧
    ∃ cursor, setPixelCursor sampleDisplay 10 20 0 = some cursor ∧
      putPixel sampleDisplay 10 20 (Color.mk 255 128 64 255) 0
        = some (cursor ++ ramAccessPrepare ++
            [Bus.data (rgb565 (Color.mk 255 128 64 255).r (Color.mk 255 128 64 255).g
                (Color.mk 255 128 64 255).b % 256),
              Bus.data (rgb565 (Color.mk 255 128 64 255).r (Color.mk 255 128 64 255).g
                (Color.mk 255 128 64 255).b / 256)]) ∧
      rgb565 (Color.mk 255 128 64 255).r (Color.mk 255 128 64 255).g
          (Color.mk 255 128 64 255).b % 256
        = (Color.mk 255 128 64 255).g / 4 % 8 * 32 + (Color.mk 255 128 64 255).b / 8 ∧
      rgb565 (Color.mk 255 128 64 255).r (Color.mk 255 128 64 255).g
          (Color.mk 255 128 64 255).b / 256
        = (Color.mk 255 128 64 255).r / 8 * 8 + (Color.mk 255 128 64 255).g / 32 ∧
      rgb565 (Color.mk 255 128 64 255).r (Color.mk 255 128 64 255).g
          (Color.mk 255 128 64 255).b < 65536 :=
  ⟨by decide, by decide,
    putPixel_rgb565 sampleDisplay 10 20 (Color.mk 255 128 64 255) 0 (by decide) (by decide)
      (by decide) (by decide) (by decide)⟩

end Ra8876
